import Mathlib

/-!
# mpc-sdk-go: the authenticated request pipeline and its call sites

A shallow embedding of `common/client.go`, `mpcsdk.go`, `configuration/config.go` and the four
resource services (`wallet`, `account`, `asset`, `transaction`).

Conventions of the embedding
* A Go `error` is a `GoError`; a Go `(T, error)` result is a pair whose second component is an
  `Option GoError` (`none` is the nil error).
* A Go pointer `*T` is an `Option T` (`none` is the nil pointer).
* Go `int` / `int64` fields are `Int`; the only place where the width matters is the decoding of
  a JSON number, which checks the 64-bit range.
* A byte string that is handed to `encoding/json` is modelled by what the scanner of that
  package makes of it: a syntax error, or one JSON value (`Bytes`).  A `json.RawMessage` is
  `none` (nil, length 0) or the JSON value whose text it holds (length > 0).
* What lies outside the repository and outside the process (the URL parser of `net/url`, the
  token manager of package `auth`, the network) is gathered in an `Env`.
* The pointers that the constructors of the repository always set (the client of a service, the
  HTTP client and the token manager of a client) are taken as set, and a `result` argument that
  is not nil is a pointer.  The context argument of the service methods is never used by the
  code and is left out.
-/

namespace MpcSdk

/-! ## Go errors -/

/-- A Go error value: `errorString` is what `fmt.Errorf` without `%w` (and `errors.New`) builds,
`wrapError` what `fmt.Errorf` with `%w` builds (its text and the error it wraps),
`unmarshalTypeError` a `*json.UnmarshalTypeError` by its fields `Value`, `Type` (printed),
`Struct` and `Field`. -/
inductive GoError where
  | errorString (s : String)
  | wrapError (msg : String) (err : GoError)
  | unmarshalTypeError (value typ struct field : String)
  deriving DecidableEq, Repr

/-- The method `Error()`. -/
def GoError.Error : GoError → String
  | .errorString s => s
  | .wrapError msg _ => msg
  | .unmarshalTypeError value typ struct field =>
    if struct ≠ "" ∨ field ≠ "" then
      "json: cannot unmarshal " ++ value ++ " into Go struct field " ++ struct ++ "." ++ field
        ++ " of type " ++ typ
    else "json: cannot unmarshal " ++ value ++ " into Go value of type " ++ typ

/-- The method `Unwrap()` of `errors.Unwrap`: the wrapped error, if any. -/
def GoError.Unwrap : GoError → Option GoError
  | .wrapError _ err => some err
  | _ => none

/-- The call `fmt.Errorf(pre + "%w", err)` for a format that ends in `%w`. -/
def Errorf_w (pre : String) (err : GoError) : GoError :=
  .wrapError (pre ++ err.Error) err

/-- The call `fmt.Errorf(pre + "%v", err)` for a format that ends in `%v`: no wrapping. -/
def Errorf_v (pre : String) (err : GoError) : GoError :=
  .errorString (pre ++ err.Error)

/-- The verb `%d` and `strconv.Itoa`: decimal, with a leading `-` for negative numbers. -/
def Itoa (n : Int) : String := toString n

/-! ## JSON values and `encoding/json` -/

/-- A JSON value.  A number literal in integer form (an optional `-` and digits) is `int`;
a literal with a fraction or an exponent is `real` and keeps its text.  An object keeps its
members in the order of the text, duplicates included. -/
inductive JSON where
  | null
  | bool (b : Bool)
  | int (n : Int)
  | real (lit : String)
  | str (s : String)
  | arr (xs : List JSON)
  | obj (kvs : List (String × JSON))

/-- What `encoding/json` is given as input: bytes that are not valid JSON (with the
`*json.SyntaxError` the package reports for them), or the text of one JSON value. -/
inductive Bytes where
  | invalid (err : GoError)
  | valid (v : JSON)

/-- A `json.RawMessage`: nil (length 0), or the raw text of one JSON value (length > 0, the
text of a value is never empty). -/
abbrev RawMessage := Option JSON

/-- The description of a JSON value in the `Value` of an `UnmarshalTypeError`. -/
def JSON.kind : JSON → String
  | .null => "null"
  | .bool _ => "bool"
  | .int _ => "number"
  | .real _ => "number"
  | .str _ => "string"
  | .arr _ => "array"
  | .obj _ => "object"

/-- The `UnmarshalTypeError` for a JSON value `v` that does not fit the Go type `goType`, before
the decoder adds the struct and the field it was decoding. -/
def unmarshalTypeError (v : JSON) (goType : String) : GoError :=
  .unmarshalTypeError v.kind goType "" ""

/-- The method `addErrorContext` of the decoder for the field `field` of the struct `struct`:
an `UnmarshalTypeError` gets the name of the innermost struct and the path of the field. -/
def addErrorContext (struct field : String) : GoError → GoError
  | .unmarshalTypeError value typ s f =>
    .unmarshalTypeError value typ (if s = "" then struct else s)
      (if f = "" then field else field ++ "." ++ f)
  | e => e

/-- The decoder state `d.savedError`: only the first error is kept. -/
def saveError (saved new : Option GoError) : Option GoError :=
  match saved with
  | some e => some e
  | none => new

/-- A type that `json.Unmarshal` can decode into: `unmarshal v a` is the value the target holds
after decoding the JSON value `v` into a target that held `a`, and the error returned.  As in
Go the target may have been changed even when an error is returned. -/
class Unmarshaler (α : Type) where
  unmarshal : JSON → α → α × Option GoError

/-- A type that `json.Marshal` can encode. -/
class Marshaler (β : Type) where
  marshal : β → Except GoError JSON

/-- The function `json.Unmarshal(data, &target)`. -/
def jsonUnmarshal {α : Type} [Unmarshaler α] (data : Bytes) (target : α) : α × Option GoError :=
  match data with
  | .invalid err => (target, some err)
  | .valid v => Unmarshaler.unmarshal v target

/-- The simple case folding of `encoding/json` (`foldRune`) on the runes whose fold orbit meets
ASCII: the letters, U+017F (long s) and U+212A (Kelvin sign).  Every field name of this
repository is ASCII, so no other rune can take part in a match. -/
def foldRune (c : Char) : Char :=
  if 'a'.toNat ≤ c.toNat ∧ c.toNat ≤ 'z'.toNat then Char.ofNat (c.toNat - 32)
  else if c.toNat = 0x17F then 'S'
  else if c.toNat = 0x212A then 'K'
  else c

/-- The function `foldName` of `encoding/json`. -/
def foldName (s : String) : String := String.mk (s.toList.map foldRune)

/-- One field of a struct as the decoder sees it: the name of its `json` tag and how a JSON
value is stored into it. -/
structure Field (α : Type) where
  name : String
  store : JSON → α → α × Option GoError

/-- The field a member key selects: the field of that exact name, else the first field whose
folded name is the folded key. -/
def findField {α : Type} (fields : List (Field α)) (key : String) : Option (Field α) :=
  match fields.find? (fun f => f.name == key) with
  | some f => some f
  | none => fields.find? (fun f => foldName f.name == foldName key)

/-- One member of an object on its way into the struct `struct`: a key that selects no field
is skipped, else the value is stored into the field; the first error is kept, with its context,
and decoding goes on. -/
def storeMember {α : Type} (struct : String) (fields : List (Field α))
    (acc : α × Option GoError) (kv : String × JSON) : α × Option GoError :=
  match findField fields kv.1 with
  | none => acc
  | some f =>
    let r := f.store kv.2 acc.1
    (r.1, saveError acc.2 (r.2.map (addErrorContext struct f.name)))

/-- Decoding into the struct `pkg.struct`: `null` changes nothing; the members of an object are
stored in order; any other value is an `UnmarshalTypeError`. -/
def unmarshalStruct {α : Type} (pkg struct : String) (fields : List (Field α)) :
    JSON → α → α × Option GoError
  | .null, a => (a, none)
  | .obj kvs, a => kvs.foldl (storeMember struct fields) (a, none)
  | v, a => (a, some (unmarshalTypeError v (pkg ++ "." ++ struct)))

/-- Storing into a field of type `string`. -/
def storeString {α : Type} (set : α → String → α) : JSON → α → α × Option GoError
  | .null, a => (a, none)
  | .str s, a => (set a s, none)
  | v, a => (a, some (unmarshalTypeError v "string"))

/-- Storing into a field of type `int` or `int64` (both 64 bits wide): the literal must be in
integer form and in range. -/
def storeInt {α : Type} (goType : String) (set : α → Int → α) : JSON → α → α × Option GoError
  | .null, a => (a, none)
  | .int n, a =>
    if -(2 ^ 63 : Int) ≤ n ∧ n < 2 ^ 63 then (set a n, none)
    else (a, some (.unmarshalTypeError ("number " ++ Itoa n) goType "" ""))
  | .real lit, a => (a, some (.unmarshalTypeError ("number " ++ lit) goType "" ""))
  | v, a => (a, some (unmarshalTypeError v goType))

/-- Storing into a field of type `json.RawMessage`: the text of any value, `null` included. -/
def storeRaw {α : Type} (set : α → RawMessage → α) : JSON → α → α × Option GoError
  | v, a => (set a (some v), none)

/-- Decoding into a slice of pointers `[]*T` that is nil before the call (as every slice this
repository decodes into is): `null` leaves it nil, an array yields one pointer per element
(`null` the nil pointer, any other value a new `T` decoded from it). -/
def unmarshalPtrSlice {α : Type} [Unmarshaler α] (zero : α) (goType : String) :
    JSON → List (Option α) → List (Option α) × Option GoError
  | .null, _ => ([], none)
  | .arr xs, _ =>
    xs.foldl (fun (acc : List (Option α) × Option GoError) (x : JSON) =>
      match x with
      | .null => (acc.1 ++ [none], acc.2)
      | v =>
        let r := Unmarshaler.unmarshal v zero
        (acc.1 ++ [some r.1], saveError acc.2 r.2)) ([], none)
  | v, a => (a, some (unmarshalTypeError v goType))

/-- Decoding into a slice of structs `[]T` that is nil before the call. -/
def unmarshalSlice {α : Type} [Unmarshaler α] (zero : α) (goType : String) :
    JSON → List α → List α × Option GoError
  | .null, _ => ([], none)
  | .arr xs, _ =>
    xs.foldl (fun (acc : List α × Option GoError) (x : JSON) =>
      let r := Unmarshaler.unmarshal x zero
      (acc.1 ++ [r.1], saveError acc.2 r.2)) ([], none)
  | v, a => (a, some (unmarshalTypeError v goType))

/-- The body type of the calls that pass the untyped `nil` as body; it is never encoded. -/
instance : Marshaler Unit where
  marshal _ := .ok .null

/-- Marshalling a pointer: the nil pointer is encoded as `null`. -/
instance instMarshalerPtr {β : Type} [Marshaler β] : Marshaler (Option β) where
  marshal
    | none => .ok .null
    | some b => Marshaler.marshal b

/-! ## `net/url` and `net/http` -/

/-- A Go slice `[]T`, by its elements (nil and empty are not told apart). -/
abbrev Slice (α : Type) := List α

/-- A Go `map[string]string`, by its entries in the order in which a `range` loop visits them.
The keys of a map are distinct (`GoMap.WF`). -/
abbrev GoMap := List (String × String)

/-- The keys of a map are pairwise distinct. -/
def GoMap.WF (m : GoMap) : Prop := (m.map Prod.fst).Nodup

instance (m : GoMap) : Decidable m.WF := inferInstanceAs (Decidable (m.map Prod.fst).Nodup)

/-- The lookup `m[k]` with the comma-ok form. -/
def GoMap.get? (m : GoMap) (k : String) : Option String := m.lookup k

/-- The assignment `m[k] = v`. -/
def GoMap.set (m : GoMap) (k v : String) : GoMap :=
  match m.lookup k with
  | some _ => m.map (fun e => if e.1 = k then (e.1, v) else e)
  | none => m ++ [(k, v)]

/-- The type `url.Values`, a `map[string][]string`, by its entries. -/
abbrev Values := List (String × List String)

/-- The lookup `v[key]`: the values of a key, nil when the key is absent. -/
def Values.values (q : Values) (key : String) : List String := (q.lookup key).getD []

/-- The method `Values.Add`: append the value to the values of the key. -/
def Values.Add (q : Values) (key value : String) : Values :=
  match q.lookup key with
  | some _ => q.map (fun e => if e.1 = key then (e.1, e.2 ++ [value]) else e)
  | none => q ++ [(key, [value])]

/-- The order in which Go compares strings: byte by byte, which on UTF-8 text is the
lexicographic order of the code points. -/
def keyLE (a b : String) : Prop := a.data ≤ b.data

instance : DecidableRel keyLE := fun a b => inferInstanceAs (Decidable (a.data ≤ b.data))

instance : IsTotal String keyLE := ⟨fun a b => le_total a.data b.data⟩

instance : IsTrans String keyLE := ⟨fun _ _ _ h1 h2 => le_trans h1 h2⟩

instance : IsAntisymm String keyLE := ⟨fun _ _ h1 h2 => String.ext (le_antisymm h1 h2)⟩

/-- The key/value pairs in the order in which `Values.Encode` writes them: keys ascending, the
values of one key in their order. -/
def Values.pairs (q : Values) : List (String × String) :=
  ((q.map Prod.fst).insertionSort keyLE).flatMap
    (fun k => (q.values k).map (fun v => (k, v)))

/-- The digit of `"0123456789ABCDEF"` for a number below 16. -/
def upperhex (n : Nat) : Char :=
  if n < 10 then Char.ofNat (48 + n) else Char.ofNat (55 + n)

/-- One byte under `url.QueryEscape`: letters, digits, `-`, `_`, `.` and `~` stay, a space
becomes `+`, every other byte becomes `%XX`. -/
def escapeByte (b : Nat) : String :=
  if (48 ≤ b ∧ b ≤ 57) ∨ (65 ≤ b ∧ b ≤ 90) ∨ (97 ≤ b ∧ b ≤ 122)
      ∨ b = 45 ∨ b = 95 ∨ b = 46 ∨ b = 126 then String.singleton (Char.ofNat b)
  else if b = 32 then "+"
  else String.mk ['%', upperhex (b / 16), upperhex (b % 16)]

/-- The characters of an escaped string: ASCII letters and digits, `-`, `_`, `.`, `~`, the `+`
that stands for a space and the `%` of an escape.  None of them is `&`, `=`, `#` or `?`. -/
def isQueryChar (c : Char) : Bool :=
  c.isAlphanum || c == '-' || c == '_' || c == '.' || c == '~' || c == '+' || c == '%'

/-- The function `url.QueryEscape`, on the UTF-8 bytes of the string. -/
def QueryEscape (s : String) : String :=
  String.join ((s.toList.flatMap String.utf8EncodeChar).map (fun b => escapeByte b.toNat))

/-- The method `Values.Encode`: `key=value` for each pair, escaped, joined by `&`. -/
def Values.Encode (q : Values) : String :=
  "&".intercalate (q.pairs.map (fun kv => QueryEscape kv.1 ++ "=" ++ QueryEscape kv.2))

/-- A parsed `url.URL`: everything but the query as one string, and the raw query. -/
structure URL where
  Loc : String
  RawQuery : String
  deriving DecidableEq, Repr

/-- A `http.Header` with canonical keys, by its entries. -/
abbrev Header := List (String × String)

/-- The method `Header.Set`: replace whatever the key held. -/
def Header.Set (h : Header) (key value : String) : Header :=
  h.filter (fun e => e.1 != key) ++ [(key, value)]

/-- The method `Header.Get`, `none` when the key is absent. -/
def Header.Get (h : Header) (key : String) : Option String := h.lookup key

/-- A `http.Request` as far as this package touches it.  `Body` is `none` for a request built
with a nil body reader, or the JSON value whose text the reader holds. -/
structure HTTPRequest where
  Method : String
  URL : URL
  Header : Header
  Body : Option JSON

/-- What one call of the pipeline meets outside the package. -/
structure Env where
  /-- The checks of `http.NewRequest(method, url, _)`: the error for an invalid method or a URL
  that `url.Parse` rejects, else the parsed URL. -/
  parseRequestURL : String → String → Except GoError URL
  /-- The function `url.ParseQuery` as `URL.Query` uses it (malformed pairs dropped). -/
  parseQuery : String → Values
  /-- The outcome of `TokenManager.GetToken()`. -/
  GetToken : Except GoError String
  /-- The outcome of `HTTPClient.Do(req)` followed by `io.ReadAll(resp.Body)`: the transport
  error, or the read error, or the bytes of the response body. -/
  Do : HTTPRequest → Except GoError (Except GoError Bytes)

/-- The function `http.NewRequest`: the method defaults to `GET`, the header is empty. -/
def NewRequest (E : Env) (method url : String) (body : Option JSON) :
    Except GoError HTTPRequest :=
  match E.parseRequestURL method url with
  | .error err => .error err
  | .ok u => .ok { Method := if method = "" then "GET" else method, URL := u, Header := [], Body := body }

/-- The method `URL.Query`. -/
def URL.Query (E : Env) (u : URL) : Values := E.parseQuery u.RawQuery

namespace auth

/-- Modelled from the spec: package `auth` is not among the sources.  A token manager is built
from the credential and the base URL and authenticates lazily, so building one records its
arguments and performs no call.  What `GetToken` answers to one call of the pipeline is part
of the `Env`; the cache behind the answers is the `State` below. -/
structure TokenManager where
  apiKey : String
  apiSecret : String
  baseURL : String
  deriving DecidableEq, Repr

/-- Modelled from the spec: the constructor `auth.NewTokenManager`. -/
def NewTokenManager (apiKey apiSecret baseURL : String) : TokenManager :=
  { apiKey := apiKey, apiSecret := apiSecret, baseURL := baseURL }

/-- Modelled from the spec: the two remote endpoints of package `auth`, which is not among the
sources.  `exchange key secret n` is what the credential-exchange call number `n` (counted from
0) answers for that credential: a token, or the error of a rejected credential or of a failed
call; `invalidate token` is the error of the remote invalidation of a token, if any. -/
structure Remote where
  exchange : String → String → Nat → Except GoError String
  invalidate : String → Option GoError

/-- Modelled from the spec: the mutable state of a token manager, which is not among the
sources: the cached token (`none` is the state Unauthenticated, `some token` the state
Authenticated) and the number of credential-exchange calls made so far.  A new token manager
has no token and has made no call. -/
structure State where
  token : Option String := none
  exchanges : Nat := 0
  deriving DecidableEq, Repr

/-- Modelled from the spec: the method `TokenManager.GetToken`, which is not among the sources.
It returns the cached token without a call; with no cached token it authenticates (one
credential-exchange call), caches the token on success and fails with the error of the
exchange otherwise.  Expiry is not looked at. -/
def TokenManager.GetToken (tm : TokenManager) (R : Remote) (s : State) :
    Except GoError String × State :=
  match s.token with
  | some token => (.ok token, s)
  | none =>
    match R.exchange tm.apiKey tm.apiSecret s.exchanges with
    | .ok token => (.ok token, { token := some token, exchanges := s.exchanges + 1 })
    | .error err => (.error err, { token := none, exchanges := s.exchanges + 1 })

/-- Modelled from the spec: the method `TokenManager.Logout`, which is not among the sources.
It invalidates the cached token remotely and clears the cache whatever the remote call
answers; with no cached token there is nothing to invalidate. -/
def TokenManager.Logout (_tm : TokenManager) (R : Remote) (s : State) :
    Option GoError × State :=
  match s.token with
  | some token => (R.invalidate token, { s with token := none })
  | none => (none, s)

end auth

namespace common

/-- The struct `Client`; its `HTTPClient` (timeout 30 s) is `Env.Do`. -/
structure Client where
  BaseURL : String
  TokenManager : auth.TokenManager
  deriving DecidableEq, Repr

/-- The constructor `NewClient`. -/
def NewClient (baseURL : String) (tokenManager : auth.TokenManager) : Client :=
  { BaseURL := baseURL, TokenManager := tokenManager }

/-- The struct `PaginatedData`. -/
structure PaginatedData where
  Page : Int := 0
  PageSize : Int := 0
  TotalCount : Int := 0

/-- The struct `APIResponse`; the default of every field is the zero value of Go. -/
structure APIResponse where
  Code : Int := 0
  Message : String := ""
  Data : RawMessage := none
  TraceID : String := ""
  Timestamp : Int := 0
  PaginatedData : PaginatedData := {}

/-- The fields of `APIResponse` by their `json` tags, those of the embedded `PaginatedData`
promoted. -/
def APIResponse.fields : List (Field APIResponse) :=
  [ { name := "code", store := storeInt "int" (fun a n => { a with Code := n }) },
    { name := "message", store := storeString (fun a s => { a with Message := s }) },
    { name := "data", store := storeRaw (fun a d => { a with Data := d }) },
    { name := "trace_id", store := storeString (fun a s => { a with TraceID := s }) },
    { name := "timestamp", store := storeInt "int64" (fun a n => { a with Timestamp := n }) },
    { name := "page", store := storeInt "int"
        (fun a n => { a with PaginatedData := { a.PaginatedData with Page := n } }) },
    { name := "page_size", store := storeInt "int"
        (fun a n => { a with PaginatedData := { a.PaginatedData with PageSize := n } }) },
    { name := "total", store := storeInt "int"
        (fun a n => { a with PaginatedData := { a.PaginatedData with TotalCount := n } }) } ]

instance : Unmarshaler APIResponse where
  unmarshal := unmarshalStruct "common" "APIResponse" APIResponse.fields

/-- A JSON value that a Go `string` takes: a string, or `null` (which leaves it alone). -/
def fitsString : JSON → Bool
  | .null => true
  | .str _ => true
  | _ => false

/-- A JSON value that a Go `int` or `int64` takes: a number in integer form within 64 bits, or
`null`. -/
def fitsInt64 : JSON → Bool
  | .null => true
  | .int n => decide (-(2 ^ 63 : Int) ≤ n ∧ n < 2 ^ 63)
  | _ => false

/-- A member of an object fits the envelope when its key selects no field (it is skipped), or
selects `data` (any value), or `message` or `trace_id` (a string), or one of the integer
fields `code`, `timestamp`, `page`, `page_size`, `total`. -/
def APIResponse.memberFits (kv : String × JSON) : Bool :=
  match findField APIResponse.fields kv.1 with
  | none => true
  | some f =>
    if f.name = "data" then true
    else if f.name = "message" ∨ f.name = "trace_id" then fitsString kv.2
    else fitsInt64 kv.2

/-- The JSON values that `json.Unmarshal` stores into an `APIResponse` without an error: `null`
(which changes nothing) and every object all of whose members fit.  This is what the code
checks of a body, and it is less than the shape of the envelope: `null`, the empty object and an
object none of whose keys selects a field are accepted and leave the zero envelope. -/
def APIResponse.accepts : JSON → Bool
  | .null => true
  | .obj kvs => kvs.all APIResponse.memberFits
  | _ => false

/-- Taken from the words of the specification, not from the code: the response envelope is an
object that carries a numeric status code (next to a message, a trace identifier, a timestamp
and a payload).  This is the weakest reading of "the shape of the envelope": only the member
`code` with a number is asked for. -/
def APIResponse.specShape : JSON → Bool
  | .obj kvs => kvs.any (fun kv => kv.1 == "code" && kv.2.kind == "number")
  | _ => false

/-- A JSON value without a status code for the decoder: `null`, or an object none of whose keys
selects the field `code`. -/
def APIResponse.lacksCode : JSON → Bool
  | .null => true
  | .obj kvs => kvs.all (fun kv => foldName kv.1 != foldName "code")
  | _ => false

/-- What a call of the pipeline leaves behind: the value the `result` pointer refers to after
the call (`none` when the caller passed nil), the error returned, and the request that was
handed to `HTTPClient.Do` (`none` when the call returned before that). -/
structure Outcome (α : Type) where
  result : Option α
  err : Option GoError
  sent : Option HTTPRequest

/-- A reply is all or nothing: a non-nil result and the nil error, or the nil result and a
non-nil error. -/
def Outcome.allOrNothing {α : Type} (out : Outcome α) : Prop :=
  (out.result.isSome = true ∧ out.err = none) ∨ (out.result = none ∧ out.err.isSome = true)

/-- The text of the error for an envelope whose code is not the success code. -/
def apiErrorText (message : String) (code : Int) (traceID : String) : String :=
  "API error: " ++ message ++ " (code: " ++ Itoa code ++ ", trace_id: " ++ traceID ++ ")"

/-- The part of both methods from `HTTPClient.Do` on (client.go 76-108 and 140-172): execute,
read the body, decode the envelope, check the code, decode the data. -/
def Client.exchange {α : Type} [Unmarshaler α] (E : Env) (req : HTTPRequest)
    (result : Option α) : Outcome α :=
  match E.Do req with
  | .error err => ⟨result, some (Errorf_w "failed to execute request: " err), some req⟩
  | .ok (.error err) => ⟨result, some (Errorf_w "failed to read response body: " err), some req⟩
  | .ok (.ok respBody) =>
    match jsonUnmarshal respBody ({} : APIResponse) with
    | (_, some err) => ⟨result, some (Errorf_w "failed to decode response: " err), some req⟩
    | (apiResp, none) =>
      if apiResp.Code ≠ 200000 then
        ⟨result, some (.errorString (apiErrorText apiResp.Message apiResp.Code apiResp.TraceID)),
          some req⟩
      else
        match result, apiResp.Data with
        | some r, some data =>
          match Unmarshaler.unmarshal data r with
          | (r1, some err) =>
            ⟨some r1, some (Errorf_w "failed to decode response data: " err), some req⟩
          | (r1, none) => ⟨some r1, none, some req⟩
        | _, _ => ⟨result, none, some req⟩

/-- The body reader that `Request` builds (client.go 51-58): nil for the nil interface, else a
buffer with the encoding of the body, or the error of `json.Marshal`. -/
def bodyReader {β : Type} [Marshaler β] (body : Option β) : Except GoError (Option JSON) :=
  match body with
  | none => .ok none
  | some b =>
    match Marshaler.marshal b with
    | .error err => .error err
    | .ok jsonData => .ok (some jsonData)

/-- The method `Client.Request`.  `body` is the `interface{}` argument: `none` is the nil
interface, `some b` an interface that holds `b` (which may itself be a nil pointer). -/
def Client.Request {β α : Type} [Marshaler β] [Unmarshaler α] (c : Client) (E : Env)
    (method path : String) (body : Option β) (result : Option α) : Outcome α :=
  match bodyReader body with
  | .error err => ⟨result, some (Errorf_w "failed to marshal request body: " err), none⟩
  | .ok reader =>
    let url := c.BaseURL ++ path
    match NewRequest E method url reader with
    | .error err => ⟨result, some (Errorf_w "failed to create request: " err), none⟩
    | .ok req =>
      match E.GetToken with
      | .error err => ⟨result, some (Errorf_w "failed to get JWT token: " err), none⟩
      | .ok token =>
        let req := { req with Header := req.Header.Set "Content-Type" "application/json" }
        let req := { req with Header := req.Header.Set "Authorization" ("Bearer " ++ token) }
        Client.exchange E req result

/-- The loop of `RequestWithQuery` over the parameters: every entry with a non-empty value is
added to the query values. -/
def addParams (q : Values) (params : GoMap) : Values :=
  params.foldl (fun q kv => if kv.2 ≠ "" then q.Add kv.1 kv.2 else q) q

/-- The method `Client.RequestWithQuery`.  `params` is `none` for the nil map. -/
def Client.RequestWithQuery {α : Type} [Unmarshaler α] (c : Client) (E : Env)
    (path : String) (params : Option GoMap) (result : Option α) : Outcome α :=
  let url := c.BaseURL ++ path
  match NewRequest E "GET" url none with
  | .error err => ⟨result, some (Errorf_w "failed to create request: " err), none⟩
  | .ok req =>
    let req :=
      match params with
      | none => req
      | some params =>
        let q := addParams (req.URL.Query E) params
        { req with URL := { req.URL with RawQuery := q.Encode } }
    match E.GetToken with
    | .error err => ⟨result, some (Errorf_w "failed to get JWT token: " err), none⟩
    | .ok token =>
      let req := { req with Header := req.Header.Set "Authorization" ("Bearer " ++ token) }
      Client.exchange E req result

/-- Whether `Request` gets as far as its call of `GetToken` (client.go 51-67): the body is
encoded and the request is built. -/
def Client.reachesGetToken {β : Type} [Marshaler β] (c : Client) (E : Env)
    (method path : String) (body : Option β) : Bool :=
  match bodyReader body with
  | .error _ => false
  | .ok reader =>
    match NewRequest E method (c.BaseURL ++ path) reader with
    | .error _ => false
    | .ok _ => true

/-- The method `Client.Request` on a client whose token manager is in the state `s` and talks
to the remote `R`: what `GetToken` answers is what the token manager answers in that state,
and the state after the call is the state after `GetToken` when the call got that far. -/
def Client.RequestFrom {β α : Type} [Marshaler β] [Unmarshaler α] (c : Client) (E : Env)
    (R : auth.Remote) (s : auth.State) (method path : String) (body : Option β)
    (result : Option α) : Outcome α × auth.State :=
  let answer := c.TokenManager.GetToken R s
  (c.Request { E with GetToken := answer.1 } method path body result,
    if c.reachesGetToken E method path body then answer.2 else s)

/-- The headers that `Request` sets on an empty header (client.go 73-74). -/
def requestHeader (token : String) : Header :=
  (Header.Set [] "Content-Type" "application/json").Set "Authorization" ("Bearer " ++ token)

/-- The header that `RequestWithQuery` sets on an empty header (client.go 138). -/
def queryHeader (token : String) : Header :=
  Header.Set [] "Authorization" ("Bearer " ++ token)

/-- The URL of the request of `RequestWithQuery` (client.go 121-129) for the parsed URL `u`. -/
def queryURL (E : Env) (u : URL) (params : Option GoMap) : URL :=
  match params with
  | none => u
  | some params => { u with RawQuery := (addParams (u.Query E) params).Encode }

end common

/-- Storing into a field of type `[]T`: `null` sets the slice to nil. -/
def storeSlice {α β : Type} [Unmarshaler β] (zero : β) (goType : String)
    (get : α → List β) (set : α → List β → α) : JSON → α → α × Option GoError
  | v, a =>
    let r := unmarshalSlice zero goType v (get a)
    (set a r.1, r.2)

namespace wallet

/-- The struct `Service`: the client its constructor was given. -/
structure Service where
  client : common.Client
  deriving DecidableEq, Repr

/-- The constructor `NewService`. -/
def NewService (client : common.Client) : Service := { client := client }

/-- The struct `CreateWalletRequest`. -/
structure CreateWalletRequest where
  WalletName : String := ""
  Description : String := ""
  Chain : String := ""
  Network : String := ""
  deriving DecidableEq, Repr

/-- The struct `Wallet`. -/
structure Wallet where
  WalletID : String := ""
  WalletName : String := ""
  Description : String := ""
  Chain : String := ""
  Network : String := ""
  WalletType : String := ""
  Status : String := ""
  CreatedAt : String := ""
  UpdatedAt : String := ""
  deriving DecidableEq, Repr

/-- The encoding of a `CreateWalletRequest`: `description` has `omitempty`. -/
instance : Marshaler CreateWalletRequest where
  marshal r := .ok (.obj (
    [("wallet_name", JSON.str r.WalletName)]
    ++ (if r.Description = "" then [] else [("description", JSON.str r.Description)])
    ++ [("chain", JSON.str r.Chain), ("network", JSON.str r.Network)]))

/-- The fields of `Wallet` by their `json` tags. -/
def Wallet.fields : List (Field Wallet) :=
  [ { name := "wallet_id", store := storeString (fun a s => { a with WalletID := s }) },
    { name := "wallet_name", store := storeString (fun a s => { a with WalletName := s }) },
    { name := "description", store := storeString (fun a s => { a with Description := s }) },
    { name := "chain", store := storeString (fun a s => { a with Chain := s }) },
    { name := "network", store := storeString (fun a s => { a with Network := s }) },
    { name := "wallet_type", store := storeString (fun a s => { a with WalletType := s }) },
    { name := "status", store := storeString (fun a s => { a with Status := s }) },
    { name := "created_at", store := storeString (fun a s => { a with CreatedAt := s }) },
    { name := "updated_at", store := storeString (fun a s => { a with UpdatedAt := s }) } ]

instance : Unmarshaler Wallet where
  unmarshal := unmarshalStruct "wallet" "Wallet" Wallet.fields

instance : Unmarshaler (List (Option Wallet)) where
  unmarshal := unmarshalPtrSlice ({} : Wallet) "[]*wallet.Wallet"

/-- The method `Service.Create` (the unused `ctx` is left out, here and below).  `req` is the
pointer `*CreateWalletRequest`; it is passed on as the `interface{}` body as it is.  The third
component is the request that went out. -/
def Service.Create (s : Service) (E : Env) (req : Option CreateWalletRequest) :
    common.Outcome Wallet :=
  let wallet : Wallet := {}
  let out := s.client.Request E "POST" "/api/v1/wallets" (some req) (some wallet)
  match out.err with
  | some err => ⟨none, some (Errorf_w "failed to create wallet: " err), out.sent⟩
  | none => ⟨some (out.result.getD wallet), none, out.sent⟩

/-- The method `Service.Get`. -/
def Service.Get (s : Service) (E : Env) (walletID : String) : common.Outcome Wallet :=
  let wallet : Wallet := {}
  let path := "/api/v1/wallets/" ++ walletID
  let out := s.client.Request E "GET" path (none : Option Unit) (some wallet)
  match out.err with
  | some err => ⟨none, some (Errorf_w "failed to get wallet: " err), out.sent⟩
  | none => ⟨some (out.result.getD wallet), none, out.sent⟩

/-- The struct `ListWalletsRequest`. -/
structure ListWalletsRequest where
  Page : Int := 0
  PageSize : Int := 0
  Status : String := ""
  deriving DecidableEq, Repr

/-- The struct `ListWalletsResponse`. -/
structure ListWalletsResponse where
  Items : List (Option Wallet) := []
  deriving DecidableEq, Repr

/-- The query mapping that `Service.List` builds (wallet.go 77-89). -/
def listParams (req : Option ListWalletsRequest) : GoMap :=
  let params : GoMap := []
  match req with
  | none => params
  | some req =>
    let params := if req.Page > 0 then params.set "page" (Itoa req.Page) else params
    let params := if req.PageSize > 0 then params.set "page_size" (Itoa req.PageSize) else params
    let params := if req.Status ≠ "" then params.set "status" req.Status else params
    params

/-- The method `Service.List`. -/
def Service.List (s : Service) (E : Env) (req : Option ListWalletsRequest) :
    common.Outcome ListWalletsResponse :=
  let params := listParams req
  let response : Slice (Option Wallet) := []
  let out := s.client.RequestWithQuery E "/api/v1/wallets" (some params) (some response)
  match out.err with
  | some err => ⟨none, some (Errorf_w "failed to list wallets: " err), out.sent⟩
  | none => ⟨some { Items := out.result.getD response }, none, out.sent⟩

end wallet

namespace account

/-- The struct `Service`. -/
structure Service where
  client : common.Client
  deriving DecidableEq, Repr

/-- The constructor `NewService`. -/
def NewService (client : common.Client) : Service := { client := client }

/-- The struct `CreateAccountRequest`. -/
structure CreateAccountRequest where
  WalletID : String := ""
  Chain : String := ""
  Network : String := ""
  Label : String := ""
  AccountType : String := ""
  deriving DecidableEq, Repr

/-- The struct `Account`. -/
structure Account where
  AccountID : String := ""
  WalletID : String := ""
  Address : String := ""
  Chain : String := ""
  Network : String := ""
  Label : String := ""
  DerivationPath : String := ""
  AddressIndex : Int := 0
  Status : String := ""
  CreatedAt : String := ""
  UpdatedAt : String := ""
  deriving DecidableEq, Repr

/-- The encoding of a `CreateAccountRequest`: `label` and `account_type` have `omitempty`. -/
instance : Marshaler CreateAccountRequest where
  marshal r := .ok (.obj (
    [("wallet_id", JSON.str r.WalletID), ("chain", JSON.str r.Chain),
      ("network", JSON.str r.Network)]
    ++ (if r.Label = "" then [] else [("label", JSON.str r.Label)])
    ++ (if r.AccountType = "" then [] else [("account_type", JSON.str r.AccountType)])))

/-- The fields of `Account` by their `json` tags. -/
def Account.fields : List (Field Account) :=
  [ { name := "account_id", store := storeString (fun a s => { a with AccountID := s }) },
    { name := "wallet_id", store := storeString (fun a s => { a with WalletID := s }) },
    { name := "address", store := storeString (fun a s => { a with Address := s }) },
    { name := "chain", store := storeString (fun a s => { a with Chain := s }) },
    { name := "network", store := storeString (fun a s => { a with Network := s }) },
    { name := "label", store := storeString (fun a s => { a with Label := s }) },
    { name := "derivation_path",
      store := storeString (fun a s => { a with DerivationPath := s }) },
    { name := "address_index", store := storeInt "int" (fun a n => { a with AddressIndex := n }) },
    { name := "status", store := storeString (fun a s => { a with Status := s }) },
    { name := "created_at", store := storeString (fun a s => { a with CreatedAt := s }) },
    { name := "updated_at", store := storeString (fun a s => { a with UpdatedAt := s }) } ]

instance : Unmarshaler Account where
  unmarshal := unmarshalStruct "account" "Account" Account.fields

/-- The method `Service.Create`. -/
def Service.Create (s : Service) (E : Env) (req : Option CreateAccountRequest) :
    common.Outcome Account :=
  let account : Account := {}
  let out := s.client.Request E "POST" "/api/v1/accounts" (some req) (some account)
  match out.err with
  | some err => ⟨none, some (Errorf_w "failed to create account: " err), out.sent⟩
  | none => ⟨some (out.result.getD account), none, out.sent⟩

/-- The method `Service.Get`. -/
def Service.Get (s : Service) (E : Env) (accountID : String) : common.Outcome Account :=
  let account : Account := {}
  let path := "/api/v1/accounts/" ++ accountID
  let out := s.client.Request E "GET" path (none : Option Unit) (some account)
  match out.err with
  | some err => ⟨none, some (Errorf_w "failed to get account: " err), out.sent⟩
  | none => ⟨some (out.result.getD account), none, out.sent⟩

/-- The struct `ListAccountsRequest`. -/
structure ListAccountsRequest where
  WalletID : String := ""
  Page : Int := 0
  PageSize : Int := 0
  deriving DecidableEq, Repr

/-- The struct `ListAccountsResponse`. -/
structure ListAccountsResponse where
  Items : List Account := []
  Page : Int := 0
  PageSize : Int := 0
  TotalCount : Int := 0
  TotalPages : Int := 0
  deriving DecidableEq, Repr

/-- The fields of `ListAccountsResponse` by their `json` tags. -/
def ListAccountsResponse.fields : List (Field ListAccountsResponse) :=
  [ { name := "items", store := storeSlice ({} : Account) "[]account.Account"
        (fun a => a.Items) (fun a xs => { a with Items := xs }) },
    { name := "page", store := storeInt "int" (fun a n => { a with Page := n }) },
    { name := "page_size", store := storeInt "int" (fun a n => { a with PageSize := n }) },
    { name := "total_count", store := storeInt "int" (fun a n => { a with TotalCount := n }) },
    { name := "total_pages", store := storeInt "int" (fun a n => { a with TotalPages := n }) } ]

instance : Unmarshaler ListAccountsResponse where
  unmarshal := unmarshalStruct "account" "ListAccountsResponse" ListAccountsResponse.fields

/-- The query mapping that `Service.List` builds (account.go 84-96). -/
def listParams (req : Option ListAccountsRequest) : GoMap :=
  let params : GoMap := []
  match req with
  | none => params
  | some req =>
    let params := if req.WalletID ≠ "" then params.set "wallet_id" req.WalletID else params
    let params := if req.Page > 0 then params.set "page" (Itoa req.Page) else params
    let params := if req.PageSize > 0 then params.set "page_size" (Itoa req.PageSize) else params
    params

/-- The method `Service.List`: the data is decoded into the response struct itself. -/
def Service.List (s : Service) (E : Env) (req : Option ListAccountsRequest) :
    common.Outcome ListAccountsResponse :=
  let params := listParams req
  let response : ListAccountsResponse := {}
  let out := s.client.RequestWithQuery E "/api/v1/accounts" (some params) (some response)
  match out.err with
  | some err => ⟨none, some (Errorf_w "failed to list accounts: " err), out.sent⟩
  | none => ⟨some (out.result.getD response), none, out.sent⟩

end account

namespace asset

/-- The struct `Service`. -/
structure Service where
  client : common.Client
  deriving DecidableEq, Repr

/-- The constructor `NewService`. -/
def NewService (client : common.Client) : Service := { client := client }

/-- The struct `CreateAssetRequest`. -/
structure CreateAssetRequest where
  AccountID : String := ""
  Symbol : String := ""
  deriving DecidableEq, Repr

/-- The struct `Asset`. -/
structure Asset where
  AssetID : String := ""
  WalletID : String := ""
  AccountID : String := ""
  Symbol : String := ""
  Name : String := ""
  AssetType : String := ""
  ContractAddress : String := ""
  Decimals : Int := 0
  Balance : String := ""
  Status : String := ""
  CreatedAt : String := ""
  UpdatedAt : String := ""
  deriving DecidableEq, Repr

/-- The encoding of a `CreateAssetRequest`. -/
instance : Marshaler CreateAssetRequest where
  marshal r := .ok (.obj [("account_id", JSON.str r.AccountID), ("symbol", JSON.str r.Symbol)])

/-- The fields of `Asset` by their `json` tags. -/
def Asset.fields : List (Field Asset) :=
  [ { name := "asset_id", store := storeString (fun a s => { a with AssetID := s }) },
    { name := "wallet_id", store := storeString (fun a s => { a with WalletID := s }) },
    { name := "account_id", store := storeString (fun a s => { a with AccountID := s }) },
    { name := "symbol", store := storeString (fun a s => { a with Symbol := s }) },
    { name := "name", store := storeString (fun a s => { a with Name := s }) },
    { name := "asset_type", store := storeString (fun a s => { a with AssetType := s }) },
    { name := "contract_address",
      store := storeString (fun a s => { a with ContractAddress := s }) },
    { name := "decimals", store := storeInt "int" (fun a n => { a with Decimals := n }) },
    { name := "balance", store := storeString (fun a s => { a with Balance := s }) },
    { name := "status", store := storeString (fun a s => { a with Status := s }) },
    { name := "created_at", store := storeString (fun a s => { a with CreatedAt := s }) },
    { name := "updated_at", store := storeString (fun a s => { a with UpdatedAt := s }) } ]

instance : Unmarshaler Asset where
  unmarshal := unmarshalStruct "asset" "Asset" Asset.fields

instance : Unmarshaler (List (Option Asset)) where
  unmarshal := unmarshalPtrSlice ({} : Asset) "[]*asset.Asset"

/-- The method `Service.Create`. -/
def Service.Create (s : Service) (E : Env) (req : Option CreateAssetRequest) :
    common.Outcome Asset :=
  let asset : Asset := {}
  let out := s.client.Request E "POST" "/api/v1/assets" (some req) (some asset)
  match out.err with
  | some err => ⟨none, some (Errorf_w "failed to create asset: " err), out.sent⟩
  | none => ⟨some (out.result.getD asset), none, out.sent⟩

/-- The method `Service.Get`. -/
def Service.Get (s : Service) (E : Env) (assetID : String) : common.Outcome Asset :=
  let asset : Asset := {}
  let path := "/api/v1/assets/" ++ assetID
  let out := s.client.Request E "GET" path (none : Option Unit) (some asset)
  match out.err with
  | some err => ⟨none, some (Errorf_w "failed to get asset: " err), out.sent⟩
  | none => ⟨some (out.result.getD asset), none, out.sent⟩

/-- The struct `ListAssetsRequest`. -/
structure ListAssetsRequest where
  WalletID : String := ""
  AccountID : String := ""
  Page : Int := 0
  PageSize : Int := 0
  deriving DecidableEq, Repr

/-- The struct `ListAssetsResponse`. -/
structure ListAssetsResponse where
  Items : List (Option Asset) := []
  Page : Int := 0
  PageSize : Int := 0
  TotalCount : Int := 0
  TotalPages : Int := 0
  deriving DecidableEq, Repr

/-- The query mapping that `Service.List` builds (asset.go 83-98). -/
def listParams (req : Option ListAssetsRequest) : GoMap :=
  let params : GoMap := []
  match req with
  | none => params
  | some req =>
    let params := if req.WalletID ≠ "" then params.set "wallet_id" req.WalletID else params
    let params := if req.AccountID ≠ "" then params.set "account_id" req.AccountID else params
    let params := if req.Page > 0 then params.set "page" (Itoa req.Page) else params
    let params := if req.PageSize > 0 then params.set "page_size" (Itoa req.PageSize) else params
    params

/-- The method `Service.List`. -/
def Service.List (s : Service) (E : Env) (req : Option ListAssetsRequest) :
    common.Outcome ListAssetsResponse :=
  let params := listParams req
  let assets : Slice (Option Asset) := []
  let out := s.client.RequestWithQuery E "/api/v1/assets" (some params) (some assets)
  match out.err with
  | some err => ⟨none, some (Errorf_w "failed to list assets: " err), out.sent⟩
  | none => ⟨some { Items := out.result.getD assets }, none, out.sent⟩

end asset

namespace transaction

/-- The struct `Service`. -/
structure Service where
  client : common.Client
  deriving DecidableEq, Repr

/-- The constructor `NewService`. -/
def NewService (client : common.Client) : Service := { client := client }

/-- The struct `Transaction`. -/
structure Transaction where
  TxID : String := ""
  WalletID : String := ""
  AccountID : String := ""
  AssetID : String := ""
  FromAddress : String := ""
  ToAddress : String := ""
  Amount : String := ""
  Fee : String := ""
  Chain : String := ""
  Network : String := ""
  TxHash : String := ""
  BlockNumber : Int := 0
  Confirmations : Int := 0
  Status : String := ""
  TxType : String := ""
  ContractAddress : String := ""
  Memo : String := ""
  CreatedAt : String := ""
  UpdatedAt : String := ""
  ConfirmedAt : String := ""
  deriving DecidableEq, Repr

/-- The fields of `Transaction` by their `json` tags. -/
def Transaction.fields : List (Field Transaction) :=
  [ { name := "tx_id", store := storeString (fun a s => { a with TxID := s }) },
    { name := "wallet_id", store := storeString (fun a s => { a with WalletID := s }) },
    { name := "account_id", store := storeString (fun a s => { a with AccountID := s }) },
    { name := "asset_id", store := storeString (fun a s => { a with AssetID := s }) },
    { name := "from_address", store := storeString (fun a s => { a with FromAddress := s }) },
    { name := "to_address", store := storeString (fun a s => { a with ToAddress := s }) },
    { name := "amount", store := storeString (fun a s => { a with Amount := s }) },
    { name := "fee", store := storeString (fun a s => { a with Fee := s }) },
    { name := "chain", store := storeString (fun a s => { a with Chain := s }) },
    { name := "network", store := storeString (fun a s => { a with Network := s }) },
    { name := "tx_hash", store := storeString (fun a s => { a with TxHash := s }) },
    { name := "block_number", store := storeInt "int64" (fun a n => { a with BlockNumber := n }) },
    { name := "confirmations",
      store := storeInt "int" (fun a n => { a with Confirmations := n }) },
    { name := "status", store := storeString (fun a s => { a with Status := s }) },
    { name := "tx_type", store := storeString (fun a s => { a with TxType := s }) },
    { name := "contract_address",
      store := storeString (fun a s => { a with ContractAddress := s }) },
    { name := "memo", store := storeString (fun a s => { a with Memo := s }) },
    { name := "created_at", store := storeString (fun a s => { a with CreatedAt := s }) },
    { name := "updated_at", store := storeString (fun a s => { a with UpdatedAt := s }) },
    { name := "confirmed_at", store := storeString (fun a s => { a with ConfirmedAt := s }) } ]

instance : Unmarshaler Transaction where
  unmarshal := unmarshalStruct "transaction" "Transaction" Transaction.fields

instance : Unmarshaler (List (Option Transaction)) where
  unmarshal := unmarshalPtrSlice ({} : Transaction) "[]*transaction.Transaction"

/-- The method `Service.Get`. -/
def Service.Get (s : Service) (E : Env) (txID : String) : common.Outcome Transaction :=
  let transaction : Transaction := {}
  let path := "/api/v1/transactions/" ++ txID
  let out := s.client.Request E "GET" path (none : Option Unit) (some transaction)
  match out.err with
  | some err => ⟨none, some (Errorf_w "failed to get transaction: " err), out.sent⟩
  | none => ⟨some (out.result.getD transaction), none, out.sent⟩

/-- The struct `ListTransactionsRequest`. -/
structure ListTransactionsRequest where
  WalletID : String := ""
  AccountID : String := ""
  Status : String := ""
  Page : Int := 0
  PageSize : Int := 0
  deriving DecidableEq, Repr

/-- The struct `ListTransactionsResponse`. -/
structure ListTransactionsResponse where
  Items : List (Option Transaction) := []
  Page : Int := 0
  PageSize : Int := 0
  TotalCount : Int := 0
  TotalPages : Int := 0
  deriving DecidableEq, Repr

/-- The query mapping that `Service.List` builds (transaction.go 76-94). -/
def listParams (req : Option ListTransactionsRequest) : GoMap :=
  let params : GoMap := []
  match req with
  | none => params
  | some req =>
    let params := if req.WalletID ≠ "" then params.set "wallet_id" req.WalletID else params
    let params := if req.AccountID ≠ "" then params.set "account_id" req.AccountID else params
    let params := if req.Status ≠ "" then params.set "status" req.Status else params
    let params := if req.Page > 0 then params.set "page" (Itoa req.Page) else params
    let params := if req.PageSize > 0 then params.set "page_size" (Itoa req.PageSize) else params
    params

/-- The method `Service.List`; its error is formatted with `%v`, not `%w`. -/
def Service.List (s : Service) (E : Env) (req : Option ListTransactionsRequest) :
    common.Outcome ListTransactionsResponse :=
  let params := listParams req
  let transactions : Slice (Option Transaction) := []
  let out := s.client.RequestWithQuery E "/api/v1/transactions" (some params) (some transactions)
  match out.err with
  | some err => ⟨none, some (Errorf_v "failed to list transactions: " err), out.sent⟩
  | none => ⟨some { Items := out.result.getD transactions }, none, out.sent⟩

end transaction

namespace configuration

/-- The struct `Config`. -/
structure Config where
  BaseURL : String
  deriving DecidableEq, Repr

/-- The function `Sandbox`. -/
def Sandbox : Config := { BaseURL := "https://mpcgwapi-sandbox.reefiy.dev" }

/-- The function `Production`. -/
def Production : Config := { BaseURL := "https://mpcgwapi.reefiy.com" }

/-- The function `Custom`. -/
def Custom (baseURL : String) : Config := { BaseURL := baseURL }

end configuration

namespace mpcsdk

/-- The struct `Client`: `config` and the four services are pointers. -/
structure Client where
  config : Option configuration.Config
  tokenManager : auth.TokenManager
  apiClient : common.Client
  Wallet : Option wallet.Service
  Account : Option account.Service
  Asset : Option asset.Service
  Transaction : Option transaction.Service
  deriving DecidableEq, Repr

/-- The function `NewClient`; `config` is the pointer `*configuration.Config`. -/
def NewClient (apiKey apiSecret : String) (config : Option configuration.Config) :
    Option Client × Option GoError :=
  if apiKey = "" then (none, some (.errorString "apiKey is required"))
  else if apiSecret = "" then (none, some (.errorString "apiSecret is required"))
  else
    match config with
    | none => (none, some (.errorString "config is required"))
    | some cfg =>
      let tokenManager := auth.NewTokenManager apiKey apiSecret cfg.BaseURL
      let apiClient := common.NewClient cfg.BaseURL tokenManager
      let client : Client :=
        { config := config,
          tokenManager := tokenManager,
          apiClient := apiClient,
          Wallet := some (wallet.NewService apiClient),
          Account := some (account.NewService apiClient),
          Asset := some (asset.NewService apiClient),
          Transaction := some (transaction.NewService apiClient) }
      (some client, none)

/-- The method `GetConfig`. -/
def Client.GetConfig (c : Client) : Option configuration.Config := c.config

/-- The method `Logout`: the `Logout` of the token manager, in its state `s`. -/
def Client.Logout (c : Client) (R : auth.Remote) (s : auth.State) :
    Option GoError × auth.State :=
  c.tokenManager.Logout R s

end mpcsdk

/-! ## A test double for the world outside

The universal statements below hold for every `Env`.  Concrete instances use the following
double: a URL parser and a query parser for plain URLs, a token provider with a fixed answer
and a server with a fixed reply. -/

namespace fixture

/-- The function `url.Parse` on a URL it accepts: the fragment is cut at the first `#`, then the
query at the first `?`. -/
def splitURL (url : String) : URL :=
  let noFragment := url.toList.takeWhile (fun c => c != '#')
  { Loc := String.mk (noFragment.takeWhile (fun c => c != '?')),
    RawQuery := String.mk ((noFragment.dropWhile (fun c => c != '?')).drop 1) }

/-- The function `url.ParseQuery` on a query without escapes (no `%`, no `+`): the pairs are
separated by `&`, an empty pair and a pair with a `;` are skipped, key and value are separated
by the first `=`. -/
def plainQuery (raw : String) : Values :=
  (raw.toList.splitOn '&').foldl (fun (q : Values) (pair : List Char) =>
    if pair.contains ';' ∨ pair = [] then q
    else q.Add (String.mk (pair.takeWhile (fun c => c != '=')))
      (String.mk ((pair.dropWhile (fun c => c != '=')).drop 1))) []

/-- The double: `token` is what the token manager answers, `reply` what the transport and the
reading of the body yield for every request. -/
def env (token : Except GoError String) (reply : Except GoError (Except GoError Bytes)) : Env :=
  { parseRequestURL := fun _ url => .ok (splitURL url),
    parseQuery := plainQuery,
    GetToken := token,
    Do := fun _ => reply }

/-- A server that answers every request with the JSON value `v`, behind a token manager that
hands out the token `tok-1`. -/
def server (v : JSON) : Env := env (.ok "tok-1") (.ok (.ok (.valid v)))

/-- A remote that accepts every credential and hands out the tokens `tok-1`, `tok-2`, ... in the
order of the exchange calls, and that invalidates every token. -/
def remote : auth.Remote :=
  { exchange := fun _ _ n => .ok ("tok-" ++ toString (n + 1)),
    invalidate := fun _ => none }

/-- The base client of the sandbox configuration. -/
def client : common.Client :=
  common.NewClient configuration.Sandbox.BaseURL
    (auth.NewTokenManager "key" "secret" configuration.Sandbox.BaseURL)

end fixture

/-! ## The shape of a call -/

namespace common

theorem exchange_sent {α : Type} [Unmarshaler α] (E : Env) (req : HTTPRequest)
    (result : Option α) : (Client.exchange E req result).sent = some req := by
  unfold Client.exchange
  repeat' split
  all_goals rfl

/-- A call of `Request` that hands a request to the HTTP client has encoded the body, built the
request, obtained a token, and goes on with the exchange of exactly that request. -/
theorem Request_sent {β α : Type} [Marshaler β] [Unmarshaler α] (c : Client) (E : Env)
    (method path : String) (body : Option β) (result : Option α) (req : HTTPRequest)
    (h : (c.Request E method path body result).sent = some req) :
    ∃ reader u token, bodyReader body = .ok reader
      ∧ E.parseRequestURL method (c.BaseURL ++ path) = .ok u
      ∧ E.GetToken = .ok token
      ∧ req = { Method := if method = "" then "GET" else method, URL := u,
                Header := requestHeader token, Body := reader }
      ∧ c.Request E method path body result = Client.exchange E req result := by
  unfold Client.Request at h ⊢
  cases hb : bodyReader body with
  | error e => simp [hb] at h
  | ok reader =>
    cases hu : E.parseRequestURL method (c.BaseURL ++ path) with
    | error e => simp [hb, NewRequest, hu] at h
    | ok u =>
      cases ht : E.GetToken with
      | error e => simp [hb, NewRequest, hu, ht] at h
      | ok token =>
        simp only [hb, NewRequest, hu, ht, exchange_sent, Option.some.injEq] at h
        refine ⟨reader, u, token, rfl, rfl, rfl, ?_, ?_⟩
        · rw [← h]; rfl
        · simp only [hb, NewRequest, hu, ht]; rw [← h]

/-- A call of `RequestWithQuery` that hands a request to the HTTP client. -/
theorem RequestWithQuery_sent {α : Type} [Unmarshaler α] (c : Client) (E : Env)
    (path : String) (params : Option GoMap) (result : Option α) (req : HTTPRequest)
    (h : (c.RequestWithQuery E path params result).sent = some req) :
    ∃ u token, E.parseRequestURL "GET" (c.BaseURL ++ path) = .ok u
      ∧ E.GetToken = .ok token
      ∧ req = { Method := "GET", URL := queryURL E u params,
                Header := queryHeader token, Body := none }
      ∧ c.RequestWithQuery E path params result = Client.exchange E req result := by
  unfold Client.RequestWithQuery at h ⊢
  cases hu : E.parseRequestURL "GET" (c.BaseURL ++ path) with
  | error e => simp [NewRequest, hu] at h
  | ok u =>
    cases ht : E.GetToken with
    | error e => simp [NewRequest, hu, ht] at h
    | ok token =>
      simp only [NewRequest, hu, ht, exchange_sent, Option.some.injEq] at h
      refine ⟨u, token, rfl, rfl, ?_, ?_⟩
      · rw [← h]; cases params <;> rfl
      · simp only [NewRequest, hu, ht]; rw [← h]

theorem exchange_result_isSome {α : Type} [Unmarshaler α] (E : Env) (req : HTTPRequest)
    (r : α) : (Client.exchange E req (some r)).result.isSome = true := by
  unfold Client.exchange
  repeat' split
  all_goals rfl

theorem exchange_transport_error {α : Type} [Unmarshaler α] (E : Env) (req : HTTPRequest)
    (result : Option α) (err : GoError) (h : E.Do req = .error err) :
    Client.exchange E req result
      = ⟨result, some (Errorf_w "failed to execute request: " err), some req⟩ := by
  unfold Client.exchange; simp [h]

theorem exchange_read_error {α : Type} [Unmarshaler α] (E : Env) (req : HTTPRequest)
    (result : Option α) (err : GoError) (h : E.Do req = .ok (.error err)) :
    Client.exchange E req result
      = ⟨result, some (Errorf_w "failed to read response body: " err), some req⟩ := by
  unfold Client.exchange; simp [h]

theorem exchange_decode_error {α : Type} [Unmarshaler α] (E : Env) (req : HTTPRequest)
    (result : Option α) (respBody : Bytes) (a : APIResponse) (err : GoError)
    (hdo : E.Do req = .ok (.ok respBody))
    (hdec : jsonUnmarshal respBody ({} : APIResponse) = (a, some err)) :
    Client.exchange E req result
      = ⟨result, some (Errorf_w "failed to decode response: " err), some req⟩ := by
  unfold Client.exchange; simp [hdo, hdec]

theorem exchange_api_error {α : Type} [Unmarshaler α] (E : Env) (req : HTTPRequest)
    (result : Option α) (respBody : Bytes) (apiResp : APIResponse)
    (hdo : E.Do req = .ok (.ok respBody))
    (hdec : jsonUnmarshal respBody ({} : APIResponse) = (apiResp, none))
    (hcode : apiResp.Code ≠ 200000) :
    Client.exchange E req result
      = ⟨result, some (.errorString
          (apiErrorText apiResp.Message apiResp.Code apiResp.TraceID)), some req⟩ := by
  unfold Client.exchange; simp [hdo, hdec, hcode]

theorem exchange_no_data {α : Type} [Unmarshaler α] (E : Env) (req : HTTPRequest)
    (result : Option α) (respBody : Bytes) (apiResp : APIResponse)
    (hdo : E.Do req = .ok (.ok respBody))
    (hdec : jsonUnmarshal respBody ({} : APIResponse) = (apiResp, none))
    (hcode : apiResp.Code = 200000) (hdata : result = none ∨ apiResp.Data = none) :
    Client.exchange E req result = ⟨result, none, some req⟩ := by
  unfold Client.exchange
  simp only [hdo, hdec, hcode, ne_eq, not_true_eq_false, if_false]
  rcases hdata with h | h
  · subst h; rfl
  · rw [h]; cases result <;> rfl

theorem exchange_data {α : Type} [Unmarshaler α] (E : Env) (req : HTTPRequest)
    (r : α) (respBody : Bytes) (apiResp : APIResponse) (data : JSON)
    (hdo : E.Do req = .ok (.ok respBody))
    (hdec : jsonUnmarshal respBody ({} : APIResponse) = (apiResp, none))
    (hcode : apiResp.Code = 200000) (hdata : apiResp.Data = some data) :
    Client.exchange E req (some r)
      = ⟨some (Unmarshaler.unmarshal data r).1,
          (Unmarshaler.unmarshal data r).2.map (Errorf_w "failed to decode response data: "),
          some req⟩ := by
  unfold Client.exchange
  simp only [hdo, hdec, hcode, ne_eq, not_true_eq_false, if_false, hdata]
  rcases hu : (Unmarshaler.unmarshal data r : α × Option GoError) with ⟨r1, _ | e⟩ <;> rfl

/-- A call of `Request` that hands no request to the HTTP client returns an error and leaves
the result alone. -/
theorem Request_not_sent {β α : Type} [Marshaler β] [Unmarshaler α] (c : Client) (E : Env)
    (method path : String) (body : Option β) (result : Option α)
    (h : (c.Request E method path body result).sent = none) :
    (c.Request E method path body result).err.isSome = true
      ∧ (c.Request E method path body result).result = result := by
  unfold Client.Request at h ⊢
  cases hb : bodyReader body with
  | error e => simp
  | ok reader =>
    cases hu : NewRequest E method (c.BaseURL ++ path) reader with
    | error e => simp [hu]
    | ok u =>
      cases ht : E.GetToken with
      | error e => simp [hu]
      | ok token => simp [hb, hu, ht, exchange_sent] at h

theorem RequestWithQuery_not_sent {α : Type} [Unmarshaler α] (c : Client) (E : Env)
    (path : String) (params : Option GoMap) (result : Option α)
    (h : (c.RequestWithQuery E path params result).sent = none) :
    (c.RequestWithQuery E path params result).err.isSome = true
      ∧ (c.RequestWithQuery E path params result).result = result := by
  unfold Client.RequestWithQuery at h ⊢
  cases hu : NewRequest E "GET" (c.BaseURL ++ path) none with
  | error e => simp [hu]
  | ok u =>
    cases ht : E.GetToken with
    | error e => simp [hu]
    | ok token => simp [hu, ht, exchange_sent] at h

end common

/-! ## The claims -/

/-- C1: for every response envelope whose code is not 200000, `Client.Request` and
`Client.RequestWithQuery` return the API error whose text carries the message, the code (in
decimal) and the trace identifier of the envelope as they are, and the value behind the
caller's result pointer is what it was before the call, whatever the envelope's data holds. -/
theorem C1_api_error_carries_envelope {β α : Type} [Marshaler β] [Unmarshaler α]
    (c : common.Client) (E : Env) (method path : String) (body : Option β)
    (params : Option GoMap) (result : Option α) (apiResp : common.APIResponse)
    (hcode : apiResp.Code ≠ 200000) :
    (∀ req respBody, (c.Request E method path body result).sent = some req →
        E.Do req = .ok (.ok respBody) →
        jsonUnmarshal respBody ({} : common.APIResponse) = (apiResp, none) →
        (c.Request E method path body result).err
            = some (.errorString ("API error: " ++ apiResp.Message ++ " (code: "
                ++ Itoa apiResp.Code ++ ", trace_id: " ++ apiResp.TraceID ++ ")"))
          ∧ (c.Request E method path body result).result = result)
    ∧ (∀ req respBody, (c.RequestWithQuery E path params result).sent = some req →
        E.Do req = .ok (.ok respBody) →
        jsonUnmarshal respBody ({} : common.APIResponse) = (apiResp, none) →
        (c.RequestWithQuery E path params result).err
            = some (.errorString ("API error: " ++ apiResp.Message ++ " (code: "
                ++ Itoa apiResp.Code ++ ", trace_id: " ++ apiResp.TraceID ++ ")"))
          ∧ (c.RequestWithQuery E path params result).result = result) := by
  constructor
  · intro req respBody hs hdo hdec
    obtain ⟨_, _, _, _, _, _, _, heq⟩ := common.Request_sent c E method path body result req hs
    rw [heq, common.exchange_api_error E req result respBody apiResp hdo hdec hcode]
    exact ⟨rfl, rfl⟩
  · intro req respBody hs hdo hdec
    obtain ⟨_, _, _, _, _, heq⟩ := common.RequestWithQuery_sent c E path params result req hs
    rw [heq, common.exchange_api_error E req result respBody apiResp hdo hdec hcode]
    exact ⟨rfl, rfl⟩

/-- C1 at a concrete input: the sandbox client, a server that answers with the envelope of code
400000, message "invalid credential", trace identifier "trace-7" and a data member; the result
pointer refers to the zero `Wallet` before and after both calls. -/
theorem C1_api_error_carries_envelope_witness :
    (400000 : Int) ≠ 200000
    ∧ (fixture.client.Request
          (fixture.server (.obj [("code", .int 400000), ("message", .str "invalid credential"),
            ("trace_id", .str "trace-7"), ("data", .obj [("wallet_id", .str "w-1")])]))
          "GET" "/api/v1/wallets/w-1" (none : Option Unit) (some ({} : wallet.Wallet))).err
        = some (.errorString "API error: invalid credential (code: 400000, trace_id: trace-7)")
    ∧ (fixture.client.Request
          (fixture.server (.obj [("code", .int 400000), ("message", .str "invalid credential"),
            ("trace_id", .str "trace-7"), ("data", .obj [("wallet_id", .str "w-1")])]))
          "GET" "/api/v1/wallets/w-1" (none : Option Unit) (some ({} : wallet.Wallet))).result
        = some {}
    ∧ (fixture.client.RequestWithQuery
          (fixture.server (.obj [("code", .int 400000), ("message", .str "invalid credential"),
            ("trace_id", .str "trace-7"), ("data", .obj [("wallet_id", .str "w-1")])]))
          "/api/v1/wallets/w-1" (some [("status", "ACTIVE")]) (some ({} : wallet.Wallet))).err
        = some (.errorString "API error: invalid credential (code: 400000, trace_id: trace-7)")
    ∧ (fixture.client.RequestWithQuery
          (fixture.server (.obj [("code", .int 400000), ("message", .str "invalid credential"),
            ("trace_id", .str "trace-7"), ("data", .obj [("wallet_id", .str "w-1")])]))
          "/api/v1/wallets/w-1" (some [("status", "ACTIVE")]) (some ({} : wallet.Wallet))).result
        = some {} :=
  have h := C1_api_error_carries_envelope fixture.client
    (fixture.server (.obj [("code", .int 400000), ("message", .str "invalid credential"),
      ("trace_id", .str "trace-7"), ("data", .obj [("wallet_id", .str "w-1")])]))
    "GET" "/api/v1/wallets/w-1" (none : Option Unit) (some [("status", "ACTIVE")])
    (some ({} : wallet.Wallet))
    { Code := 400000, Message := "invalid credential", TraceID := "trace-7",
      Data := some (.obj [("wallet_id", .str "w-1")]) }
    (by decide)
  have h1 := h.1
    { Method := "GET",
      URL := { Loc := "https://mpcgwapi-sandbox.reefiy.dev/api/v1/wallets/w-1", RawQuery := "" },
      Header := [("Content-Type", "application/json"), ("Authorization", "Bearer tok-1")],
      Body := none } _ rfl rfl rfl
  have h2 := h.2
    { Method := "GET",
      URL := { Loc := "https://mpcgwapi-sandbox.reefiy.dev/api/v1/wallets/w-1",
               RawQuery := "status=ACTIVE" },
      Header := [("Authorization", "Bearer tok-1")],
      Body := none } _ rfl rfl rfl
  ⟨by decide, h1.1, h1.2, h2.1, h2.2⟩

/-- C3: when the token provider's `GetToken` fails, `Client.Request` and
`Client.RequestWithQuery` hand no request to the HTTP client, return an error and leave the
result alone; once the body is encoded and the request is built (so that `GetToken` is
reached) the error returned is the authentication error that wraps the provider's error. -/
theorem C3_token_failure_sends_nothing {β α : Type} [Marshaler β] [Unmarshaler α]
    (c : common.Client) (E : Env) (method path : String) (body : Option β)
    (params : Option GoMap) (result : Option α) (err : GoError)
    (htoken : E.GetToken = .error err) :
    ((c.Request E method path body result).sent = none
      ∧ (c.Request E method path body result).err.isSome = true
      ∧ (c.Request E method path body result).result = result
      ∧ (∀ reader u, common.bodyReader body = .ok reader →
          E.parseRequestURL method (c.BaseURL ++ path) = .ok u →
          (c.Request E method path body result).err
            = some (.wrapError ("failed to get JWT token: " ++ err.Error) err)))
    ∧ ((c.RequestWithQuery E path params result).sent = none
      ∧ (c.RequestWithQuery E path params result).err.isSome = true
      ∧ (c.RequestWithQuery E path params result).result = result
      ∧ (∀ u, E.parseRequestURL "GET" (c.BaseURL ++ path) = .ok u →
          (c.RequestWithQuery E path params result).err
            = some (.wrapError ("failed to get JWT token: " ++ err.Error) err))) := by
  have hs1 : (c.Request E method path body result).sent = none := by
    cases hs : (c.Request E method path body result).sent with
    | none => rfl
    | some req =>
      obtain ⟨_, _, token, _, _, ht, _⟩ := common.Request_sent c E method path body result req hs
      rw [htoken] at ht; cases ht
  have hs2 : (c.RequestWithQuery E path params result).sent = none := by
    cases hs : (c.RequestWithQuery E path params result).sent with
    | none => rfl
    | some req =>
      obtain ⟨_, token, _, ht, _⟩ := common.RequestWithQuery_sent c E path params result req hs
      rw [htoken] at ht; cases ht
  refine ⟨⟨hs1, (common.Request_not_sent c E method path body result hs1).1,
      (common.Request_not_sent c E method path body result hs1).2, ?_⟩,
    ⟨hs2, (common.RequestWithQuery_not_sent c E path params result hs2).1,
      (common.RequestWithQuery_not_sent c E path params result hs2).2, ?_⟩⟩
  · intro reader u hb hu
    unfold common.Client.Request
    simp [hb, NewRequest, hu, htoken, Errorf_w]
  · intro u hu
    unfold common.Client.RequestWithQuery
    simp [NewRequest, hu, htoken, Errorf_w]

/-- C3 at a concrete input: a token manager that answers "invalid credential". -/
theorem C3_token_failure_sends_nothing_witness :
    ((fixture.client.Request
          (fixture.env (.error (.errorString "invalid credential")) (.ok (.ok (.valid .null))))
          "POST" "/api/v1/wallets"
          (some (some ({ WalletName := "w" } : wallet.CreateWalletRequest)))
          (some ({} : wallet.Wallet))).sent.isNone = true
      ∧ (fixture.client.Request
          (fixture.env (.error (.errorString "invalid credential")) (.ok (.ok (.valid .null))))
          "POST" "/api/v1/wallets"
          (some (some ({ WalletName := "w" } : wallet.CreateWalletRequest)))
          (some ({} : wallet.Wallet))).err
        = some (.wrapError "failed to get JWT token: invalid credential"
            (.errorString "invalid credential")))
    ∧ ((fixture.client.RequestWithQuery
          (fixture.env (.error (.errorString "invalid credential")) (.ok (.ok (.valid .null))))
          "/api/v1/wallets" (some [("page", "2")]) (some ({} : wallet.Wallet))).sent.isNone = true
      ∧ (fixture.client.RequestWithQuery
          (fixture.env (.error (.errorString "invalid credential")) (.ok (.ok (.valid .null))))
          "/api/v1/wallets" (some [("page", "2")]) (some ({} : wallet.Wallet))).err
        = some (.wrapError "failed to get JWT token: invalid credential"
            (.errorString "invalid credential"))) :=
  have h := C3_token_failure_sends_nothing fixture.client
    (fixture.env (.error (.errorString "invalid credential")) (.ok (.ok (.valid .null))))
    "POST" "/api/v1/wallets" (some (some ({ WalletName := "w" } : wallet.CreateWalletRequest)))
    (some [("page", "2")]) (some ({} : wallet.Wallet)) (.errorString "invalid credential") rfl
  ⟨⟨by rw [h.1.1]; rfl, h.1.2.2.2 _ _ rfl rfl⟩, ⟨by rw [h.2.1]; rfl, h.2.2.2.2 _ rfl⟩⟩

theorem findField_mem {α : Type} (fields : List (Field α)) (key : String) (f : Field α)
    (h : findField fields key = some f) : f ∈ fields := by
  unfold findField at h
  split at h
  · rename_i g hg
    cases h
    exact List.mem_of_find?_eq_some hg
  · exact List.mem_of_find?_eq_some h

/-- A key that selects a field has the folded name of that field. -/
theorem findField_foldName {α : Type} (fields : List (Field α)) (key : String) (f : Field α)
    (h : findField fields key = some f) : foldName f.name = foldName key := by
  unfold findField at h
  split at h
  · rename_i g hg
    cases h
    have := List.find?_some hg
    simp only [beq_iff_eq] at this
    rw [this]
  · have := List.find?_some h
    simpa using this

theorem saveError_eq_none (saved new : Option GoError) :
    saveError saved new = none ↔ saved = none ∧ new = none := by
  cases saved <;> simp [saveError]

theorem storeString_error {α : Type} (set : α → String → α) (v : JSON) (a : α) :
    (storeString set v a).2 = none ↔ common.fitsString v = true := by
  cases v <;> simp [storeString, common.fitsString]

theorem storeInt_error {α : Type} (goType : String) (set : α → Int → α) (v : JSON) (a : α) :
    (storeInt goType set v a).2 = none ↔ common.fitsInt64 v = true := by
  cases v <;> simp [storeInt, common.fitsInt64]
  rename_i n
  split <;> simp_all

/-- The store of the field that a member selects reports no error exactly when the member
fits. -/
theorem APIResponse_store_error (kv : String × JSON) (f : Field common.APIResponse)
    (a : common.APIResponse) (h : findField common.APIResponse.fields kv.1 = some f) :
    (f.store kv.2 a).2 = none ↔ common.APIResponse.memberFits kv = true := by
  have hm := findField_mem _ _ _ h
  unfold common.APIResponse.memberFits
  rw [h]
  simp only [common.APIResponse.fields, List.mem_cons, List.mem_singleton, List.not_mem_nil,
    or_false] at hm
  rcases hm with rfl | rfl | rfl | rfl | rfl | rfl | rfl | rfl
  all_goals simp [storeString_error, storeInt_error, storeRaw]

/-- Decoding the members of an object: no error is reported exactly when none was saved before
and every member fits. -/
theorem APIResponse_members_error (kvs : List (String × JSON))
    (acc : common.APIResponse × Option GoError) :
    (kvs.foldl (storeMember "APIResponse" common.APIResponse.fields) acc).2 = none
      ↔ acc.2 = none ∧ kvs.all common.APIResponse.memberFits = true := by
  induction kvs generalizing acc with
  | nil => simp
  | cons kv rest ih =>
    rw [List.foldl_cons, ih, List.all_cons, Bool.and_eq_true]
    cases hf : findField common.APIResponse.fields kv.1 with
    | none =>
      have : common.APIResponse.memberFits kv = true := by
        simp [common.APIResponse.memberFits, hf]
      simp [storeMember, hf, this]
    | some f =>
      simp only [storeMember, hf, saveError_eq_none, Option.map_eq_none',
        APIResponse_store_error kv f acc.1 hf]
      tauto

/-- The function `json.Unmarshal` into an `APIResponse` reports no error exactly for a JSON
value that it accepts. -/
theorem APIResponse_unmarshal_error (v : JSON) (a : common.APIResponse) :
    (Unmarshaler.unmarshal v a).2 = none ↔ common.APIResponse.accepts v = true := by
  show (unmarshalStruct "common" "APIResponse" common.APIResponse.fields v a).2 = none ↔ _
  cases v with
  | obj kvs =>
    simp only [unmarshalStruct, common.APIResponse.accepts]
    rw [APIResponse_members_error]
    simp
  | _ => simp [unmarshalStruct, common.APIResponse.accepts]

/-- Storing one member into an `APIResponse` leaves `Code` alone unless the key selects the
field `code`. -/
theorem APIResponse_storeMember_Code (acc : common.APIResponse × Option GoError)
    (kv : String × JSON) (h : foldName kv.1 ≠ foldName "code") :
    (storeMember "APIResponse" common.APIResponse.fields acc kv).1.Code = acc.1.Code := by
  unfold storeMember
  cases hf : findField common.APIResponse.fields kv.1 with
  | none => rfl
  | some f =>
    have hm := findField_mem _ _ _ hf
    have hn := findField_foldName _ _ _ hf
    simp only [common.APIResponse.fields, List.mem_cons, List.mem_singleton, List.not_mem_nil,
      or_false] at hm
    rcases hm with rfl | rfl | rfl | rfl | rfl | rfl | rfl | rfl
    · exact absurd hn.symm h
    all_goals
      cases hv : kv.2 <;> simp only [storeString, storeInt, storeRaw] <;>
        first
          | rfl
          | (split <;> rfl)

/-- Decoding the members of an object none of whose keys selects `code` leaves `Code` alone. -/
theorem APIResponse_members_Code (kvs : List (String × JSON))
    (acc : common.APIResponse × Option GoError)
    (h : ∀ kv ∈ kvs, foldName kv.1 ≠ foldName "code") :
    (kvs.foldl (storeMember "APIResponse" common.APIResponse.fields) acc).1.Code
      = acc.1.Code := by
  induction kvs generalizing acc with
  | nil => rfl
  | cons kv rest ih =>
    rw [List.foldl_cons, ih _ (fun x hx => h x (List.mem_cons_of_mem _ hx)),
      APIResponse_storeMember_Code acc kv (h kv (List.mem_cons_self _ _))]

/-- The envelope decoded from a value without a status code has the code 0. -/
theorem APIResponse_unmarshal_lacksCode (v : JSON)
    (h : common.APIResponse.lacksCode v = true) :
    (Unmarshaler.unmarshal v ({} : common.APIResponse)).1.Code = 0 := by
  show (unmarshalStruct "common" "APIResponse" common.APIResponse.fields v {}).1.Code = 0
  cases v with
  | null => rfl
  | obj kvs =>
    simp only [common.APIResponse.lacksCode, List.all_eq_true, bne_iff_ne] at h
    simp only [unmarshalStruct]
    rw [APIResponse_members_Code kvs _ h]
  | _ => simp [common.APIResponse.lacksCode] at h

/-- C4 as stated fails for the bodies without the shape of the envelope that the decoder
accepts: for the body `{"error":"bad gateway"}`, which holds no status code, `Request` returns
the error `API error:  (code: 0, trace_id: )`, not the protocol error, and so does
`RequestWithQuery` for the body `null`. -/
theorem C4_counterexample_unshaped_body_is_api_error :
    common.APIResponse.specShape (.obj [("error", .str "bad gateway")]) = false
    ∧ (fixture.client.Request (fixture.server (.obj [("error", .str "bad gateway")]))
          "GET" "/api/v1/wallets/w-1" (none : Option Unit) (some ({} : wallet.Wallet))).err
        = some (.errorString "API error:  (code: 0, trace_id: )")
    ∧ common.APIResponse.specShape .null = false
    ∧ (fixture.client.RequestWithQuery (fixture.server .null)
          "/api/v1/wallets/w-1" (some []) (some ({} : wallet.Wallet))).err
        = some (.errorString "API error:  (code: 0, trace_id: )") := by
  refine ⟨by decide, by decide, by decide, by decide⟩

/-- C4 amended: `json.Unmarshal` of the body into the envelope reports an error exactly when
the body is not valid JSON or its JSON value is one the decoder does not accept (neither `null`
nor an object, or an object with a member of an envelope field that has the wrong type); then
`Client.Request` and `Client.RequestWithQuery` return (they do not crash) the protocol error
"failed to decode response" that wraps it, with the value behind the result pointer as it was
before the call.  Every other body is decoded without an error, whether or not it has the
shape of the envelope: a value without a status code (`null`, an object without `code`) gives
the code 0, and for every code other than 200000 both methods return the API error with the
decoded message, code and trace identifier, again with the result as it was. -/
theorem C4_malformed_body_is_protocol_error {β α : Type} [Marshaler β] [Unmarshaler α]
    (c : common.Client) (E : Env) (method path : String) (body : Option β)
    (params : Option GoMap) (result : Option α) (respBody : Bytes) :
    ((∃ err, (jsonUnmarshal respBody ({} : common.APIResponse)).2 = some err)
      ↔ ((∃ e, respBody = .invalid e)
        ∨ (∃ v, respBody = .valid v ∧ common.APIResponse.accepts v = false)))
    ∧ (∀ err, (jsonUnmarshal respBody ({} : common.APIResponse)).2 = some err →
        (∀ req, (c.Request E method path body result).sent = some req →
          E.Do req = .ok (.ok respBody) →
          (c.Request E method path body result).err
              = some (.wrapError ("failed to decode response: " ++ err.Error) err)
            ∧ (c.Request E method path body result).result = result)
        ∧ (∀ req, (c.RequestWithQuery E path params result).sent = some req →
          E.Do req = .ok (.ok respBody) →
          (c.RequestWithQuery E path params result).err
              = some (.wrapError ("failed to decode response: " ++ err.Error) err)
            ∧ (c.RequestWithQuery E path params result).result = result))
    ∧ (∀ v, respBody = .valid v → common.APIResponse.accepts v = true →
        ∃ apiResp, jsonUnmarshal respBody ({} : common.APIResponse) = (apiResp, none)
          ∧ (common.APIResponse.lacksCode v = true → apiResp.Code = 0)
          ∧ (apiResp.Code ≠ 200000 →
              (∀ req, (c.Request E method path body result).sent = some req →
                E.Do req = .ok (.ok respBody) →
                (c.Request E method path body result).err
                    = some (.errorString
                        (common.apiErrorText apiResp.Message apiResp.Code apiResp.TraceID))
                  ∧ (c.Request E method path body result).result = result)
              ∧ (∀ req, (c.RequestWithQuery E path params result).sent = some req →
                E.Do req = .ok (.ok respBody) →
                (c.RequestWithQuery E path params result).err
                    = some (.errorString
                        (common.apiErrorText apiResp.Message apiResp.Code apiResp.TraceID))
                  ∧ (c.RequestWithQuery E path params result).result = result))) := by
  refine ⟨?_, ?_, ?_⟩
  · constructor
    · rintro ⟨err, herr⟩
      cases respBody with
      | invalid e => exact Or.inl ⟨e, rfl⟩
      | valid v =>
        right
        refine ⟨v, rfl, ?_⟩
        cases ha : common.APIResponse.accepts v with
        | false => rfl
        | true =>
          have := (APIResponse_unmarshal_error v {}).2 ha
          simp only [jsonUnmarshal] at herr
          rw [this] at herr
          cases herr
    · rintro (⟨e, rfl⟩ | ⟨v, rfl, hv⟩)
      · exact ⟨e, rfl⟩
      · cases h : (jsonUnmarshal (.valid v) ({} : common.APIResponse)).2 with
        | some err => exact ⟨err, rfl⟩
        | none =>
          have := (APIResponse_unmarshal_error v {}).1 h
          rw [hv] at this; cases this
  · intro err herr
    have hdec : jsonUnmarshal respBody ({} : common.APIResponse)
        = ((jsonUnmarshal respBody ({} : common.APIResponse)).1, some err) := by
      rw [← herr]
    constructor
    · intro req hs hdo
      obtain ⟨_, _, _, _, _, _, _, heq⟩ := common.Request_sent c E method path body result req hs
      rw [heq, common.exchange_decode_error E req result respBody _ err hdo hdec]
      exact ⟨rfl, rfl⟩
    · intro req hs hdo
      obtain ⟨_, _, _, _, _, heq⟩ := common.RequestWithQuery_sent c E path params result req hs
      rw [heq, common.exchange_decode_error E req result respBody _ err hdo hdec]
      exact ⟨rfl, rfl⟩
  · rintro v rfl hv
    have hnone : (jsonUnmarshal (.valid v) ({} : common.APIResponse)).2 = none :=
      (APIResponse_unmarshal_error v {}).2 hv
    have hdec : jsonUnmarshal (.valid v) ({} : common.APIResponse)
        = ((jsonUnmarshal (.valid v) ({} : common.APIResponse)).1, none) := by
      rw [← hnone]
    refine ⟨_, hdec, fun hl => APIResponse_unmarshal_lacksCode v hl, ?_⟩
    intro hcode
    constructor
    · intro req hs hdo
      obtain ⟨_, _, _, _, _, _, _, heq⟩ := common.Request_sent c E method path body result req hs
      rw [heq, common.exchange_api_error E req result _ _ hdo hdec hcode]
      exact ⟨rfl, rfl⟩
    · intro req hs hdo
      obtain ⟨_, _, _, _, _, heq⟩ := common.RequestWithQuery_sent c E path params result req hs
      rw [heq, common.exchange_api_error E req result _ _ hdo hdec hcode]
      exact ⟨rfl, rfl⟩

/-- C4 (amended) at three concrete inputs: `Request` against a server whose body is cut short
(not JSON), `RequestWithQuery` against a server whose `code` member is a string, and `Request`
against a server that answers `{"error":"bad gateway"}`. -/
theorem C4_malformed_body_is_protocol_error_witness :
    ((fixture.client.Request
          (fixture.env (.ok "tok-1")
            (.ok (.ok (.invalid (.errorString "unexpected end of JSON input")))))
          "GET" "/api/v1/wallets/w-1" (none : Option Unit) (some ({} : wallet.Wallet))).err
        = some (.wrapError "failed to decode response: unexpected end of JSON input"
            (.errorString "unexpected end of JSON input"))
      ∧ (fixture.client.Request
          (fixture.env (.ok "tok-1")
            (.ok (.ok (.invalid (.errorString "unexpected end of JSON input")))))
          "GET" "/api/v1/wallets/w-1" (none : Option Unit) (some ({} : wallet.Wallet))).result
        = some {})
    ∧ ((fixture.client.RequestWithQuery
          (fixture.server (.obj [("code", .str "200000"), ("data", .obj [])]))
          "/api/v1/wallets/w-1" (some []) (some ({} : wallet.Wallet))).err
        = some (.wrapError
            ("failed to decode response: json: cannot unmarshal string into Go struct field "
              ++ "APIResponse.code of type int")
            (.unmarshalTypeError "string" "int" "APIResponse" "code"))
      ∧ (fixture.client.RequestWithQuery
          (fixture.server (.obj [("code", .str "200000"), ("data", .obj [])]))
          "/api/v1/wallets/w-1" (some []) (some ({} : wallet.Wallet))).result
        = some {})
    ∧ ((fixture.client.Request (fixture.server (.obj [("error", .str "bad gateway")]))
          "GET" "/api/v1/wallets/w-1" (none : Option Unit) (some ({} : wallet.Wallet))).err
        = some (.errorString "API error:  (code: 0, trace_id: )")
      ∧ (fixture.client.Request (fixture.server (.obj [("error", .str "bad gateway")]))
          "GET" "/api/v1/wallets/w-1" (none : Option Unit) (some ({} : wallet.Wallet))).result
        = some {}) := by
  refine ⟨?_, ?_, ?_⟩
  · exact ((C4_malformed_body_is_protocol_error fixture.client
      (fixture.env (.ok "tok-1")
        (.ok (.ok (.invalid (.errorString "unexpected end of JSON input")))))
      "GET" "/api/v1/wallets/w-1" (none : Option Unit) (some []) (some ({} : wallet.Wallet))
      (.invalid (.errorString "unexpected end of JSON input"))).2.1
        (.errorString "unexpected end of JSON input") rfl).1
      { Method := "GET",
        URL := { Loc := "https://mpcgwapi-sandbox.reefiy.dev/api/v1/wallets/w-1", RawQuery := "" },
        Header := [("Content-Type", "application/json"), ("Authorization", "Bearer tok-1")],
        Body := none } rfl rfl
  · exact ((C4_malformed_body_is_protocol_error fixture.client
      (fixture.server (.obj [("code", .str "200000"), ("data", .obj [])]))
      "GET" "/api/v1/wallets/w-1" (none : Option Unit) (some []) (some ({} : wallet.Wallet))
      (.valid (.obj [("code", .str "200000"), ("data", .obj [])]))).2.1
        (.unmarshalTypeError "string" "int" "APIResponse" "code") rfl).2
      { Method := "GET",
        URL := { Loc := "https://mpcgwapi-sandbox.reefiy.dev/api/v1/wallets/w-1", RawQuery := "" },
        Header := [("Authorization", "Bearer tok-1")],
        Body := none } rfl rfl
  · obtain ⟨apiResp, hdec, hzero, hapi⟩ := (C4_malformed_body_is_protocol_error fixture.client
      (fixture.server (.obj [("error", .str "bad gateway")]))
      "GET" "/api/v1/wallets/w-1" (none : Option Unit) (some []) (some ({} : wallet.Wallet))
      (.valid (.obj [("error", .str "bad gateway")]))).2.2 _ rfl (by decide)
    have he : ({} : common.APIResponse) = apiResp := congrArg Prod.fst hdec
    subst he
    exact (hapi (by decide)).1
      { Method := "GET",
        URL := { Loc := "https://mpcgwapi-sandbox.reefiy.dev/api/v1/wallets/w-1", RawQuery := "" },
        Header := [("Content-Type", "application/json"), ("Authorization", "Bearer tok-1")],
        Body := none } rfl rfl

/-- C5: `NewClient` returns an error exactly when the key is empty, the secret is empty or the
configuration is nil, and then returns no client; for a non-empty key and secret and a non-nil
configuration it returns no error and a client whose `GetConfig` is the configuration given
and whose four services are set, each on the API client of the configuration's base URL. -/
theorem C5_NewClient_requires_credentials (apiKey apiSecret : String)
    (config : Option configuration.Config) :
    (((mpcsdk.NewClient apiKey apiSecret config).2.isSome = true
        ↔ (apiKey = "" ∨ apiSecret = "" ∨ config = none))
      ∧ ((mpcsdk.NewClient apiKey apiSecret config).2.isSome = true →
          (mpcsdk.NewClient apiKey apiSecret config).1 = none))
    ∧ (apiKey ≠ "" → apiSecret ≠ "" → ∀ cfg, config = some cfg →
        ∃ client, mpcsdk.NewClient apiKey apiSecret config = (some client, none)
          ∧ client.GetConfig = some cfg
          ∧ client.Wallet = some (wallet.NewService (common.NewClient cfg.BaseURL
              (auth.NewTokenManager apiKey apiSecret cfg.BaseURL)))
          ∧ client.Account = some (account.NewService (common.NewClient cfg.BaseURL
              (auth.NewTokenManager apiKey apiSecret cfg.BaseURL)))
          ∧ client.Asset = some (asset.NewService (common.NewClient cfg.BaseURL
              (auth.NewTokenManager apiKey apiSecret cfg.BaseURL)))
          ∧ client.Transaction = some (transaction.NewService (common.NewClient cfg.BaseURL
              (auth.NewTokenManager apiKey apiSecret cfg.BaseURL)))) := by
  refine ⟨⟨?_, ?_⟩, ?_⟩
  · unfold mpcsdk.NewClient
    by_cases hk : apiKey = ""
    · simp [hk]
    · by_cases hs : apiSecret = ""
      · simp [hk, hs]
      · cases config <;> simp [hk, hs]
  · unfold mpcsdk.NewClient
    by_cases hk : apiKey = ""
    · simp [hk]
    · by_cases hs : apiSecret = ""
      · simp [hk, hs]
      · cases config <;> simp [hk, hs]
  · intro hk hs cfg hcfg
    subst hcfg
    have hnew : mpcsdk.NewClient apiKey apiSecret (some cfg)
        = (some { config := some cfg,
                  tokenManager := auth.NewTokenManager apiKey apiSecret cfg.BaseURL,
                  apiClient := common.NewClient cfg.BaseURL
                    (auth.NewTokenManager apiKey apiSecret cfg.BaseURL),
                  Wallet := some (wallet.NewService (common.NewClient cfg.BaseURL
                    (auth.NewTokenManager apiKey apiSecret cfg.BaseURL))),
                  Account := some (account.NewService (common.NewClient cfg.BaseURL
                    (auth.NewTokenManager apiKey apiSecret cfg.BaseURL))),
                  Asset := some (asset.NewService (common.NewClient cfg.BaseURL
                    (auth.NewTokenManager apiKey apiSecret cfg.BaseURL))),
                  Transaction := some (transaction.NewService (common.NewClient cfg.BaseURL
                    (auth.NewTokenManager apiKey apiSecret cfg.BaseURL))) }, none) := by
      simp [mpcsdk.NewClient, hk, hs]
    exact ⟨_, hnew, rfl, rfl, rfl, rfl, rfl⟩

/-- C5 at a concrete input: the key and secret of the integration test with the sandbox
configuration. -/
theorem C5_NewClient_requires_credentials_witness :
    ∃ client, mpcsdk.NewClient "key" "secret" (some configuration.Sandbox) = (some client, none)
      ∧ client.GetConfig = some configuration.Sandbox
      ∧ client.Wallet = some (wallet.NewService fixture.client)
      ∧ client.Account = some (account.NewService fixture.client)
      ∧ client.Asset = some (asset.NewService fixture.client)
      ∧ client.Transaction = some (transaction.NewService fixture.client) :=
  (C5_NewClient_requires_credentials "key" "secret" (some configuration.Sandbox)).2
    (by decide) (by decide) configuration.Sandbox rfl

/-- The headers of `Request`, spelled out. -/
theorem requestHeader_eq (token : String) :
    common.requestHeader token
      = [("Content-Type", "application/json"), ("Authorization", "Bearer " ++ token)] := by
  simp [common.requestHeader, Header.Set]

/-- The header of `RequestWithQuery`, spelled out. -/
theorem queryHeader_eq (token : String) :
    common.queryHeader token = [("Authorization", "Bearer " ++ token)] := by
  simp [common.queryHeader, Header.Set]

/-- The request that a service hands on is the request of its pipeline call. -/
theorem wallet_Create_sent (s : wallet.Service) (E : Env)
    (req : Option wallet.CreateWalletRequest) :
    (s.Create E req).sent
      = (s.client.Request E "POST" "/api/v1/wallets" (some req)
          (some ({} : wallet.Wallet))).sent := by
  unfold wallet.Service.Create
  dsimp only
  split <;> rfl

theorem account_Create_sent (s : account.Service) (E : Env)
    (req : Option account.CreateAccountRequest) :
    (s.Create E req).sent
      = (s.client.Request E "POST" "/api/v1/accounts" (some req)
          (some ({} : account.Account))).sent := by
  unfold account.Service.Create
  dsimp only
  split <;> rfl

theorem asset_Create_sent (s : asset.Service) (E : Env)
    (req : Option asset.CreateAssetRequest) :
    (s.Create E req).sent
      = (s.client.Request E "POST" "/api/v1/assets" (some req)
          (some ({} : asset.Asset))).sent := by
  unfold asset.Service.Create
  dsimp only
  split <;> rfl

/-- C7, what the code does: a request of `Request` with the nil interface as body and every
request of `RequestWithQuery` carry no body, but the nil request pointer that a service's
`Create` passes on is a non-nil interface, is encoded by `json.Marshal`, and the request carries
the body `null`. -/
theorem C7_nil_request_pointer_is_sent_as_null {β α : Type} [Marshaler β] [Unmarshaler α]
    (c : common.Client) (E : Env) (method path : String) (params : Option GoMap)
    (result : Option α) (ws : wallet.Service) (acs : account.Service) (ass : asset.Service) :
    (∀ req, (c.Request E method path (none : Option β) result).sent = some req →
        req.Body = none)
    ∧ (∀ req, (c.RequestWithQuery E path params result).sent = some req → req.Body = none)
    ∧ (∀ req, (ws.Create E none).sent = some req → req.Body = some JSON.null)
    ∧ (∀ req, (acs.Create E none).sent = some req → req.Body = some JSON.null)
    ∧ (∀ req, (ass.Create E none).sent = some req → req.Body = some JSON.null) := by
  refine ⟨?_, ?_, ?_, ?_, ?_⟩
  · intro req hs
    obtain ⟨reader, _, _, hb, _, _, hreq, _⟩ := common.Request_sent c E method path _ result req hs
    cases hb
    rw [hreq]
  · intro req hs
    obtain ⟨_, _, _, _, hreq, _⟩ := common.RequestWithQuery_sent c E path params result req hs
    rw [hreq]
  · intro req hs
    rw [wallet_Create_sent] at hs
    obtain ⟨reader, _, _, hb, _, _, hreq, _⟩ := common.Request_sent _ E _ _ _ _ req hs
    cases hb
    rw [hreq]
  · intro req hs
    rw [account_Create_sent] at hs
    obtain ⟨reader, _, _, hb, _, _, hreq, _⟩ := common.Request_sent _ E _ _ _ _ req hs
    cases hb
    rw [hreq]
  · intro req hs
    rw [asset_Create_sent] at hs
    obtain ⟨reader, _, _, hb, _, _, hreq, _⟩ := common.Request_sent _ E _ _ _ _ req hs
    cases hb
    rw [hreq]

/-- C7 at the failing input: `Wallet.Create(ctx, nil)` on the sandbox client sends a POST
request whose body is the JSON text `null`. -/
theorem C7_nil_request_pointer_is_sent_as_null_witness :
    ∃ req, ((wallet.NewService fixture.client).Create
        (fixture.server (.obj [("code", .int 200000)])) none).sent = some req
      ∧ req.Method = "POST" ∧ req.Body = some JSON.null :=
  ⟨{ Method := "POST",
     URL := { Loc := "https://mpcgwapi-sandbox.reefiy.dev/api/v1/wallets", RawQuery := "" },
     Header := [("Content-Type", "application/json"), ("Authorization", "Bearer tok-1")],
     Body := some JSON.null }, rfl, rfl,
    (C7_nil_request_pointer_is_sent_as_null (β := Unit) (α := wallet.Wallet) fixture.client
      (fixture.server (.obj [("code", .int 200000)])) "GET" "/" none none
      (wallet.NewService fixture.client) (account.NewService fixture.client)
      (asset.NewService fixture.client)).2.2.1 _ rfl⟩

theorem wallet_Create_allOrNothing (s : wallet.Service) (E : Env) (req : Option wallet.CreateWalletRequest) :
    (s.Create E req).allOrNothing
      ∧ ((s.client.Request E "POST" "/api/v1/wallets" (some req) (some ({} : wallet.Wallet))).err.isSome = true →
          (s.Create E req).result = none) := by
  unfold wallet.Service.Create
  dsimp only
  split <;> simp_all [common.Outcome.allOrNothing]

theorem wallet_Get_allOrNothing (s : wallet.Service) (E : Env) (id : String) :
    (s.Get E id).allOrNothing
      ∧ ((s.client.Request E "GET" ("/api/v1/wallets/" ++ id) (none : Option Unit) (some ({} : wallet.Wallet))).err.isSome = true →
          (s.Get E id).result = none) := by
  unfold wallet.Service.Get
  dsimp only
  split <;> simp_all [common.Outcome.allOrNothing]

theorem wallet_List_allOrNothing (s : wallet.Service) (E : Env) (req : Option wallet.ListWalletsRequest) :
    (s.List E req).allOrNothing
      ∧ ((s.client.RequestWithQuery E "/api/v1/wallets" (some (wallet.listParams req)) (some ([] : List (Option wallet.Wallet)))).err.isSome = true →
          (s.List E req).result = none) := by
  unfold wallet.Service.List
  dsimp only
  split <;> simp_all [common.Outcome.allOrNothing]

theorem account_Create_allOrNothing (s : account.Service) (E : Env) (req : Option account.CreateAccountRequest) :
    (s.Create E req).allOrNothing
      ∧ ((s.client.Request E "POST" "/api/v1/accounts" (some req) (some ({} : account.Account))).err.isSome = true →
          (s.Create E req).result = none) := by
  unfold account.Service.Create
  dsimp only
  split <;> simp_all [common.Outcome.allOrNothing]

theorem account_Get_allOrNothing (s : account.Service) (E : Env) (id : String) :
    (s.Get E id).allOrNothing
      ∧ ((s.client.Request E "GET" ("/api/v1/accounts/" ++ id) (none : Option Unit) (some ({} : account.Account))).err.isSome = true →
          (s.Get E id).result = none) := by
  unfold account.Service.Get
  dsimp only
  split <;> simp_all [common.Outcome.allOrNothing]

theorem account_List_allOrNothing (s : account.Service) (E : Env) (req : Option account.ListAccountsRequest) :
    (s.List E req).allOrNothing
      ∧ ((s.client.RequestWithQuery E "/api/v1/accounts" (some (account.listParams req)) (some ({} : account.ListAccountsResponse))).err.isSome = true →
          (s.List E req).result = none) := by
  unfold account.Service.List
  dsimp only
  split <;> simp_all [common.Outcome.allOrNothing]

theorem asset_Create_allOrNothing (s : asset.Service) (E : Env) (req : Option asset.CreateAssetRequest) :
    (s.Create E req).allOrNothing
      ∧ ((s.client.Request E "POST" "/api/v1/assets" (some req) (some ({} : asset.Asset))).err.isSome = true →
          (s.Create E req).result = none) := by
  unfold asset.Service.Create
  dsimp only
  split <;> simp_all [common.Outcome.allOrNothing]

theorem asset_Get_allOrNothing (s : asset.Service) (E : Env) (id : String) :
    (s.Get E id).allOrNothing
      ∧ ((s.client.Request E "GET" ("/api/v1/assets/" ++ id) (none : Option Unit) (some ({} : asset.Asset))).err.isSome = true →
          (s.Get E id).result = none) := by
  unfold asset.Service.Get
  dsimp only
  split <;> simp_all [common.Outcome.allOrNothing]

theorem asset_List_allOrNothing (s : asset.Service) (E : Env) (req : Option asset.ListAssetsRequest) :
    (s.List E req).allOrNothing
      ∧ ((s.client.RequestWithQuery E "/api/v1/assets" (some (asset.listParams req)) (some ([] : List (Option asset.Asset)))).err.isSome = true →
          (s.List E req).result = none) := by
  unfold asset.Service.List
  dsimp only
  split <;> simp_all [common.Outcome.allOrNothing]

theorem transaction_Get_allOrNothing (s : transaction.Service) (E : Env) (id : String) :
    (s.Get E id).allOrNothing
      ∧ ((s.client.Request E "GET" ("/api/v1/transactions/" ++ id) (none : Option Unit) (some ({} : transaction.Transaction))).err.isSome = true →
          (s.Get E id).result = none) := by
  unfold transaction.Service.Get
  dsimp only
  split <;> simp_all [common.Outcome.allOrNothing]

theorem transaction_List_allOrNothing (s : transaction.Service) (E : Env) (req : Option transaction.ListTransactionsRequest) :
    (s.List E req).allOrNothing
      ∧ ((s.client.RequestWithQuery E "/api/v1/transactions" (some (transaction.listParams req)) (some ([] : List (Option transaction.Transaction)))).err.isSome = true →
          (s.List E req).result = none) := by
  unfold transaction.Service.List
  dsimp only
  split <;> simp_all [common.Outcome.allOrNothing]

/-- C9: every service operation returns exactly one of a non-nil typed result and a non-nil
error, whatever the request pipeline meets, and whenever the pipeline call reports an error the
result returned is nil (the value the pipeline may have decoded in part is dropped). -/
theorem C9_services_all_or_nothing (E : Env) (ws : wallet.Service) (acs : account.Service)
    (ass : asset.Service) (ts : transaction.Service) (id : String)
    (wc : Option wallet.CreateWalletRequest) (wl : Option wallet.ListWalletsRequest)
    (ac : Option account.CreateAccountRequest) (al : Option account.ListAccountsRequest)
    (sc : Option asset.CreateAssetRequest) (sl : Option asset.ListAssetsRequest)
    (tl : Option transaction.ListTransactionsRequest) :
    ((ws.Create E wc).allOrNothing ∧ (ws.Get E id).allOrNothing ∧ (ws.List E wl).allOrNothing
      ∧ (acs.Create E ac).allOrNothing ∧ (acs.Get E id).allOrNothing
      ∧ (acs.List E al).allOrNothing
      ∧ (ass.Create E sc).allOrNothing ∧ (ass.Get E id).allOrNothing
      ∧ (ass.List E sl).allOrNothing
      ∧ (ts.Get E id).allOrNothing ∧ (ts.List E tl).allOrNothing)
    ∧ (((ws.client.Request E "POST" "/api/v1/wallets" (some wc)
            (some ({} : wallet.Wallet))).err.isSome = true → (ws.Create E wc).result = none)
      ∧ ((ws.client.Request E "GET" ("/api/v1/wallets/" ++ id) (none : Option Unit)
            (some ({} : wallet.Wallet))).err.isSome = true → (ws.Get E id).result = none)
      ∧ ((ws.client.RequestWithQuery E "/api/v1/wallets" (some (wallet.listParams wl))
            (some ([] : List (Option wallet.Wallet)))).err.isSome = true →
          (ws.List E wl).result = none)
      ∧ ((acs.client.Request E "POST" "/api/v1/accounts" (some ac)
            (some ({} : account.Account))).err.isSome = true → (acs.Create E ac).result = none)
      ∧ ((acs.client.Request E "GET" ("/api/v1/accounts/" ++ id) (none : Option Unit)
            (some ({} : account.Account))).err.isSome = true → (acs.Get E id).result = none)
      ∧ ((acs.client.RequestWithQuery E "/api/v1/accounts" (some (account.listParams al))
            (some ({} : account.ListAccountsResponse))).err.isSome = true →
          (acs.List E al).result = none)
      ∧ ((ass.client.Request E "POST" "/api/v1/assets" (some sc)
            (some ({} : asset.Asset))).err.isSome = true → (ass.Create E sc).result = none)
      ∧ ((ass.client.Request E "GET" ("/api/v1/assets/" ++ id) (none : Option Unit)
            (some ({} : asset.Asset))).err.isSome = true → (ass.Get E id).result = none)
      ∧ ((ass.client.RequestWithQuery E "/api/v1/assets" (some (asset.listParams sl))
            (some ([] : List (Option asset.Asset)))).err.isSome = true →
          (ass.List E sl).result = none)
      ∧ ((ts.client.Request E "GET" ("/api/v1/transactions/" ++ id) (none : Option Unit)
            (some ({} : transaction.Transaction))).err.isSome = true →
          (ts.Get E id).result = none)
      ∧ ((ts.client.RequestWithQuery E "/api/v1/transactions"
            (some (transaction.listParams tl))
            (some ([] : List (Option transaction.Transaction)))).err.isSome = true →
          (ts.List E tl).result = none)) :=
  ⟨⟨(wallet_Create_allOrNothing ws E wc).1, (wallet_Get_allOrNothing ws E id).1,
      (wallet_List_allOrNothing ws E wl).1, (account_Create_allOrNothing acs E ac).1,
      (account_Get_allOrNothing acs E id).1, (account_List_allOrNothing acs E al).1,
      (asset_Create_allOrNothing ass E sc).1, (asset_Get_allOrNothing ass E id).1,
      (asset_List_allOrNothing ass E sl).1, (transaction_Get_allOrNothing ts E id).1,
      (transaction_List_allOrNothing ts E tl).1⟩,
    ⟨(wallet_Create_allOrNothing ws E wc).2, (wallet_Get_allOrNothing ws E id).2,
      (wallet_List_allOrNothing ws E wl).2, (account_Create_allOrNothing acs E ac).2,
      (account_Get_allOrNothing acs E id).2, (account_List_allOrNothing acs E al).2,
      (asset_Create_allOrNothing ass E sc).2, (asset_Get_allOrNothing ass E id).2,
      (asset_List_allOrNothing ass E sl).2, (transaction_Get_allOrNothing ts E id).2,
      (transaction_List_allOrNothing ts E tl).2⟩⟩

/-- An instance of C9 with a partial decode: the server answers `Transaction.Get` with code
200000 and a data object whose `tx_id` is a string and whose `confirmations` is a string too.
The pipeline has stored the `tx_id` when it reports the error; the service returns nil. -/
theorem transaction_Get_partial_decode :
    (fixture.client.Request
        (fixture.server (.obj [("code", .int 200000),
          ("data", .obj [("tx_id", .str "tx-1"), ("confirmations", .str "many")])]))
        "GET" "/api/v1/transactions/tx-1" (none : Option Unit)
        (some ({} : transaction.Transaction))).result
      = some { TxID := "tx-1" }
    ∧ ((transaction.NewService fixture.client).Get
        (fixture.server (.obj [("code", .int 200000),
          ("data", .obj [("tx_id", .str "tx-1"), ("confirmations", .str "many")])]))
        "tx-1").result = none
    ∧ ((transaction.NewService fixture.client).Get
        (fixture.server (.obj [("code", .int 200000),
          ("data", .obj [("tx_id", .str "tx-1"), ("confirmations", .str "many")])]))
        "tx-1").err.isSome = true := by
  refine ⟨by decide, by decide, by decide⟩

/-- C9 at the input of the integration test: `Transaction.Get` of an identifier the server does
not know (it answers with a non-success envelope) returns the nil result and an error. -/
theorem C9_services_all_or_nothing_witness :
    ((transaction.NewService fixture.client).Get
        (fixture.server (.obj [("code", .int 404000), ("message", .str "transaction not found"),
          ("data", .obj [("tx_id", .str "non-existent-tx-id")])]))
        "non-existent-tx-id").result = none
    ∧ ((transaction.NewService fixture.client).Get
        (fixture.server (.obj [("code", .int 404000), ("message", .str "transaction not found"),
          ("data", .obj [("tx_id", .str "non-existent-tx-id")])]))
        "non-existent-tx-id").allOrNothing :=
  have h := C9_services_all_or_nothing
    (fixture.server (.obj [("code", .int 404000), ("message", .str "transaction not found"),
      ("data", .obj [("tx_id", .str "non-existent-tx-id")])]))
    (wallet.NewService fixture.client) (account.NewService fixture.client)
    (asset.NewService fixture.client) (transaction.NewService fixture.client)
    "non-existent-tx-id" none none none none none none none
  ⟨h.2.2.2.2.2.2.2.2.2.2.1 (by decide), h.1.2.2.2.2.2.2.2.2.2.1⟩

/-- C10 as stated fails: `Request` with the nil body (what every `Get` of a service calls) sends
a request that has no body and carries `Content-Type: application/json`. -/
theorem C10_counterexample_content_type_without_body :
    (fixture.client.Request (fixture.server (.obj [("code", .int 200000)]))
        "GET" "/api/v1/wallets/w-1" (none : Option Unit) (some ({} : wallet.Wallet))).sent.map
      (fun req => (req.Body.isNone, req.Header.Get "Content-Type"))
      = some (true, some "application/json") := by
  decide

/-- C10 amended: every request sent by `Request` carries exactly the two headers
`Content-Type: application/json` and `Authorization: Bearer <token>`, with the token that the
token provider returned, whether or not it has a body; every request sent by
`RequestWithQuery` carries exactly the header `Authorization: Bearer <token>` (so no
`Content-Type`) and has no body. -/
theorem C10_headers_of_sent_requests {β α : Type} [Marshaler β] [Unmarshaler α]
    (c : common.Client) (E : Env) (method path : String) (body : Option β)
    (params : Option GoMap) (result : Option α) :
    (∀ req, (c.Request E method path body result).sent = some req →
        ∃ token, E.GetToken = .ok token
          ∧ req.Header
              = [("Content-Type", "application/json"), ("Authorization", "Bearer " ++ token)]
          ∧ req.Header.Get "Authorization" = some ("Bearer " ++ token)
          ∧ req.Header.Get "Content-Type" = some "application/json")
    ∧ (∀ req, (c.RequestWithQuery E path params result).sent = some req →
        ∃ token, E.GetToken = .ok token
          ∧ req.Header = [("Authorization", "Bearer " ++ token)]
          ∧ req.Header.Get "Authorization" = some ("Bearer " ++ token)
          ∧ req.Header.Get "Content-Type" = none
          ∧ req.Body = none) := by
  constructor
  · intro req hs
    obtain ⟨_, _, token, _, _, ht, hreq, _⟩ := common.Request_sent c E method path body result req hs
    refine ⟨token, ht, ?_, ?_, ?_⟩ <;> rw [hreq] <;> simp [requestHeader_eq, Header.Get, List.lookup]
  · intro req hs
    obtain ⟨_, token, _, ht, hreq, _⟩ := common.RequestWithQuery_sent c E path params result req hs
    refine ⟨token, ht, ?_, ?_, ?_, ?_⟩ <;> rw [hreq] <;> simp [queryHeader_eq, Header.Get, List.lookup]

/-- C10 (amended) at a concrete input: a `Create` with a body and a listing call. -/
theorem C10_headers_of_sent_requests_witness :
    (fixture.client.Request (fixture.server (.obj [("code", .int 200000)]))
        "POST" "/api/v1/wallets"
        (some (some ({ WalletName := "w" } : wallet.CreateWalletRequest)))
        (some ({} : wallet.Wallet))).sent.map (fun req => req.Header)
      = some [("Content-Type", "application/json"), ("Authorization", "Bearer tok-1")]
    ∧ (fixture.client.RequestWithQuery (fixture.server (.obj [("code", .int 200000)]))
        "/api/v1/wallets" (some [("page", "2")])
        (some ({} : wallet.Wallet))).sent.map (fun req => req.Header)
      = some [("Authorization", "Bearer tok-1")] := by
  have h := C10_headers_of_sent_requests fixture.client
    (fixture.server (.obj [("code", .int 200000)])) "POST" "/api/v1/wallets"
    (some (some ({ WalletName := "w" } : wallet.CreateWalletRequest)))
    (some [("page", "2")]) (some ({} : wallet.Wallet))
  constructor
  · obtain ⟨token, ht, hh, _⟩ := h.1
      { Method := "POST",
        URL := { Loc := "https://mpcgwapi-sandbox.reefiy.dev/api/v1/wallets", RawQuery := "" },
        Header := [("Content-Type", "application/json"), ("Authorization", "Bearer tok-1")],
        Body := some (.obj [("wallet_name", .str "w"), ("chain", .str ""),
          ("network", .str "")]) } rfl
    rfl
  · obtain ⟨token, ht, hh, _⟩ := h.2
      { Method := "GET",
        URL := { Loc := "https://mpcgwapi-sandbox.reefiy.dev/api/v1/wallets",
                 RawQuery := "page=2" },
        Header := [("Authorization", "Bearer tok-1")],
        Body := none } rfl
    rfl

/-- Storing one member into a `Wallet` leaves `WalletID` alone unless the member is a string
whose key selects `wallet_id`. -/
theorem Wallet_storeMember_WalletID (acc : wallet.Wallet × Option GoError)
    (kv : String × JSON) :
    (storeMember "Wallet" wallet.Wallet.fields acc kv).1.WalletID = acc.1.WalletID
      ∨ (foldName kv.1 = foldName "wallet_id"
          ∧ kv.2 = .str (storeMember "Wallet" wallet.Wallet.fields acc kv).1.WalletID) := by
  unfold storeMember
  cases hf : findField wallet.Wallet.fields kv.1 with
  | none => exact Or.inl rfl
  | some f =>
    have hm := findField_mem _ _ _ hf
    have hn := findField_foldName _ _ _ hf
    simp only [wallet.Wallet.fields, List.mem_cons, List.mem_singleton, List.not_mem_nil,
      or_false] at hm
    rcases hm with rfl | rfl | rfl | rfl | rfl | rfl | rfl | rfl | rfl
    · cases hv : kv.2 <;> simp [storeString, hv]
      exact Or.inr hn.symm
    all_goals (left; cases hv : kv.2 <;> simp [storeString, hv])

/-- The `WalletID` after decoding the members of an object is the one before, or the string of
a member whose key selects `wallet_id`. -/
theorem Wallet_members_WalletID (kvs : List (String × JSON))
    (acc : wallet.Wallet × Option GoError) :
    (kvs.foldl (storeMember "Wallet" wallet.Wallet.fields) acc).1.WalletID = acc.1.WalletID
      ∨ ∃ k, foldName k = foldName "wallet_id"
          ∧ (k, JSON.str (kvs.foldl (storeMember "Wallet" wallet.Wallet.fields) acc).1.WalletID) ∈ kvs := by
  induction kvs generalizing acc with
  | nil => exact Or.inl rfl
  | cons kv rest ih =>
    rw [List.foldl_cons]
    rcases ih (storeMember "Wallet" wallet.Wallet.fields acc kv) with h | ⟨k, hk, hmem⟩
    · rcases Wallet_storeMember_WalletID acc kv with h2 | ⟨hk, hv⟩
      · exact Or.inl (h.trans h2)
      · right
        refine ⟨kv.1, hk, ?_⟩
        rw [h, ← hv]
        exact List.mem_cons_self _ _
    · exact Or.inr ⟨k, hk, List.mem_cons_of_mem _ hmem⟩

/-- A `Wallet` decoded from a JSON value into the zero `Wallet` has a non-empty `WalletID` only
if the value is an object with a string member `wallet_id` of that value. -/
theorem Wallet_unmarshal_WalletID (data : JSON)
    (h : (Unmarshaler.unmarshal data ({} : wallet.Wallet)).1.WalletID ≠ "") :
    ∃ kvs k, data = .obj kvs ∧ foldName k = foldName "wallet_id"
      ∧ (k, JSON.str (Unmarshaler.unmarshal data ({} : wallet.Wallet)).1.WalletID) ∈ kvs := by
  change (unmarshalStruct "wallet" "Wallet" wallet.Wallet.fields data {}).1.WalletID ≠ "" at h
  change ∃ kvs k, data = .obj kvs ∧ foldName k = foldName "wallet_id"
      ∧ (k, JSON.str (unmarshalStruct "wallet" "Wallet" wallet.Wallet.fields data {}).1.WalletID)
          ∈ kvs
  cases data with
  | obj kvs =>
    simp only [unmarshalStruct] at h ⊢
    rcases Wallet_members_WalletID kvs ({}, none) with h0 | ⟨k, hk, hmem⟩
    · exact absurd h0 h
    · exact ⟨kvs, k, rfl, hk, hmem⟩
  | _ => simp [unmarshalStruct] at h

/-- Storing a string member whose key selects `wallet_id` sets `WalletID` to that string. -/
theorem Wallet_storeMember_wallet_id (acc : wallet.Wallet × Option GoError) (k id : String)
    (h : foldName k = foldName "wallet_id") :
    (storeMember "Wallet" wallet.Wallet.fields acc (k, JSON.str id)).1.WalletID = id := by
  unfold storeMember
  cases hf : findField wallet.Wallet.fields k with
  | none =>
    exfalso
    unfold findField at hf
    split at hf
    · cases hf
    · have hno := List.find?_eq_none.1 hf _
        (by unfold wallet.Wallet.fields; exact List.mem_cons_self _ _)
      simp [h] at hno
  | some f =>
    have hm := findField_mem _ _ _ hf
    have hn := findField_foldName _ _ _ hf
    rw [h] at hn
    simp only [wallet.Wallet.fields, List.mem_cons, List.mem_singleton, List.not_mem_nil,
      or_false] at hm
    rcases hm with rfl | rfl | rfl | rfl | rfl | rfl | rfl | rfl | rfl
    · simp [storeString]
    all_goals exact absurd hn (by decide)

/-- Decoding members none of whose keys selects `wallet_id` leaves `WalletID` alone. -/
theorem Wallet_members_other (kvs : List (String × JSON))
    (acc : wallet.Wallet × Option GoError)
    (h : ∀ kv ∈ kvs, foldName kv.1 ≠ foldName "wallet_id") :
    (kvs.foldl (storeMember "Wallet" wallet.Wallet.fields) acc).1.WalletID
      = acc.1.WalletID := by
  induction kvs generalizing acc with
  | nil => rfl
  | cons kv rest ih =>
    rw [List.foldl_cons, ih _ (fun x hx => h x (List.mem_cons_of_mem _ hx))]
    rcases Wallet_storeMember_WalletID acc kv with h2 | ⟨hk, _⟩
    · exact h2
    · exact absurd hk (h kv (List.mem_cons_self _ _))

/-- The round trip of the identifier: a `Wallet` decoded from an object whose last member
selecting `wallet_id` is the string `id` has the `WalletID` `id`. -/
theorem Wallet_unmarshal_wallet_id (pre post : List (String × JSON)) (k id : String)
    (a : wallet.Wallet) (hk : foldName k = foldName "wallet_id")
    (hpost : ∀ kv ∈ post, foldName kv.1 ≠ foldName "wallet_id") :
    (Unmarshaler.unmarshal (JSON.obj (pre ++ (k, JSON.str id) :: post)) a).1.WalletID = id := by
  show (unmarshalStruct "wallet" "Wallet" wallet.Wallet.fields
      (JSON.obj (pre ++ (k, JSON.str id) :: post)) a).1.WalletID = id
  simp only [unmarshalStruct, List.foldl_append, List.foldl_cons]
  rw [Wallet_members_other post _ hpost]
  exact Wallet_storeMember_wallet_id _ k id hk

/-- C8 as stated fails: for a `CreateWalletRequest` and a response whose envelope has code
200000 and no data, `Create` returns no error and a `Wallet` whose `WalletID` is empty; for an
envelope of code 200000 whose data is a string, `Create` returns an error and no `Wallet`. -/
theorem C8_counterexample_success_envelope_without_wallet_id :
    (((wallet.NewService fixture.client).Create
          (fixture.server (.obj [("code", .int 200000), ("message", .str "success")]))
          (some { WalletName := "Test Wallet", Description := "Integration test wallet" })).err
        = none
      ∧ ((wallet.NewService fixture.client).Create
          (fixture.server (.obj [("code", .int 200000), ("message", .str "success")]))
          (some { WalletName := "Test Wallet", Description := "Integration test wallet" })).result
        = some { WalletID := "" })
    ∧ (((wallet.NewService fixture.client).Create
          (fixture.server (.obj [("code", .int 200000), ("data", .str "w-1")]))
          (some { WalletName := "Test Wallet", Description := "Integration test wallet" })).err.isSome
        = true
      ∧ ((wallet.NewService fixture.client).Create
          (fixture.server (.obj [("code", .int 200000), ("data", .str "w-1")]))
          (some { WalletName := "Test Wallet", Description := "Integration test wallet" })).result
        = none) := by
  refine ⟨⟨by decide, by decide⟩, ⟨by decide, by decide⟩⟩

/-- C8 amended: for every `CreateWalletRequest`, sent as the body of a POST in its encoding,
and every server response whose envelope has code 200000: when the envelope's data is a wallet
object, that is an object that decodes into a `Wallet` without error and whose last member
`wallet_id` is a string, `Create` returns no error and a `Wallet` decoded from the envelope whose
`WalletID` is that string, so non-empty when the string is.  In general `Create` returns no
error exactly when the data is absent or decodes into a `Wallet` without error, and then returns
the `Wallet` that the data decodes to from the zero `Wallet` (the zero `Wallet` when data is
absent or `null`); when the data does not decode it returns the error and no `Wallet`.  The
`WalletID` returned is non-empty only if the data is an object with a string member `wallet_id`
of that value. -/
theorem C8_create_returns_decoded_wallet (s : wallet.Service) (E : Env)
    (req : Option wallet.CreateWalletRequest) (sent : HTTPRequest) (respBody : Bytes)
    (apiResp : common.APIResponse)
    (hsent : (s.Create E req).sent = some sent)
    (hdo : E.Do sent = .ok (.ok respBody))
    (hdec : jsonUnmarshal respBody ({} : common.APIResponse) = (apiResp, none))
    (hcode : apiResp.Code = 200000) :
    (apiResp.Data = none →
        (s.Create E req).err = none ∧ (s.Create E req).result = some {})
    ∧ (apiResp.Data = some .null →
        (s.Create E req).err = none ∧ (s.Create E req).result = some {})
    ∧ (∀ data, apiResp.Data = some data →
        (Unmarshaler.unmarshal data ({} : wallet.Wallet)).2 = none →
        (s.Create E req).err = none
          ∧ (s.Create E req).result
              = some (Unmarshaler.unmarshal data ({} : wallet.Wallet)).1)
    ∧ (∀ data e, apiResp.Data = some data →
        (Unmarshaler.unmarshal data ({} : wallet.Wallet)).2 = some e →
        (s.Create E req).result = none
          ∧ (s.Create E req).err
              = some (Errorf_w "failed to create wallet: "
                  (Errorf_w "failed to decode response data: " e)))
    ∧ (∀ w, (s.Create E req).result = some w → w.WalletID ≠ "" →
        ∃ kvs k, apiResp.Data = some (.obj kvs) ∧ foldName k = foldName "wallet_id"
          ∧ (k, JSON.str w.WalletID) ∈ kvs)
    ∧ (∀ pre k id post, apiResp.Data = some (.obj (pre ++ (k, JSON.str id) :: post)) →
        foldName k = foldName "wallet_id" →
        (∀ kv ∈ post, foldName kv.1 ≠ foldName "wallet_id") →
        (Unmarshaler.unmarshal (JSON.obj (pre ++ (k, JSON.str id) :: post))
            ({} : wallet.Wallet)).2 = none →
        (s.Create E req).err = none
          ∧ ∃ w, (s.Create E req).result = some w ∧ w.WalletID = id
              ∧ (id ≠ "" → w.WalletID ≠ ""))
    ∧ (sent.Method = "POST" ∧ common.bodyReader (some req) = .ok sent.Body) := by
  rw [wallet_Create_sent] at hsent
  obtain ⟨reader, _, _, hreader, _, _, hreq, heq⟩ :=
    common.Request_sent _ E _ _ _ _ sent hsent
  have hnone : apiResp.Data = none →
      (s.Create E req).err = none ∧ (s.Create E req).result = some {} := by
    intro hd
    unfold wallet.Service.Create
    dsimp only
    rw [heq, common.exchange_no_data E sent _ respBody apiResp hdo hdec hcode (Or.inr hd)]
    exact ⟨rfl, rfl⟩
  have hsome : ∀ data, apiResp.Data = some data →
      (Unmarshaler.unmarshal data ({} : wallet.Wallet)).2 = none →
      (s.Create E req).err = none
        ∧ (s.Create E req).result
            = some (Unmarshaler.unmarshal data ({} : wallet.Wallet)).1 := by
    intro data hd hok
    unfold wallet.Service.Create
    dsimp only
    rw [heq, common.exchange_data E sent _ respBody apiResp data hdo hdec hcode hd]
    simp [hok]
  have hfail : ∀ data e, apiResp.Data = some data →
      (Unmarshaler.unmarshal data ({} : wallet.Wallet)).2 = some e →
      (s.Create E req).result = none
        ∧ (s.Create E req).err
            = some (Errorf_w "failed to create wallet: "
                (Errorf_w "failed to decode response data: " e)) := by
    intro data e hd he
    unfold wallet.Service.Create
    dsimp only
    rw [heq, common.exchange_data E sent _ respBody apiResp data hdo hdec hcode hd]
    simp [he]
  refine ⟨hnone, fun hd => hsome .null hd rfl, hsome, hfail, ?_, ?_, ?_⟩
  · intro w hw hid
    cases hd : apiResp.Data with
    | none =>
      rw [(hnone hd).2] at hw
      cases hw
      exact absurd rfl hid
    | some data =>
      cases he : (Unmarshaler.unmarshal data ({} : wallet.Wallet)).2 with
      | some e =>
        rw [(hfail data e hd he).1] at hw
        cases hw
      | none =>
        rw [(hsome data hd he).2] at hw
        cases hw
        obtain ⟨kvs, k, hdata, hk, hmem⟩ := Wallet_unmarshal_WalletID data hid
        exact ⟨kvs, k, by rw [hdata], hk, hmem⟩
  · intro pre k id post hd hk hpost hok
    have hid := Wallet_unmarshal_wallet_id pre post k id {} hk hpost
    refine ⟨(hsome _ hd hok).1, _, (hsome _ hd hok).2, hid, fun hne => ?_⟩
    rw [hid]
    exact hne
  · rw [hreq]
    exact ⟨rfl, hreader⟩

/-- C8 (amended) at a concrete input: the request of the integration test against a server that
answers with code 200000 and a wallet object. -/
theorem C8_create_returns_decoded_wallet_witness :
    ((wallet.NewService fixture.client).Create
        (fixture.server (.obj [("code", .int 200000), ("data", .obj [("wallet_id", .str "w-1"),
          ("wallet_name", .str "Test Wallet"), ("status", .str "PENDING")])]))
        (some { WalletName := "Test Wallet", Description := "Integration test wallet" })).err
      = none
    ∧ ∃ w, ((wallet.NewService fixture.client).Create
        (fixture.server (.obj [("code", .int 200000), ("data", .obj [("wallet_id", .str "w-1"),
          ("wallet_name", .str "Test Wallet"), ("status", .str "PENDING")])]))
        (some { WalletName := "Test Wallet", Description := "Integration test wallet" })).result
          = some w
        ∧ w.WalletID = "w-1" ∧ ("w-1" ≠ "" → w.WalletID ≠ "") :=
  (C8_create_returns_decoded_wallet (wallet.NewService fixture.client)
    (fixture.server (.obj [("code", .int 200000), ("data", .obj [("wallet_id", .str "w-1"),
      ("wallet_name", .str "Test Wallet"), ("status", .str "PENDING")])]))
    (some { WalletName := "Test Wallet", Description := "Integration test wallet" })
    { Method := "POST",
      URL := { Loc := "https://mpcgwapi-sandbox.reefiy.dev/api/v1/wallets", RawQuery := "" },
      Header := [("Content-Type", "application/json"), ("Authorization", "Bearer tok-1")],
      Body := some (.obj [("wallet_name", .str "Test Wallet"),
        ("description", .str "Integration test wallet"), ("chain", .str ""),
        ("network", .str "")]) }
    (.valid (.obj [("code", .int 200000), ("data", .obj [("wallet_id", .str "w-1"),
      ("wallet_name", .str "Test Wallet"), ("status", .str "PENDING")])]))
    { Code := 200000, Data := some (.obj [("wallet_id", .str "w-1"),
      ("wallet_name", .str "Test Wallet"), ("status", .str "PENDING")]) }
    rfl rfl rfl rfl).2.2.2.2.2.1 [] "wallet_id" "w-1"
      [("wallet_name", .str "Test Wallet"), ("status", .str "PENDING")] rfl rfl (by decide) rfl

/-! ### Query values -/

theorem lookup_cons_eq {β : Type} (a k : String) (b : β) (es : List (String × β)) :
    ((k, b) :: es).lookup a = if a = k then some b else es.lookup a := by
  by_cases h : a = k
  · subst h; simp [List.lookup]
  · have h2 : (a == k) = false := by simpa using h
    simp [List.lookup, h2, h]

theorem lookup_isSome_iff_mem_keys {β : Type} (q : List (String × β)) (k : String) :
    (q.lookup k).isSome = true ↔ k ∈ q.map Prod.fst := by
  induction q with
  | nil => simp
  | cons e rest ih =>
    obtain ⟨a, b⟩ := e
    rw [lookup_cons_eq]
    by_cases h : k = a
    · simp [h]
    · simp [h, ih]

theorem lookup_map_snd {β : Type} (q : List (String × β)) (k k1 : String) (g : β → β) :
    (q.map (fun e => if e.1 = k then (e.1, g e.2) else e)).lookup k1
      = (q.lookup k1).map (fun b => if k1 = k then g b else b) := by
  induction q with
  | nil => rfl
  | cons e rest ih =>
    obtain ⟨a, b⟩ := e
    rw [List.map_cons]
    have hhead : (if (a, b).1 = k then ((a, b).1, g (a, b).2) else (a, b))
        = (a, if a = k then g b else b) := by
      by_cases h3 : a = k <;> simp [h3]
    rw [hhead, lookup_cons_eq, lookup_cons_eq, ih]
    by_cases h : k1 = a
    · subst h; simp
    · simp [h]

theorem Values_values_Add (q : Values) (k v k1 : String) :
    (q.Add k v).values k1 = if k1 = k then q.values k ++ [v] else q.values k1 := by
  unfold Values.Add Values.values
  cases h : q.lookup k with
  | some vs =>
    simp only [lookup_map_snd q k k1 (fun vs => vs ++ [v])]
    by_cases h1 : k1 = k
    · subst h1; simp [h]
    · cases h2 : q.lookup k1 <;> simp [h1]
  | none =>
    simp only [List.lookup_append]
    by_cases h1 : k1 = k
    · subst h1; simp [h, List.lookup]
    · have h2 : (k1 == k) = false := by simpa using h1
      cases h3 : q.lookup k1 <;> simp [List.lookup, h2, h1]

theorem Values_keys_Add (q : Values) (k v : String) :
    (q.Add k v).map Prod.fst
      = if k ∈ q.map Prod.fst then q.map Prod.fst else q.map Prod.fst ++ [k] := by
  unfold Values.Add
  cases h : q.lookup k with
  | some vs =>
    have hk : k ∈ q.map Prod.fst := (lookup_isSome_iff_mem_keys q k).1 (by simp [h])
    rw [if_pos hk, List.map_map]
    congr 1
    funext e
    by_cases h1 : e.1 = k <;> simp [h1]
  | none =>
    have hk : ¬ k ∈ q.map Prod.fst := fun hm => by
      have := (lookup_isSome_iff_mem_keys q k).2 hm
      simp [h] at this
    rw [if_neg hk]
    simp

/-- The values of a key after the loop of `RequestWithQuery`: those before, then the values of
the parameters of that key that are not empty. -/
theorem values_addParams (params : GoMap) (q : Values) (k : String) :
    (common.addParams q params).values k
      = q.values k
        ++ (params.filter (fun kv => decide (kv.1 = k ∧ kv.2 ≠ ""))).map Prod.snd := by
  unfold common.addParams
  induction params generalizing q with
  | nil => simp
  | cons e rest ih =>
    rw [List.foldl_cons, ih]
    by_cases hv : e.2 = ""
    · simp [hv]
    · by_cases hk : e.1 = k
      · subst hk
        simp [hv, Values_values_Add]
      · have hk2 : ¬ k = e.1 := fun h => hk h.symm
        simp [hv, hk, hk2, Values_values_Add]

/-- The keys after the loop: those before and the keys of the parameters with a non-empty
value. -/
theorem mem_keys_addParams (params : GoMap) (q : Values) (k : String) :
    k ∈ (common.addParams q params).map Prod.fst
      ↔ k ∈ q.map Prod.fst ∨ ∃ v, (k, v) ∈ params ∧ v ≠ "" := by
  unfold common.addParams
  induction params generalizing q with
  | nil => simp
  | cons e rest ih =>
    obtain ⟨a, b⟩ := e
    rw [List.foldl_cons, ih]
    by_cases hv : b = ""
    · subst hv
      simp only [ne_eq, not_true_eq_false, if_false, List.mem_cons, Prod.mk.injEq]
      constructor
      · rintro (h | ⟨v, hm, hne⟩)
        · exact Or.inl h
        · exact Or.inr ⟨v, Or.inr hm, hne⟩
      · rintro (h | ⟨v, (⟨_, rfl⟩ | hm), hne⟩)
        · exact Or.inl h
        · exact absurd rfl hne
        · exact Or.inr ⟨v, hm, hne⟩
    · simp only [ne_eq, hv, not_false_eq_true, if_true, Values_keys_Add, List.mem_cons,
        Prod.mk.injEq]
      constructor
      · rintro (h | ⟨v, hm, hne⟩)
        · split at h
          · exact Or.inl h
          · rcases List.mem_append.1 h with h | h
            · exact Or.inl h
            · simp only [List.mem_singleton] at h
              subst h
              exact Or.inr ⟨b, Or.inl ⟨rfl, rfl⟩, hv⟩
        · exact Or.inr ⟨v, Or.inr hm, hne⟩
      · rintro (h | ⟨v, (⟨rfl, rfl⟩ | hm), hne⟩)
        · left
          split
          · exact h
          · exact List.mem_append_left _ h
        · left
          split
          · assumption
          · exact List.mem_append_right _ (List.mem_singleton.2 rfl)
        · exact Or.inr ⟨v, hm, hne⟩

/-- The loop never enters a key twice. -/
theorem nodup_keys_addParams (params : GoMap) (q : Values) (h : (q.map Prod.fst).Nodup) :
    ((common.addParams q params).map Prod.fst).Nodup := by
  unfold common.addParams
  induction params generalizing q with
  | nil => simpa using h
  | cons e rest ih =>
    rw [List.foldl_cons]
    apply ih
    by_cases hv : e.2 = ""
    · simpa [hv] using h
    · simp only [ne_eq, hv, not_false_eq_true, if_true, Values_keys_Add]
      split
      · exact h
      · rename_i hk
        exact List.Nodup.append h (List.nodup_singleton _) (by simpa using hk)

/-- A pair is written by `Encode` exactly when its key is a key of the values and its value
one of the values of that key. -/
theorem mem_pairs (q : Values) (k v : String) :
    (k, v) ∈ q.pairs ↔ k ∈ q.map Prod.fst ∧ v ∈ q.values k := by
  unfold Values.pairs
  simp only [List.mem_flatMap, List.mem_map, Prod.mk.injEq, List.mem_insertionSort]
  constructor
  · rintro ⟨k1, hk1, v1, hv1, rfl, rfl⟩
    exact ⟨hk1, hv1⟩
  · rintro ⟨hk, hv⟩
    exact ⟨k, hk, v, hv, rfl, rfl⟩

theorem filter_flatMap_key (keys : List String) (f : String → List String) (k : String)
    (h : keys.Nodup) :
    (keys.flatMap (fun k1 => (f k1).map (fun v => (k1, v)))).filter (fun kv => decide (kv.1 = k))
      = if k ∈ keys then (f k).map (fun v => (k, v)) else [] := by
  induction keys with
  | nil => simp
  | cons a rest ih =>
    have hnd := List.nodup_cons.1 h
    rw [List.flatMap_cons, List.filter_append, ih hnd.2]
    by_cases hk : a = k
    · subst hk
      have : List.filter (fun kv => decide (kv.1 = a)) (List.map (fun v => (a, v)) (f a))
          = List.map (fun v => (a, v)) (f a) := by
        rw [List.filter_eq_self]
        intro x hx
        obtain ⟨v, _, rfl⟩ := List.mem_map.1 hx
        simp
      rw [this]
      simp [hnd.1]
    · have : List.filter (fun kv => decide (kv.1 = k)) (List.map (fun v => (a, v)) (f a))
          = [] := by
        rw [List.filter_eq_nil_iff]
        intro x hx
        obtain ⟨v, _, rfl⟩ := List.mem_map.1 hx
        simpa using hk
      have hk2 : ¬ k = a := fun h => hk h.symm
      rw [this]
      simp [hk2]

/-- The pairs of one key among those that `Encode` writes. -/
theorem pairs_filter_key (q : Values) (k : String) (h : (q.map Prod.fst).Nodup) :
    q.pairs.filter (fun kv => decide (kv.1 = k))
      = if k ∈ q.map Prod.fst then (q.values k).map (fun v => (k, v)) else [] := by
  unfold Values.pairs
  rw [filter_flatMap_key _ _ _ ((List.perm_insertionSort _ _).nodup_iff.2 h)]
  simp only [List.mem_insertionSort]

/-- In a map the entries of one key are the entry of that key. -/
theorem GoMap_filter_key (m : GoMap) (k v : String) (hwf : m.WF) (hm : (k, v) ∈ m) :
    m.filter (fun kv => decide (kv.1 = k)) = [(k, v)] := by
  unfold GoMap.WF at hwf
  induction m with
  | nil => cases hm
  | cons e rest ih =>
    obtain ⟨a, b⟩ := e
    simp only [List.map_cons, List.nodup_cons] at hwf
    rcases List.mem_cons.1 hm with heq | hin
    · cases heq
      have : rest.filter (fun kv => decide (kv.1 = k)) = [] := by
        rw [List.filter_eq_nil_iff]
        intro x hx hxk
        simp only [decide_eq_true_eq] at hxk
        exact hwf.1 (List.mem_map.2 ⟨x, hx, hxk⟩)
      simp [List.filter_cons, this]
    · have hne : ¬ a = k := by
        intro h
        subst h
        exact hwf.1 (List.mem_map.2 ⟨(a, v), hin, rfl⟩)
      simp [List.filter_cons, hne, ih hwf.2 hin]

/-- C2 as stated fails: the query of the URL itself is kept.  For the path
`/api/v1/wallets?status=&page=1` and the mapping with the one entry `page` = `2`, the final
query string has the key `status` with the empty value and the key `page` twice. -/
theorem C2_counterexample_query_in_path :
    (fixture.client.RequestWithQuery (fixture.server (.obj [("code", .int 200000)]))
        "/api/v1/wallets?status=&page=1" (some [("page", "2")])
        (some ([] : List (Option wallet.Wallet)))).sent.map (fun req => req.URL.RawQuery)
      = some "page=1&page=2&status="
    ∧ (common.addParams (fixture.plainQuery "status=&page=1") [("page", "2")]).pairs
      = [("page", "1"), ("page", "2"), ("status", "")] := by
  constructor <;> decide

/-- C2 amended: the query string that `RequestWithQuery` sends for a (non-nil) mapping is the
encoding of the query values of the URL itself to which the loop has added, for every key, the
value of the mapping when it is not empty.  For a URL (base URL and path) without a query of
its own, the pairs of the final query string are exactly the entries of the mapping whose
value is not empty: no key with the empty value, and every key with a non-empty value exactly
once, with that value.  For the nil mapping the URL is sent as it was parsed. -/
theorem C2_query_string_of_mapping {α : Type} [Unmarshaler α] (c : common.Client) (E : Env)
    (path : String) (params : GoMap) (result : Option α) (hwf : params.WF) :
    (∀ req, (c.RequestWithQuery E path (some params) result).sent = some req →
      ∃ u, E.parseRequestURL "GET" (c.BaseURL ++ path) = .ok u
        ∧ req.URL.RawQuery = (common.addParams (u.Query E) params).Encode
        ∧ (∀ k, (common.addParams (u.Query E) params).values k
            = (u.Query E).values k
              ++ (params.filter (fun kv => decide (kv.1 = k ∧ kv.2 ≠ ""))).map Prod.snd)
        ∧ (u.Query E = [] →
            (∀ k v, (k, v) ∈ (common.addParams (u.Query E) params).pairs
                ↔ ((k, v) ∈ params ∧ v ≠ ""))
            ∧ (∀ k, (k, "") ∉ (common.addParams (u.Query E) params).pairs)
            ∧ (∀ k v, (k, v) ∈ params → v ≠ "" →
                (common.addParams (u.Query E) params).pairs.filter
                    (fun kv => decide (kv.1 = k)) = [(k, v)])))
    ∧ (∀ req, (c.RequestWithQuery E path none result).sent = some req →
      ∃ u, E.parseRequestURL "GET" (c.BaseURL ++ path) = .ok u ∧ req.URL = u) := by
  constructor
  · intro req hsent
    obtain ⟨u, _, hu, _, hreq, _⟩ :=
      common.RequestWithQuery_sent c E path (some params) result req hsent
    refine ⟨u, hu, by rw [hreq]; rfl, fun k => values_addParams params _ k, ?_⟩
    intro hown
    rw [hown]
    have hmem : ∀ k v, (k, v) ∈ (common.addParams [] params).pairs
        ↔ ((k, v) ∈ params ∧ v ≠ "") := by
      intro k v
      rw [mem_pairs, values_addParams, mem_keys_addParams]
      simp only [List.map_nil, List.not_mem_nil, false_or, Values.values, List.lookup,
        Option.getD_none, List.nil_append, List.mem_map, List.mem_filter, decide_eq_true_eq]
      constructor
      · rintro ⟨_, ⟨k1, v1⟩, ⟨hm, hk, hne⟩, hv⟩
        simp only at hk hv hne
        subst hk hv
        exact ⟨hm, hne⟩
      · rintro ⟨hm, hne⟩
        exact ⟨⟨v, hm, hne⟩, (k, v), ⟨hm, rfl, hne⟩, rfl⟩
    refine ⟨hmem, fun k hk => ((hmem k "").1 hk).2 rfl, ?_⟩
    intro k v hm hne
    rw [pairs_filter_key _ _ (nodup_keys_addParams params [] List.nodup_nil),
      if_pos ((mem_keys_addParams params [] k).2 (Or.inr ⟨v, hm, hne⟩)), values_addParams]
    have hfil : params.filter (fun kv => decide (kv.1 = k ∧ kv.2 ≠ "")) = [(k, v)] := by
      have h1 := GoMap_filter_key params k v hwf hm
      have h2 : params.filter (fun kv => decide (kv.1 = k ∧ kv.2 ≠ ""))
          = (params.filter (fun kv => decide (kv.1 = k))).filter
              (fun kv => decide (kv.2 ≠ "")) := by
        rw [List.filter_filter]
        congr 1
        funext kv
        simp [Bool.and_comm]
      rw [h2, h1]
      simp [hne]
    rw [hfil]
    simp [Values.values]
  · intro req hsent
    obtain ⟨u, _, hu, _, hreq, _⟩ := common.RequestWithQuery_sent c E path none result req hsent
    exact ⟨u, hu, by rw [hreq]; rfl⟩

/-- C2 (amended) at a concrete input: a mapping with two non-empty values and one empty value
on a path without a query. -/
theorem C2_query_string_of_mapping_witness :
    (fixture.client.RequestWithQuery (fixture.server (.obj [("code", .int 200000)]))
        "/api/v1/wallets" (some [("status", "ACTIVE"), ("page_size", ""), ("page", "2")])
        (some ([] : List (Option wallet.Wallet)))).sent.map (fun req => req.URL.RawQuery)
      = some "page=2&status=ACTIVE"
    ∧ (common.addParams [] [("status", "ACTIVE"), ("page_size", ""), ("page", "2")]).pairs.filter
        (fun kv => decide (kv.1 = "page")) = [("page", "2")]
    ∧ ("page_size", "")
        ∉ (common.addParams [] [("status", "ACTIVE"), ("page_size", ""), ("page", "2")]).pairs := by
  obtain ⟨u, hu, hraw, _, hlit⟩ := (C2_query_string_of_mapping fixture.client
    (fixture.server (.obj [("code", .int 200000)])) "/api/v1/wallets"
    [("status", "ACTIVE"), ("page_size", ""), ("page", "2")]
    (some ([] : List (Option wallet.Wallet))) (by decide)).1
    { Method := "GET",
      URL := { Loc := "https://mpcgwapi-sandbox.reefiy.dev/api/v1/wallets",
               RawQuery := "page=2&status=ACTIVE" },
      Header := [("Authorization", "Bearer tok-1")],
      Body := none } rfl
  have hu2 : u = { Loc := "https://mpcgwapi-sandbox.reefiy.dev/api/v1/wallets", RawQuery := "" } :=
    (Except.ok.inj hu).symm
  subst hu2
  have h := hlit rfl
  exact ⟨by decide, h.2.2 "page" "2" (by decide) (by decide), h.2.1 "page_size"⟩

/-- A pair of the final query string whose key the mapping does not hold stems from the query
of the URL itself. -/
theorem pairs_key_from_own_query (q : Values) (params : GoMap) (k v : String)
    (hk : ∀ v1, (k, v1) ∉ params) (h : (k, v) ∈ (common.addParams q params).pairs) :
    k ∈ q.map Prod.fst := by
  rcases (mem_keys_addParams params q k).1 ((mem_pairs _ k v).1 h).1 with h1 | ⟨v1, h1, _⟩
  · exact h1
  · exact absurd h1 (hk v1)

/-- In a map, an entry is in the map exactly when the lookup of its key yields its value. -/
theorem GoMap_mem_iff_get (m : GoMap) (k v : String) (hwf : m.WF) :
    (k, v) ∈ m ↔ m.get? k = some v := by
  unfold GoMap.WF at hwf
  unfold GoMap.get?
  induction m with
  | nil => simp
  | cons e rest ih =>
    obtain ⟨a, b⟩ := e
    simp only [List.map_cons, List.nodup_cons] at hwf
    rw [lookup_cons_eq, List.mem_cons]
    by_cases h : k = a
    · subst h
      simp only [if_true, Prod.mk.injEq, true_and, Option.some.injEq]
      constructor
      · rintro (h1 | h1)
        · exact h1.symm
        · exact absurd (List.mem_map.2 ⟨(k, v), h1, rfl⟩) hwf.1
      · intro h1
        exact Or.inl h1.symm
    · simp only [h, if_false, Prod.mk.injEq, false_and, false_or]
      exact ih hwf.2

/-- The pairs that `Encode` writes after the loop over the parameters, for a URL without a
query of its own: the entries of the mapping with a non-empty value. -/
theorem pairs_addParams_nil (params : GoMap) (k v : String) :
    (k, v) ∈ (common.addParams [] params).pairs ↔ ((k, v) ∈ params ∧ v ≠ "") := by
  rw [mem_pairs, values_addParams, mem_keys_addParams]
  simp only [List.map_nil, List.not_mem_nil, false_or, Values.values, List.lookup,
    Option.getD_none, List.nil_append, List.mem_map, List.mem_filter, decide_eq_true_eq]
  constructor
  · rintro ⟨_, ⟨k1, v1⟩, ⟨hm, hk, hne⟩, hv⟩
    simp only at hk hv hne
    subst hk hv
    exact ⟨hm, hne⟩
  · rintro ⟨hm, hne⟩
    exact ⟨⟨v, hm, hne⟩, (k, v), ⟨hm, rfl, hne⟩, rfl⟩

/-- The query string of a call of `RequestWithQuery` with a mapping: for a URL without a query
of its own its pairs are the entries of the mapping with a non-empty value, and a key that the
mapping does not hold occurs only if the query of the URL itself holds it. -/
theorem query_of_list_params {α : Type} [Unmarshaler α] (c : common.Client) (E : Env)
    (path : String) (params : GoMap) (result : Option α) (out : HTTPRequest)
    (hwf : params.WF)
    (hs : (c.RequestWithQuery E path (some params) result).sent = some out) :
    ∃ u, E.parseRequestURL "GET" (c.BaseURL ++ path) = .ok u
      ∧ out.URL.RawQuery = (common.addParams (u.Query E) params).Encode
      ∧ (u.Query E = [] →
          ∀ k v, (k, v) ∈ (common.addParams (u.Query E) params).pairs
            ↔ (params.get? k = some v ∧ v ≠ ""))
      ∧ (∀ k, params.get? k = none →
          ∀ v, (k, v) ∈ (common.addParams (u.Query E) params).pairs →
            k ∈ (u.Query E).map Prod.fst) := by
  obtain ⟨u, _, hu, _, hreq, _⟩ := common.RequestWithQuery_sent c E path _ result out hs
  refine ⟨u, hu, by rw [hreq]; rfl, ?_, ?_⟩
  · intro hown k v
    rw [hown, pairs_addParams_nil, GoMap_mem_iff_get params k v hwf]
  · intro k hk v hv
    refine pairs_key_from_own_query _ _ k v ?_ hv
    intro v1 hv1
    rw [GoMap_mem_iff_get params k v1 hwf, hk] at hv1
    cases hv1

/-! ### The query mappings of the list operations -/

theorem wallet_listParams_eq (r : wallet.ListWalletsRequest) :
    wallet.listParams (some r)
      = (if r.Page > 0 then [("page", Itoa r.Page)] else [])
        ++ (if r.PageSize > 0 then [("page_size", Itoa r.PageSize)] else [])
        ++ (if r.Status ≠ "" then [("status", r.Status)] else []) := by
  unfold wallet.listParams
  by_cases h1 : r.Page > 0 <;> by_cases h2 : r.PageSize > 0 <;> by_cases h3 : r.Status = "" <;>
    simp [h1, h2, h3, GoMap.set, List.lookup]

theorem account_listParams_eq (r : account.ListAccountsRequest) :
    account.listParams (some r)
      = (if r.WalletID ≠ "" then [("wallet_id", r.WalletID)] else [])
        ++ (if r.Page > 0 then [("page", Itoa r.Page)] else [])
        ++ (if r.PageSize > 0 then [("page_size", Itoa r.PageSize)] else []) := by
  unfold account.listParams
  by_cases h1 : r.Page > 0 <;> by_cases h2 : r.PageSize > 0 <;> by_cases h3 : r.WalletID = "" <;>
    simp [h1, h2, h3, GoMap.set, List.lookup]

theorem asset_listParams_eq (r : asset.ListAssetsRequest) :
    asset.listParams (some r)
      = (if r.WalletID ≠ "" then [("wallet_id", r.WalletID)] else [])
        ++ (if r.AccountID ≠ "" then [("account_id", r.AccountID)] else [])
        ++ (if r.Page > 0 then [("page", Itoa r.Page)] else [])
        ++ (if r.PageSize > 0 then [("page_size", Itoa r.PageSize)] else []) := by
  unfold asset.listParams
  by_cases h1 : r.Page > 0 <;> by_cases h2 : r.PageSize > 0 <;> by_cases h3 : r.WalletID = "" <;>
    by_cases h4 : r.AccountID = "" <;>
    simp [h1, h2, h3, h4, GoMap.set, List.lookup]

theorem transaction_listParams_eq (r : transaction.ListTransactionsRequest) :
    transaction.listParams (some r)
      = (if r.WalletID ≠ "" then [("wallet_id", r.WalletID)] else [])
        ++ (if r.AccountID ≠ "" then [("account_id", r.AccountID)] else [])
        ++ (if r.Status ≠ "" then [("status", r.Status)] else [])
        ++ (if r.Page > 0 then [("page", Itoa r.Page)] else [])
        ++ (if r.PageSize > 0 then [("page_size", Itoa r.PageSize)] else []) := by
  unfold transaction.listParams
  by_cases h1 : r.Page > 0 <;> by_cases h2 : r.PageSize > 0 <;> by_cases h3 : r.WalletID = "" <;>
    by_cases h4 : r.AccountID = "" <;> by_cases h5 : r.Status = "" <;>
    simp [h1, h2, h3, h4, h5, GoMap.set, List.lookup]

theorem lookup_ite_singleton (c : Prop) [Decidable c] (a b k : String) :
    (if c then [(a, b)] else []).lookup k = if c ∧ k = a then some b else none := by
  by_cases hc : c
  · rw [if_pos hc, lookup_cons_eq]
    by_cases hk : k = a <;> simp [hc, hk]
  · rw [if_neg hc]
    simp [hc]

theorem lookup_ite_nil_singleton (c : Prop) [Decidable c] (a b k : String) :
    (if c then [] else [(a, b)]).lookup k = if c ∨ ¬ k = a then none else some b := by
  by_cases hc : c
  · rw [if_pos hc]
    simp [hc]
  · rw [if_neg hc, lookup_cons_eq]
    by_cases hk : k = a <;> simp [hc, hk]

theorem mem_ite_singleton (c : Prop) [Decidable c] (x y : String × String)
    (h : x ∈ (if c then [y] else [])) : x = y := by
  by_cases hc : c
  · rw [if_pos hc] at h
    exact List.mem_singleton.1 h
  · rw [if_neg hc] at h
    cases h

theorem wallet_listParams_spec (r : wallet.ListWalletsRequest) :
    ((wallet.listParams (some r)).get? "page"
        = (if r.Page > 0 then some (Itoa r.Page) else none)
      ∧ (wallet.listParams (some r)).get? "page_size"
        = (if r.PageSize > 0 then some (Itoa r.PageSize) else none)
      ∧ (wallet.listParams (some r)).get? "status"
        = (if r.Status ≠ "" then some r.Status else none)
      ∧ (∀ k v, (k, v) ∈ wallet.listParams (some r) → k = "page" ∨ k = "page_size" ∨ k = "status")
      ∧ (wallet.listParams (some r)).WF
      ∧ wallet.listParams none = []) := by
  rw [wallet_listParams_eq]
  refine ⟨?_, ?_, ?_, ?_, ?_, ?_⟩
  · simp [GoMap.get?, List.lookup_append, lookup_ite_singleton, lookup_ite_nil_singleton]
  · simp [GoMap.get?, List.lookup_append, lookup_ite_singleton, lookup_ite_nil_singleton]
  · simp [GoMap.get?, List.lookup_append, lookup_ite_singleton, lookup_ite_nil_singleton]
  · intro k v h
    simp only [List.mem_append] at h
    rcases h with (h | h) | h <;>
      (have h2 := mem_ite_singleton _ _ _ h; cases h2; simp)
  · by_cases h0 : r.Page > 0 <;> by_cases h1 : r.PageSize > 0 <;> by_cases h2 : r.Status = "" <;>
      simp [h0, h1, h2, GoMap.WF]
  · rfl

theorem wallet_List_sent (s : wallet.Service) (E : Env) (q : Option wallet.ListWalletsRequest) :
    (s.List E q).sent
      = (s.client.RequestWithQuery E "/api/v1/wallets" (some (wallet.listParams q))
          (some ([] : List (Option wallet.Wallet)))).sent := by
  unfold wallet.Service.List
  dsimp only
  split <;> rfl

theorem wallet_List_query (s : wallet.Service) (E : Env) (q : Option wallet.ListWalletsRequest) :
    (∀ out, (s.List E q).sent = some out →
        ∃ u, E.parseRequestURL "GET" (s.client.BaseURL ++ "/api/v1/wallets") = .ok u
          ∧ out.URL.RawQuery = (common.addParams (u.Query E) (wallet.listParams q)).Encode
          ∧ (u.Query E = [] →
              ∀ k v, (k, v) ∈ (common.addParams (u.Query E) (wallet.listParams q)).pairs
                ↔ ((wallet.listParams q).get? k = some v ∧ v ≠ ""))
          ∧ ((q = none ∨ ∃ r, q = some r ∧ r.Page = 0 ∧ r.PageSize = 0) →
              ∀ k, k = "page" ∨ k = "page_size" →
                (∀ v, (k, v) ∈ (common.addParams (u.Query E) (wallet.listParams q)).pairs →
                  k ∈ (u.Query E).map Prod.fst)
                ∧ (k ∉ (u.Query E).map Prod.fst →
                  ∀ v, (k, v) ∉ (common.addParams (u.Query E) (wallet.listParams q)).pairs))) := by
  intro out hs
  rw [wallet_List_sent] at hs
  have hwf : (wallet.listParams q).WF := by
    cases q with
    | none => simp [wallet.listParams, GoMap.WF]
    | some r => exact (wallet_listParams_spec r).2.2.2.2.1
  obtain ⟨u, hu, hraw, hall, hown⟩ := query_of_list_params _ E _ _ _ out hwf hs
  refine ⟨u, hu, hraw, hall, ?_⟩
  intro hq k hk
  have hnone : (wallet.listParams q).get? k = none := by
    rcases hq with rfl | ⟨r, rfl, hp, hps⟩
    · simp [wallet.listParams, GoMap.get?]
    · rcases hk with rfl | rfl
      · rw [(wallet_listParams_spec r).1]
        simp [hp]
      · rw [(wallet_listParams_spec r).2.1]
        simp [hps]
  exact ⟨fun v hv => hown k hnone v hv, fun hno v hv => hno (hown k hnone v hv)⟩

theorem account_listParams_spec (r : account.ListAccountsRequest) :
    ((account.listParams (some r)).get? "wallet_id"
        = (if r.WalletID ≠ "" then some r.WalletID else none)
      ∧ (account.listParams (some r)).get? "page"
        = (if r.Page > 0 then some (Itoa r.Page) else none)
      ∧ (account.listParams (some r)).get? "page_size"
        = (if r.PageSize > 0 then some (Itoa r.PageSize) else none)
      ∧ (∀ k v, (k, v) ∈ account.listParams (some r) → k = "wallet_id" ∨ k = "page" ∨ k = "page_size")
      ∧ (account.listParams (some r)).WF
      ∧ account.listParams none = []) := by
  rw [account_listParams_eq]
  refine ⟨?_, ?_, ?_, ?_, ?_, ?_⟩
  · simp [GoMap.get?, List.lookup_append, lookup_ite_singleton, lookup_ite_nil_singleton]
  · simp [GoMap.get?, List.lookup_append, lookup_ite_singleton, lookup_ite_nil_singleton]
  · simp [GoMap.get?, List.lookup_append, lookup_ite_singleton, lookup_ite_nil_singleton]
  · intro k v h
    simp only [List.mem_append] at h
    rcases h with (h | h) | h <;>
      (have h2 := mem_ite_singleton _ _ _ h; cases h2; simp)
  · by_cases h0 : r.WalletID = "" <;> by_cases h1 : r.Page > 0 <;> by_cases h2 : r.PageSize > 0 <;>
      simp [h0, h1, h2, GoMap.WF]
  · rfl

theorem account_List_sent (s : account.Service) (E : Env) (q : Option account.ListAccountsRequest) :
    (s.List E q).sent
      = (s.client.RequestWithQuery E "/api/v1/accounts" (some (account.listParams q))
          (some ({} : account.ListAccountsResponse))).sent := by
  unfold account.Service.List
  dsimp only
  split <;> rfl

theorem account_List_query (s : account.Service) (E : Env) (q : Option account.ListAccountsRequest) :
    (∀ out, (s.List E q).sent = some out →
        ∃ u, E.parseRequestURL "GET" (s.client.BaseURL ++ "/api/v1/accounts") = .ok u
          ∧ out.URL.RawQuery = (common.addParams (u.Query E) (account.listParams q)).Encode
          ∧ (u.Query E = [] →
              ∀ k v, (k, v) ∈ (common.addParams (u.Query E) (account.listParams q)).pairs
                ↔ ((account.listParams q).get? k = some v ∧ v ≠ ""))
          ∧ ((q = none ∨ ∃ r, q = some r ∧ r.Page = 0 ∧ r.PageSize = 0) →
              ∀ k, k = "page" ∨ k = "page_size" →
                (∀ v, (k, v) ∈ (common.addParams (u.Query E) (account.listParams q)).pairs →
                  k ∈ (u.Query E).map Prod.fst)
                ∧ (k ∉ (u.Query E).map Prod.fst →
                  ∀ v, (k, v) ∉ (common.addParams (u.Query E) (account.listParams q)).pairs))) := by
  intro out hs
  rw [account_List_sent] at hs
  have hwf : (account.listParams q).WF := by
    cases q with
    | none => simp [account.listParams, GoMap.WF]
    | some r => exact (account_listParams_spec r).2.2.2.2.1
  obtain ⟨u, hu, hraw, hall, hown⟩ := query_of_list_params _ E _ _ _ out hwf hs
  refine ⟨u, hu, hraw, hall, ?_⟩
  intro hq k hk
  have hnone : (account.listParams q).get? k = none := by
    rcases hq with rfl | ⟨r, rfl, hp, hps⟩
    · simp [account.listParams, GoMap.get?]
    · rcases hk with rfl | rfl
      · rw [(account_listParams_spec r).2.1]
        simp [hp]
      · rw [(account_listParams_spec r).2.2.1]
        simp [hps]
  exact ⟨fun v hv => hown k hnone v hv, fun hno v hv => hno (hown k hnone v hv)⟩

theorem asset_listParams_spec (r : asset.ListAssetsRequest) :
    ((asset.listParams (some r)).get? "wallet_id"
        = (if r.WalletID ≠ "" then some r.WalletID else none)
      ∧ (asset.listParams (some r)).get? "account_id"
        = (if r.AccountID ≠ "" then some r.AccountID else none)
      ∧ (asset.listParams (some r)).get? "page"
        = (if r.Page > 0 then some (Itoa r.Page) else none)
      ∧ (asset.listParams (some r)).get? "page_size"
        = (if r.PageSize > 0 then some (Itoa r.PageSize) else none)
      ∧ (∀ k v, (k, v) ∈ asset.listParams (some r) → k = "wallet_id" ∨ k = "account_id" ∨ k = "page" ∨ k = "page_size")
      ∧ (asset.listParams (some r)).WF
      ∧ asset.listParams none = []) := by
  rw [asset_listParams_eq]
  refine ⟨?_, ?_, ?_, ?_, ?_, ?_, ?_⟩
  · simp [GoMap.get?, List.lookup_append, lookup_ite_singleton, lookup_ite_nil_singleton]
  · simp [GoMap.get?, List.lookup_append, lookup_ite_singleton, lookup_ite_nil_singleton]
  · simp [GoMap.get?, List.lookup_append, lookup_ite_singleton, lookup_ite_nil_singleton]
  · simp [GoMap.get?, List.lookup_append, lookup_ite_singleton, lookup_ite_nil_singleton]
  · intro k v h
    simp only [List.mem_append] at h
    rcases h with ((h | h) | h) | h <;>
      (have h2 := mem_ite_singleton _ _ _ h; cases h2; simp)
  · by_cases h0 : r.WalletID = "" <;> by_cases h1 : r.AccountID = "" <;> by_cases h2 : r.Page > 0 <;> by_cases h3 : r.PageSize > 0 <;>
      simp [h0, h1, h2, h3, GoMap.WF]
  · rfl

theorem asset_List_sent (s : asset.Service) (E : Env) (q : Option asset.ListAssetsRequest) :
    (s.List E q).sent
      = (s.client.RequestWithQuery E "/api/v1/assets" (some (asset.listParams q))
          (some ([] : List (Option asset.Asset)))).sent := by
  unfold asset.Service.List
  dsimp only
  split <;> rfl

theorem asset_List_query (s : asset.Service) (E : Env) (q : Option asset.ListAssetsRequest) :
    (∀ out, (s.List E q).sent = some out →
        ∃ u, E.parseRequestURL "GET" (s.client.BaseURL ++ "/api/v1/assets") = .ok u
          ∧ out.URL.RawQuery = (common.addParams (u.Query E) (asset.listParams q)).Encode
          ∧ (u.Query E = [] →
              ∀ k v, (k, v) ∈ (common.addParams (u.Query E) (asset.listParams q)).pairs
                ↔ ((asset.listParams q).get? k = some v ∧ v ≠ ""))
          ∧ ((q = none ∨ ∃ r, q = some r ∧ r.Page = 0 ∧ r.PageSize = 0) →
              ∀ k, k = "page" ∨ k = "page_size" →
                (∀ v, (k, v) ∈ (common.addParams (u.Query E) (asset.listParams q)).pairs →
                  k ∈ (u.Query E).map Prod.fst)
                ∧ (k ∉ (u.Query E).map Prod.fst →
                  ∀ v, (k, v) ∉ (common.addParams (u.Query E) (asset.listParams q)).pairs))) := by
  intro out hs
  rw [asset_List_sent] at hs
  have hwf : (asset.listParams q).WF := by
    cases q with
    | none => simp [asset.listParams, GoMap.WF]
    | some r => exact (asset_listParams_spec r).2.2.2.2.2.1
  obtain ⟨u, hu, hraw, hall, hown⟩ := query_of_list_params _ E _ _ _ out hwf hs
  refine ⟨u, hu, hraw, hall, ?_⟩
  intro hq k hk
  have hnone : (asset.listParams q).get? k = none := by
    rcases hq with rfl | ⟨r, rfl, hp, hps⟩
    · simp [asset.listParams, GoMap.get?]
    · rcases hk with rfl | rfl
      · rw [(asset_listParams_spec r).2.2.1]
        simp [hp]
      · rw [(asset_listParams_spec r).2.2.2.1]
        simp [hps]
  exact ⟨fun v hv => hown k hnone v hv, fun hno v hv => hno (hown k hnone v hv)⟩

theorem transaction_listParams_spec (r : transaction.ListTransactionsRequest) :
    ((transaction.listParams (some r)).get? "wallet_id"
        = (if r.WalletID ≠ "" then some r.WalletID else none)
      ∧ (transaction.listParams (some r)).get? "account_id"
        = (if r.AccountID ≠ "" then some r.AccountID else none)
      ∧ (transaction.listParams (some r)).get? "status"
        = (if r.Status ≠ "" then some r.Status else none)
      ∧ (transaction.listParams (some r)).get? "page"
        = (if r.Page > 0 then some (Itoa r.Page) else none)
      ∧ (transaction.listParams (some r)).get? "page_size"
        = (if r.PageSize > 0 then some (Itoa r.PageSize) else none)
      ∧ (∀ k v, (k, v) ∈ transaction.listParams (some r) → k = "wallet_id" ∨ k = "account_id" ∨ k = "status" ∨ k = "page" ∨ k = "page_size")
      ∧ (transaction.listParams (some r)).WF
      ∧ transaction.listParams none = []) := by
  rw [transaction_listParams_eq]
  refine ⟨?_, ?_, ?_, ?_, ?_, ?_, ?_, ?_⟩
  · simp [GoMap.get?, List.lookup_append, lookup_ite_singleton, lookup_ite_nil_singleton]
  · simp [GoMap.get?, List.lookup_append, lookup_ite_singleton, lookup_ite_nil_singleton]
  · simp [GoMap.get?, List.lookup_append, lookup_ite_singleton, lookup_ite_nil_singleton]
  · simp [GoMap.get?, List.lookup_append, lookup_ite_singleton, lookup_ite_nil_singleton]
  · simp [GoMap.get?, List.lookup_append, lookup_ite_singleton, lookup_ite_nil_singleton]
  · intro k v h
    simp only [List.mem_append] at h
    rcases h with (((h | h) | h) | h) | h <;>
      (have h2 := mem_ite_singleton _ _ _ h; cases h2; simp)
  · by_cases h0 : r.WalletID = "" <;> by_cases h1 : r.AccountID = "" <;> by_cases h2 : r.Status = "" <;> by_cases h3 : r.Page > 0 <;> by_cases h4 : r.PageSize > 0 <;>
      simp [h0, h1, h2, h3, h4, GoMap.WF]
  · rfl

theorem transaction_List_sent (s : transaction.Service) (E : Env) (q : Option transaction.ListTransactionsRequest) :
    (s.List E q).sent
      = (s.client.RequestWithQuery E "/api/v1/transactions" (some (transaction.listParams q))
          (some ([] : List (Option transaction.Transaction)))).sent := by
  unfold transaction.Service.List
  dsimp only
  split <;> rfl

theorem transaction_List_query (s : transaction.Service) (E : Env) (q : Option transaction.ListTransactionsRequest) :
    (∀ out, (s.List E q).sent = some out →
        ∃ u, E.parseRequestURL "GET" (s.client.BaseURL ++ "/api/v1/transactions") = .ok u
          ∧ out.URL.RawQuery = (common.addParams (u.Query E) (transaction.listParams q)).Encode
          ∧ (u.Query E = [] →
              ∀ k v, (k, v) ∈ (common.addParams (u.Query E) (transaction.listParams q)).pairs
                ↔ ((transaction.listParams q).get? k = some v ∧ v ≠ ""))
          ∧ ((q = none ∨ ∃ r, q = some r ∧ r.Page = 0 ∧ r.PageSize = 0) →
              ∀ k, k = "page" ∨ k = "page_size" →
                (∀ v, (k, v) ∈ (common.addParams (u.Query E) (transaction.listParams q)).pairs →
                  k ∈ (u.Query E).map Prod.fst)
                ∧ (k ∉ (u.Query E).map Prod.fst →
                  ∀ v, (k, v) ∉ (common.addParams (u.Query E) (transaction.listParams q)).pairs))) := by
  intro out hs
  rw [transaction_List_sent] at hs
  have hwf : (transaction.listParams q).WF := by
    cases q with
    | none => simp [transaction.listParams, GoMap.WF]
    | some r => exact (transaction_listParams_spec r).2.2.2.2.2.2.1
  obtain ⟨u, hu, hraw, hall, hown⟩ := query_of_list_params _ E _ _ _ out hwf hs
  refine ⟨u, hu, hraw, hall, ?_⟩
  intro hq k hk
  have hnone : (transaction.listParams q).get? k = none := by
    rcases hq with rfl | ⟨r, rfl, hp, hps⟩
    · simp [transaction.listParams, GoMap.get?]
    · rcases hk with rfl | rfl
      · rw [(transaction_listParams_spec r).2.2.2.1]
        simp [hp]
      · rw [(transaction_listParams_spec r).2.2.2.2.1]
        simp [hps]
  exact ⟨fun v hv => hown k hnone v hv, fun hno v hv => hno (hown k hnone v hv)⟩

/-- C6 as stated fails: the query of the URL itself is kept, and the URL is the base URL followed
by the path.  For the base URL `https://h/?page=`, which `NewClient` accepts, the wallet listing
with `Page = 0` and `PageSize = 0`, and the listing with the nil request, send the query string
`page=%2Fapi%2Fv1%2Fwallets`. -/
theorem C6_counterexample_page_from_base_url :
    (mpcsdk.NewClient "key" "secret" (some (configuration.Custom "https://h/?page="))).2 = none
    ∧ (((mpcsdk.NewClient "key" "secret" (some (configuration.Custom "https://h/?page="))).1.bind
          (fun c => c.Wallet)).map
        (fun s => (s.List (fixture.server (.obj [("code", .int 200000)]))
            (some { Page := 0, PageSize := 0 })).sent.map (fun req => req.URL.RawQuery))
      = some (some "page=%2Fapi%2Fv1%2Fwallets"))
    ∧ (((mpcsdk.NewClient "key" "secret" (some (configuration.Custom "https://h/?page="))).1.bind
          (fun c => c.Wallet)).map
        (fun s => (s.List (fixture.server (.obj [("code", .int 200000)])) none).sent.map
            (fun req => req.URL.RawQuery))
      = some (some "page=%2Fapi%2Fv1%2Fwallets"))
    ∧ (common.addParams (fixture.plainQuery "page=/api/v1/wallets")
          (wallet.listParams (some { Page := 0, PageSize := 0 }))).pairs
        = [("page", "/api/v1/wallets")] := by
  refine ⟨by decide, by decide, by decide, by decide⟩

/-- C6 amended: in the query mapping that the `List` of each service builds, every recognised
option (`wallet_id`, `account_id`, `status`, `page`, `page_size`) is present exactly when the
string is not empty, resp. the integer is positive (so only when it is not the default), and
then with its own value, integers in decimal; the mapping holds no other key, and it is empty
for a nil request.  The query string that `List` sends is the encoding of the query values of
the URL itself (base URL and path) to which the entries of that mapping are added.  For a URL
without a query of its own, the pairs of the query string are exactly the entries of the
mapping (with a non-empty value).  For a request with `Page = 0` and `PageSize = 0`, and for a
nil request, `page` and `page_size` occur in the query string only if the query of the URL
itself holds them: when it holds neither, the query string has neither. -/
theorem C6_list_options_only_when_set (E : Env) (ws : wallet.Service) (acs : account.Service)
    (ass : asset.Service) (ts : transaction.Service)
    (wr : wallet.ListWalletsRequest) (ar : account.ListAccountsRequest)
    (sr : asset.ListAssetsRequest) (tr : transaction.ListTransactionsRequest)
    (wq : Option wallet.ListWalletsRequest) (aq : Option account.ListAccountsRequest)
    (sq : Option asset.ListAssetsRequest) (tq : Option transaction.ListTransactionsRequest) :
    (((wallet.listParams (some wr)).get? "page"
        = (if wr.Page > 0 then some (Itoa wr.Page) else none)
      ∧ (wallet.listParams (some wr)).get? "page_size"
        = (if wr.PageSize > 0 then some (Itoa wr.PageSize) else none)
      ∧ (wallet.listParams (some wr)).get? "status"
        = (if wr.Status ≠ "" then some wr.Status else none)
      ∧ (∀ k v, (k, v) ∈ wallet.listParams (some wr) → k = "page" ∨ k = "page_size" ∨ k = "status")
      ∧ (wallet.listParams (some wr)).WF
      ∧ wallet.listParams none = [])
    ∧ ((account.listParams (some ar)).get? "wallet_id"
        = (if ar.WalletID ≠ "" then some ar.WalletID else none)
      ∧ (account.listParams (some ar)).get? "page"
        = (if ar.Page > 0 then some (Itoa ar.Page) else none)
      ∧ (account.listParams (some ar)).get? "page_size"
        = (if ar.PageSize > 0 then some (Itoa ar.PageSize) else none)
      ∧ (∀ k v, (k, v) ∈ account.listParams (some ar) → k = "wallet_id" ∨ k = "page" ∨ k = "page_size")
      ∧ (account.listParams (some ar)).WF
      ∧ account.listParams none = [])
    ∧ ((asset.listParams (some sr)).get? "wallet_id"
        = (if sr.WalletID ≠ "" then some sr.WalletID else none)
      ∧ (asset.listParams (some sr)).get? "account_id"
        = (if sr.AccountID ≠ "" then some sr.AccountID else none)
      ∧ (asset.listParams (some sr)).get? "page"
        = (if sr.Page > 0 then some (Itoa sr.Page) else none)
      ∧ (asset.listParams (some sr)).get? "page_size"
        = (if sr.PageSize > 0 then some (Itoa sr.PageSize) else none)
      ∧ (∀ k v, (k, v) ∈ asset.listParams (some sr) → k = "wallet_id" ∨ k = "account_id" ∨ k = "page" ∨ k = "page_size")
      ∧ (asset.listParams (some sr)).WF
      ∧ asset.listParams none = [])
    ∧ ((transaction.listParams (some tr)).get? "wallet_id"
        = (if tr.WalletID ≠ "" then some tr.WalletID else none)
      ∧ (transaction.listParams (some tr)).get? "account_id"
        = (if tr.AccountID ≠ "" then some tr.AccountID else none)
      ∧ (transaction.listParams (some tr)).get? "status"
        = (if tr.Status ≠ "" then some tr.Status else none)
      ∧ (transaction.listParams (some tr)).get? "page"
        = (if tr.Page > 0 then some (Itoa tr.Page) else none)
      ∧ (transaction.listParams (some tr)).get? "page_size"
        = (if tr.PageSize > 0 then some (Itoa tr.PageSize) else none)
      ∧ (∀ k v, (k, v) ∈ transaction.listParams (some tr) → k = "wallet_id" ∨ k = "account_id" ∨ k = "status" ∨ k = "page" ∨ k = "page_size")
      ∧ (transaction.listParams (some tr)).WF
      ∧ transaction.listParams none = []))
    ∧ ((∀ out, (ws.List E wq).sent = some out →
          ∃ u, E.parseRequestURL "GET" (ws.client.BaseURL ++ "/api/v1/wallets") = .ok u
            ∧ out.URL.RawQuery = (common.addParams (u.Query E) (wallet.listParams wq)).Encode
            ∧ (u.Query E = [] →
                ∀ k v, (k, v) ∈ (common.addParams (u.Query E) (wallet.listParams wq)).pairs
                  ↔ ((wallet.listParams wq).get? k = some v ∧ v ≠ ""))
            ∧ ((wq = none ∨ ∃ r, wq = some r ∧ r.Page = 0 ∧ r.PageSize = 0) →
                ∀ k, k = "page" ∨ k = "page_size" →
                  (∀ v, (k, v) ∈ (common.addParams (u.Query E) (wallet.listParams wq)).pairs →
                    k ∈ (u.Query E).map Prod.fst)
                  ∧ (k ∉ (u.Query E).map Prod.fst →
                    ∀ v, (k, v) ∉ (common.addParams (u.Query E) (wallet.listParams wq)).pairs)))
    ∧ (∀ out, (acs.List E aq).sent = some out →
          ∃ u, E.parseRequestURL "GET" (acs.client.BaseURL ++ "/api/v1/accounts") = .ok u
            ∧ out.URL.RawQuery = (common.addParams (u.Query E) (account.listParams aq)).Encode
            ∧ (u.Query E = [] →
                ∀ k v, (k, v) ∈ (common.addParams (u.Query E) (account.listParams aq)).pairs
                  ↔ ((account.listParams aq).get? k = some v ∧ v ≠ ""))
            ∧ ((aq = none ∨ ∃ r, aq = some r ∧ r.Page = 0 ∧ r.PageSize = 0) →
                ∀ k, k = "page" ∨ k = "page_size" →
                  (∀ v, (k, v) ∈ (common.addParams (u.Query E) (account.listParams aq)).pairs →
                    k ∈ (u.Query E).map Prod.fst)
                  ∧ (k ∉ (u.Query E).map Prod.fst →
                    ∀ v, (k, v) ∉ (common.addParams (u.Query E) (account.listParams aq)).pairs)))
    ∧ (∀ out, (ass.List E sq).sent = some out →
          ∃ u, E.parseRequestURL "GET" (ass.client.BaseURL ++ "/api/v1/assets") = .ok u
            ∧ out.URL.RawQuery = (common.addParams (u.Query E) (asset.listParams sq)).Encode
            ∧ (u.Query E = [] →
                ∀ k v, (k, v) ∈ (common.addParams (u.Query E) (asset.listParams sq)).pairs
                  ↔ ((asset.listParams sq).get? k = some v ∧ v ≠ ""))
            ∧ ((sq = none ∨ ∃ r, sq = some r ∧ r.Page = 0 ∧ r.PageSize = 0) →
                ∀ k, k = "page" ∨ k = "page_size" →
                  (∀ v, (k, v) ∈ (common.addParams (u.Query E) (asset.listParams sq)).pairs →
                    k ∈ (u.Query E).map Prod.fst)
                  ∧ (k ∉ (u.Query E).map Prod.fst →
                    ∀ v, (k, v) ∉ (common.addParams (u.Query E) (asset.listParams sq)).pairs)))
    ∧ (∀ out, (ts.List E tq).sent = some out →
          ∃ u, E.parseRequestURL "GET" (ts.client.BaseURL ++ "/api/v1/transactions") = .ok u
            ∧ out.URL.RawQuery = (common.addParams (u.Query E) (transaction.listParams tq)).Encode
            ∧ (u.Query E = [] →
                ∀ k v, (k, v) ∈ (common.addParams (u.Query E) (transaction.listParams tq)).pairs
                  ↔ ((transaction.listParams tq).get? k = some v ∧ v ≠ ""))
            ∧ ((tq = none ∨ ∃ r, tq = some r ∧ r.Page = 0 ∧ r.PageSize = 0) →
                ∀ k, k = "page" ∨ k = "page_size" →
                  (∀ v, (k, v) ∈ (common.addParams (u.Query E) (transaction.listParams tq)).pairs →
                    k ∈ (u.Query E).map Prod.fst)
                  ∧ (k ∉ (u.Query E).map Prod.fst →
                    ∀ v, (k, v) ∉ (common.addParams (u.Query E) (transaction.listParams tq)).pairs)))) :=
  ⟨⟨wallet_listParams_spec wr, account_listParams_spec ar, asset_listParams_spec sr,
      transaction_listParams_spec tr⟩,
    ⟨wallet_List_query ws E wq, account_List_query acs E aq, asset_List_query ass E sq,
      transaction_List_query ts E tq⟩⟩

/-- C6 (amended) at concrete inputs: a wallet listing with `Page = 0`, `PageSize = 0` and a
status, a transaction listing with a page and a page size, and the query string of the wallet
listing on the sandbox client. -/
theorem C6_list_options_only_when_set_witness :
    (wallet.listParams (some { Page := 0, PageSize := 0, Status := "ACTIVE" })).get? "page" = none
    ∧ (wallet.listParams (some { Page := 0, PageSize := 0, Status := "ACTIVE" })).get? "status"
        = some "ACTIVE"
    ∧ (transaction.listParams (some { WalletID := "w-1", Page := 2, PageSize := 50 })).get?
        "page_size" = some "50"
    ∧ ((wallet.NewService fixture.client).List (fixture.server (.obj [("code", .int 200000)]))
        (some { Page := 0, PageSize := 0, Status := "ACTIVE" })).sent.map
          (fun req => req.URL.RawQuery) = some "status=ACTIVE"
    ∧ (∀ v, ("page", v) ∉ (common.addParams [] (wallet.listParams
        (some { Page := 0, PageSize := 0, Status := "ACTIVE" }))).pairs)
    ∧ ("status", "ACTIVE") ∈ (common.addParams [] (wallet.listParams
        (some { Page := 0, PageSize := 0, Status := "ACTIVE" }))).pairs := by
  have h := C6_list_options_only_when_set (fixture.server (.obj [("code", .int 200000)]))
    (wallet.NewService fixture.client) (account.NewService fixture.client)
    (asset.NewService fixture.client) (transaction.NewService fixture.client)
    { Page := 0, PageSize := 0, Status := "ACTIVE" } {} {}
    { WalletID := "w-1", Page := 2, PageSize := 50 }
    (some { Page := 0, PageSize := 0, Status := "ACTIVE" }) none none none
  obtain ⟨u, hu, _, hall, hkeys⟩ := h.2.1
    { Method := "GET",
      URL := { Loc := "https://mpcgwapi-sandbox.reefiy.dev/api/v1/wallets",
               RawQuery := "status=ACTIVE" },
      Header := [("Authorization", "Bearer tok-1")],
      Body := none } rfl
  have hu2 : u = { Loc := "https://mpcgwapi-sandbox.reefiy.dev/api/v1/wallets", RawQuery := "" } :=
    (Except.ok.inj hu).symm
  subst hu2
  refine ⟨h.1.1.1.trans (by decide), h.1.1.2.2.1.trans (by decide),
    h.1.2.2.2.2.2.2.2.1.trans (by decide), by decide,
    (hkeys (Or.inr ⟨_, rfl, rfl, rfl⟩) "page" (Or.inl rfl)).2 (by decide),
    (hall rfl "status" "ACTIVE").2 ⟨by decide, by decide⟩⟩

/-! ### The data of a success envelope -/

/-- What the exchange returns and leaves behind the result pointer depends on the request only
through what the HTTP client answers. -/
theorem exchange_congr {α : Type} [Unmarshaler α] (E : Env) (ra rb : HTTPRequest)
    (result : Option α) (h : E.Do ra = E.Do rb) :
    (common.Client.exchange E ra result).err = (common.Client.exchange E rb result).err
      ∧ (common.Client.exchange E ra result).result
          = (common.Client.exchange E rb result).result := by
  unfold common.Client.exchange
  rw [h]
  repeat' split
  all_goals exact ⟨rfl, rfl⟩

/-- The four cases of the exchange after the envelope is decoded. -/
theorem exchange_after_decode {α : Type} [Unmarshaler α] (E : Env) (req : HTTPRequest)
    (result : Option α) (respBody : Bytes) (apiResp : common.APIResponse)
    (out : common.Outcome α) (heq : out = common.Client.exchange E req result)
    (hdo : E.Do req = .ok (.ok respBody))
    (hdec : jsonUnmarshal respBody ({} : common.APIResponse) = (apiResp, none)) :
    ((apiResp.Code = 200000 →
          (∀ r data, result = some r → apiResp.Data = some data →
            (Unmarshaler.unmarshal data r).2 = none →
            (out).err = none
              ∧ (out).result
                = some (Unmarshaler.unmarshal data r).1)
          ∧ (∀ r data e, result = some r → apiResp.Data = some data →
            (Unmarshaler.unmarshal data r).2 = some e →
            (out).err
              = some (.wrapError ("failed to decode response data: " ++ e.Error) e))
          ∧ (result = none ∨ apiResp.Data = none →
            (out).err = none
              ∧ (out).result = result))
        ∧ (apiResp.Code ≠ 200000 →
            (out).err.isSome = true
              ∧ (out).result = result)) := by
  subst heq
  refine ⟨fun hcode => ⟨?_, ?_, ?_⟩, fun hcode => ?_⟩
  · intro r data hr hd hok
    subst hr
    rw [common.exchange_data E req r respBody apiResp data hdo hdec hcode hd]
    simp [hok]
  · intro r data e hr hd he
    subst hr
    rw [common.exchange_data E req r respBody apiResp data hdo hdec hcode hd]
    simp [he, Errorf_w]
  · intro h
    rw [common.exchange_no_data E req result respBody apiResp hdo hdec hcode h]
    exact ⟨rfl, rfl⟩
  · rw [common.exchange_api_error E req result respBody apiResp hdo hdec hcode]
    exact ⟨rfl, rfl⟩

/-- C11: for every envelope with code 200000, when a result is requested and the data payload
is present, `Client.Request` and `Client.RequestWithQuery` return success with the result
decoded from the data when the data fits, and the protocol error "failed to decode response
data" when it does not; when no result is requested or the data is absent (length 0) they
return success and leave the result as it was.  When the code is not 200000 the data is not
decoded: an error is returned and the result is the one before the call, whatever the data
holds. -/
theorem C11_data_decoded_only_on_success {β α : Type} [Marshaler β] [Unmarshaler α]
    (c : common.Client) (E : Env) (method path : String) (body : Option β)
    (params : Option GoMap) (result : Option α) (apiResp : common.APIResponse) :
    (∀ req respBody, (c.Request E method path body result).sent = some req →
      E.Do req = .ok (.ok respBody) →
      jsonUnmarshal respBody ({} : common.APIResponse) = (apiResp, none) →
      ((apiResp.Code = 200000 →
          (∀ r data, result = some r → apiResp.Data = some data →
            (Unmarshaler.unmarshal data r).2 = none →
            (c.Request E method path body result).err = none
              ∧ (c.Request E method path body result).result
                = some (Unmarshaler.unmarshal data r).1)
          ∧ (∀ r data e, result = some r → apiResp.Data = some data →
            (Unmarshaler.unmarshal data r).2 = some e →
            (c.Request E method path body result).err
              = some (.wrapError ("failed to decode response data: " ++ e.Error) e))
          ∧ (result = none ∨ apiResp.Data = none →
            (c.Request E method path body result).err = none
              ∧ (c.Request E method path body result).result = result))
        ∧ (apiResp.Code ≠ 200000 →
            (c.Request E method path body result).err.isSome = true
              ∧ (c.Request E method path body result).result = result)))
    ∧ (∀ req respBody, (c.RequestWithQuery E path params result).sent = some req →
      E.Do req = .ok (.ok respBody) →
      jsonUnmarshal respBody ({} : common.APIResponse) = (apiResp, none) →
      ((apiResp.Code = 200000 →
          (∀ r data, result = some r → apiResp.Data = some data →
            (Unmarshaler.unmarshal data r).2 = none →
            (c.RequestWithQuery E path params result).err = none
              ∧ (c.RequestWithQuery E path params result).result
                = some (Unmarshaler.unmarshal data r).1)
          ∧ (∀ r data e, result = some r → apiResp.Data = some data →
            (Unmarshaler.unmarshal data r).2 = some e →
            (c.RequestWithQuery E path params result).err
              = some (.wrapError ("failed to decode response data: " ++ e.Error) e))
          ∧ (result = none ∨ apiResp.Data = none →
            (c.RequestWithQuery E path params result).err = none
              ∧ (c.RequestWithQuery E path params result).result = result))
        ∧ (apiResp.Code ≠ 200000 →
            (c.RequestWithQuery E path params result).err.isSome = true
              ∧ (c.RequestWithQuery E path params result).result = result))) := by
  constructor
  · intro req respBody hsent hdo hdec
    obtain ⟨_, _, _, _, _, _, _, h⟩ := common.Request_sent c E method path body result req hsent
    exact exchange_after_decode E req result respBody apiResp _ h hdo hdec
  · intro req respBody hsent hdo hdec
    obtain ⟨_, _, _, _, _, h⟩ := common.RequestWithQuery_sent c E path params result req hsent
    exact exchange_after_decode E req result respBody apiResp _ h hdo hdec

/-- C11 at concrete inputs: `Request` against a success envelope whose data is a wallet object,
and `RequestWithQuery` against a success envelope without data. -/
theorem C11_data_decoded_only_on_success_witness :
    ((fixture.client.Request
          (fixture.server (.obj [("code", .int 200000),
            ("data", .obj [("wallet_id", .str "w-1"), ("chain", .str "ETH")])]))
          "GET" "/api/v1/wallets/w-1" (none : Option Unit)
          (some ({ WalletName := "before" } : wallet.Wallet))).err = none
      ∧ (fixture.client.Request
          (fixture.server (.obj [("code", .int 200000),
            ("data", .obj [("wallet_id", .str "w-1"), ("chain", .str "ETH")])]))
          "GET" "/api/v1/wallets/w-1" (none : Option Unit)
          (some ({ WalletName := "before" } : wallet.Wallet))).result
        = some { WalletID := "w-1", WalletName := "before", Chain := "ETH" })
    ∧ ((fixture.client.RequestWithQuery
          (fixture.server (.obj [("code", .int 200000), ("message", .str "ok")]))
          "/api/v1/wallets/w-1" none (some ({ WalletName := "before" } : wallet.Wallet))).err
        = none
      ∧ (fixture.client.RequestWithQuery
          (fixture.server (.obj [("code", .int 200000), ("message", .str "ok")]))
          "/api/v1/wallets/w-1" none (some ({ WalletName := "before" } : wallet.Wallet))).result
        = some { WalletName := "before" }) :=
  ⟨(((C11_data_decoded_only_on_success fixture.client
      (fixture.server (.obj [("code", .int 200000),
        ("data", .obj [("wallet_id", .str "w-1"), ("chain", .str "ETH")])]))
      "GET" "/api/v1/wallets/w-1" (none : Option Unit) none
      (some ({ WalletName := "before" } : wallet.Wallet))
      { Code := 200000,
        Data := some (.obj [("wallet_id", .str "w-1"), ("chain", .str "ETH")]) }).1
      { Method := "GET",
        URL := { Loc := "https://mpcgwapi-sandbox.reefiy.dev/api/v1/wallets/w-1", RawQuery := "" },
        Header := [("Content-Type", "application/json"), ("Authorization", "Bearer tok-1")],
        Body := none } _ rfl rfl rfl).1 rfl).1 _ _ rfl rfl rfl,
   (((C11_data_decoded_only_on_success fixture.client
      (fixture.server (.obj [("code", .int 200000), ("message", .str "ok")]))
      "GET" "/api/v1/wallets/w-1" (none : Option Unit) none
      (some ({ WalletName := "before" } : wallet.Wallet))
      { Code := 200000, Message := "ok" }).2
      { Method := "GET",
        URL := { Loc := "https://mpcgwapi-sandbox.reefiy.dev/api/v1/wallets/w-1", RawQuery := "" },
        Header := [("Authorization", "Bearer tok-1")],
        Body := none } _ rfl rfl rfl).1 rfl).2.2 (Or.inr rfl)⟩

/-! ### The responses of the list operations -/

theorem asset_List_success (s : asset.Service) (E : Env) (q : Option asset.ListAssetsRequest)
    (apiResp : common.APIResponse) :
    (∀ req respBody, (s.List E q).sent = some req →
      E.Do req = .ok (.ok respBody) →
      jsonUnmarshal respBody ({} : common.APIResponse) = (apiResp, none) →
      (s.List E q).err = none →
      apiResp.Code = 200000
        ∧ (s.List E q).result
          = some { Items := match apiResp.Data with
                              | none => []
                              | some data =>
                                (Unmarshaler.unmarshal data ([] : List (Option asset.Asset))).1,
                   Page := 0, PageSize := 0, TotalCount := 0, TotalPages := 0 }) := by
  intro req respBody hsent hdo hdec hok
  rw [asset_List_sent] at hsent
  obtain ⟨_, _, _, _, _, heq⟩ := common.RequestWithQuery_sent _ E _ _ _ req hsent
  unfold asset.Service.List at hok ⊢
  dsimp only at hok ⊢
  rw [heq] at hok ⊢
  by_cases hcode : apiResp.Code = 200000
  · refine ⟨hcode, ?_⟩
    cases hd : apiResp.Data with
    | none =>
      rw [common.exchange_no_data E req _ respBody apiResp hdo hdec hcode (Or.inr hd)]
      simp
    | some data =>
      rw [common.exchange_data E req _ respBody apiResp data hdo hdec hcode hd] at hok ⊢
      cases he : (Unmarshaler.unmarshal data ([] : List (Option asset.Asset))).2 with
      | none => simp [he]
      | some e => simp [he] at hok
  · rw [common.exchange_api_error E req _ respBody apiResp hdo hdec hcode] at hok
    simp at hok

theorem asset_List_zero_pagination (s : asset.Service) (E : Env)
    (q : Option asset.ListAssetsRequest) (resp : asset.ListAssetsResponse)
    (h : (s.List E q).result = some resp) :
    resp.Page = 0 ∧ resp.PageSize = 0 ∧ resp.TotalCount = 0 ∧ resp.TotalPages = 0 := by
  unfold asset.Service.List at h
  dsimp only at h
  split at h
  · cases h
  · cases h
    exact ⟨rfl, rfl, rfl, rfl⟩

theorem transaction_List_success (s : transaction.Service) (E : Env) (q : Option transaction.ListTransactionsRequest)
    (apiResp : common.APIResponse) :
    (∀ req respBody, (s.List E q).sent = some req →
      E.Do req = .ok (.ok respBody) →
      jsonUnmarshal respBody ({} : common.APIResponse) = (apiResp, none) →
      (s.List E q).err = none →
      apiResp.Code = 200000
        ∧ (s.List E q).result
          = some { Items := match apiResp.Data with
                              | none => []
                              | some data =>
                                (Unmarshaler.unmarshal data ([] : List (Option transaction.Transaction))).1,
                   Page := 0, PageSize := 0, TotalCount := 0, TotalPages := 0 }) := by
  intro req respBody hsent hdo hdec hok
  rw [transaction_List_sent] at hsent
  obtain ⟨_, _, _, _, _, heq⟩ := common.RequestWithQuery_sent _ E _ _ _ req hsent
  unfold transaction.Service.List at hok ⊢
  dsimp only at hok ⊢
  rw [heq] at hok ⊢
  by_cases hcode : apiResp.Code = 200000
  · refine ⟨hcode, ?_⟩
    cases hd : apiResp.Data with
    | none =>
      rw [common.exchange_no_data E req _ respBody apiResp hdo hdec hcode (Or.inr hd)]
      simp
    | some data =>
      rw [common.exchange_data E req _ respBody apiResp data hdo hdec hcode hd] at hok ⊢
      cases he : (Unmarshaler.unmarshal data ([] : List (Option transaction.Transaction))).2 with
      | none => simp [he]
      | some e => simp [he] at hok
  · rw [common.exchange_api_error E req _ respBody apiResp hdo hdec hcode] at hok
    simp at hok

theorem transaction_List_zero_pagination (s : transaction.Service) (E : Env)
    (q : Option transaction.ListTransactionsRequest) (resp : transaction.ListTransactionsResponse)
    (h : (s.List E q).result = some resp) :
    resp.Page = 0 ∧ resp.PageSize = 0 ∧ resp.TotalCount = 0 ∧ resp.TotalPages = 0 := by
  unfold transaction.Service.List at h
  dsimp only at h
  split at h
  · cases h
  · cases h
    exact ⟨rfl, rfl, rfl, rfl⟩

/-- C16: every response that `asset.Service.List` and `transaction.Service.List` return has
`Page`, `PageSize`, `TotalCount` and `TotalPages` equal to 0; and for every successful call the
envelope has code 200000 and `Items` is the list decoded from the envelope's data (the nil list
when the data is absent), whatever the pagination fields of the envelope `apiResp` hold and
whatever `Page` and `PageSize` the request asked for. -/
theorem C16_list_responses_drop_pagination (E : Env) (sa : asset.Service)
    (st : transaction.Service) (qa : Option asset.ListAssetsRequest)
    (qt : Option transaction.ListTransactionsRequest) (apiResp : common.APIResponse) :
    ((∀ resp, (sa.List E qa).result = some resp →
        resp.Page = 0 ∧ resp.PageSize = 0 ∧ resp.TotalCount = 0 ∧ resp.TotalPages = 0)
      ∧ (∀ req respBody, (sa.List E qa).sent = some req →
      E.Do req = .ok (.ok respBody) →
      jsonUnmarshal respBody ({} : common.APIResponse) = (apiResp, none) →
      (sa.List E qa).err = none →
      apiResp.Code = 200000
        ∧ (sa.List E qa).result
          = some { Items := match apiResp.Data with
                              | none => []
                              | some data =>
                                (Unmarshaler.unmarshal data ([] : List (Option asset.Asset))).1,
                   Page := 0, PageSize := 0, TotalCount := 0, TotalPages := 0 }))
    ∧ ((∀ resp, (st.List E qt).result = some resp →
        resp.Page = 0 ∧ resp.PageSize = 0 ∧ resp.TotalCount = 0 ∧ resp.TotalPages = 0)
      ∧ (∀ req respBody, (st.List E qt).sent = some req →
      E.Do req = .ok (.ok respBody) →
      jsonUnmarshal respBody ({} : common.APIResponse) = (apiResp, none) →
      (st.List E qt).err = none →
      apiResp.Code = 200000
        ∧ (st.List E qt).result
          = some { Items := match apiResp.Data with
                              | none => []
                              | some data =>
                                (Unmarshaler.unmarshal data ([] : List (Option transaction.Transaction))).1,
                   Page := 0, PageSize := 0, TotalCount := 0, TotalPages := 0 })) :=
  ⟨⟨asset_List_zero_pagination sa E qa, asset_List_success sa E qa apiResp⟩,
    ⟨transaction_List_zero_pagination st E qt, transaction_List_success st E qt apiResp⟩⟩

/-- C16 at a concrete input: a transaction listing that asks for page 3 of size 50 against a
server whose envelope carries `page` 3, `page_size` 50 and `total` 120 and one transaction. -/
theorem C16_list_responses_drop_pagination_witness :
    ((transaction.NewService fixture.client).List
        (fixture.server (.obj [("code", .int 200000), ("page", .int 3), ("page_size", .int 50),
          ("total", .int 120), ("data", .arr [.obj [("tx_id", .str "tx-1")]])]))
        (some { Page := 3, PageSize := 50 })).result
      = some { Items := [some { TxID := "tx-1" }], Page := 0, PageSize := 0, TotalCount := 0,
               TotalPages := 0 } :=
  ((C16_list_responses_drop_pagination
      (fixture.server (.obj [("code", .int 200000), ("page", .int 3), ("page_size", .int 50),
        ("total", .int 120), ("data", .arr [.obj [("tx_id", .str "tx-1")]])]))
      (asset.NewService fixture.client) (transaction.NewService fixture.client) none
      (some { Page := 3, PageSize := 50 })
      { Code := 200000, Data := some (.arr [.obj [("tx_id", .str "tx-1")]]),
        PaginatedData := { Page := 3, PageSize := 50, TotalCount := 120 } }).2.2
    { Method := "GET",
      URL := { Loc := "https://mpcgwapi-sandbox.reefiy.dev/api/v1/transactions",
               RawQuery := "page=3&page_size=50" },
      Header := [("Authorization", "Bearer tok-1")],
      Body := none } _ rfl rfl rfl rfl).2

/-! ### The base URL at construction time -/

/-- C12 as stated fails: with a key and a secret, `NewClient` accepts the configuration
`Custom("")`, whose base URL is missing: it returns a client and no error. -/
theorem C12_counterexample_empty_base_url_accepted :
    (mpcsdk.NewClient "key" "secret" (some (configuration.Custom ""))).2 = none
    ∧ (mpcsdk.NewClient "key" "secret" (some (configuration.Custom ""))).1.isSome = true
    ∧ (mpcsdk.NewClient "key" "secret" (some (configuration.Custom ""))).1.bind
        mpcsdk.Client.GetConfig = some { BaseURL := "" } := by
  decide

/-- C12 amended: `NewClient` does not look at the base URL.  For every non-empty key and
secret and every base URL, missing or invalid ones included, it returns no error and a client
on that base URL (and it performs no call: it is a function of its arguments alone).  A base
URL for which `http.NewRequest` rejects the request URL surfaces at the request: `Request` and
`RequestWithQuery` of that client return the error "failed to create request" and hand no
request to the HTTP client. -/
theorem C12_base_url_is_not_checked_at_construction {β α : Type} [Marshaler β]
    [Unmarshaler α] (apiKey apiSecret baseURL : String) (hkey : apiKey ≠ "")
    (hsecret : apiSecret ≠ "") :
    ∃ client, mpcsdk.NewClient apiKey apiSecret (some (configuration.Custom baseURL))
        = (some client, none)
      ∧ client.GetConfig = some (configuration.Custom baseURL)
      ∧ client.apiClient.BaseURL = baseURL
      ∧ (∀ (E : Env) (method path : String) (body : Option β) (result : Option α) reader err,
          common.bodyReader body = .ok reader →
          E.parseRequestURL method (baseURL ++ path) = .error err →
          client.apiClient.Request E method path body result
            = ⟨result, some (.wrapError ("failed to create request: " ++ err.Error) err), none⟩)
      ∧ (∀ (E : Env) (path : String) (params : Option GoMap) (result : Option α) err,
          E.parseRequestURL "GET" (baseURL ++ path) = .error err →
          client.apiClient.RequestWithQuery E path params result
            = ⟨result, some (.wrapError ("failed to create request: " ++ err.Error) err),
                none⟩) := by
  have hnew : mpcsdk.NewClient apiKey apiSecret (some (configuration.Custom baseURL))
      = (some { config := some (configuration.Custom baseURL),
                tokenManager := auth.NewTokenManager apiKey apiSecret baseURL,
                apiClient := common.NewClient baseURL
                  (auth.NewTokenManager apiKey apiSecret baseURL),
                Wallet := some (wallet.NewService (common.NewClient baseURL
                  (auth.NewTokenManager apiKey apiSecret baseURL))),
                Account := some (account.NewService (common.NewClient baseURL
                  (auth.NewTokenManager apiKey apiSecret baseURL))),
                Asset := some (asset.NewService (common.NewClient baseURL
                  (auth.NewTokenManager apiKey apiSecret baseURL))),
                Transaction := some (transaction.NewService (common.NewClient baseURL
                  (auth.NewTokenManager apiKey apiSecret baseURL))) }, none) := by
    simp [mpcsdk.NewClient, hkey, hsecret, configuration.Custom]
  refine ⟨_, hnew, rfl, rfl, ?_, ?_⟩
  · intro E method path body result reader err hb hu
    have hu2 : E.parseRequestURL method
        ((common.NewClient baseURL (auth.NewTokenManager apiKey apiSecret baseURL)).BaseURL
          ++ path) = .error err := hu
    unfold common.Client.Request
    simp [hb, NewRequest, hu2, Errorf_w]
  · intro E path params result err hu
    have hu2 : E.parseRequestURL "GET"
        ((common.NewClient baseURL (auth.NewTokenManager apiKey apiSecret baseURL)).BaseURL
          ++ path) = .error err := hu
    unfold common.Client.RequestWithQuery
    simp [NewRequest, hu2, Errorf_w]

/-- C12 (amended) at a concrete input: the configuration `Custom("")`. -/
theorem C12_base_url_is_not_checked_at_construction_witness :
    ∃ client, mpcsdk.NewClient "key" "secret" (some (configuration.Custom ""))
        = (some client, none)
      ∧ client.GetConfig = some (configuration.Custom "")
      ∧ client.apiClient.BaseURL = "" :=
  match C12_base_url_is_not_checked_at_construction (β := Unit) (α := wallet.Wallet)
      "key" "secret" "" (by decide) (by decide) with
  | ⟨client, hnew, hcfg, hbase, _⟩ => ⟨client, hnew, hcfg, hbase⟩

/-! ### `Request` with GET and no body against `RequestWithQuery` -/

/-- The loop of `RequestWithQuery` adds nothing for parameters whose values are all empty. -/
theorem addParams_all_empty (q : Values) (params : GoMap) (h : ∀ kv ∈ params, kv.2 = "") :
    common.addParams q params = q := by
  unfold common.addParams
  induction params generalizing q with
  | nil => rfl
  | cons e rest ih =>
    rw [List.foldl_cons]
    have he : e.2 = "" := h e (List.mem_cons_self _ _)
    simp only [he, ne_eq, not_true_eq_false, if_false]
    exact ih q (fun kv hkv => h kv (List.mem_cons_of_mem _ hkv))

/-- C15 as stated fails for a non-nil empty mapping: `RequestWithQuery` encodes the query of
the URL anew (keys sorted), `Request` sends it as it is.  For the path
`/api/v1/wallets?status=ACTIVE&page=1` the two calls request different URLs. -/
theorem C15_counterexample_query_is_reencoded :
    (fixture.client.Request (fixture.server (.obj [("code", .int 200000)]))
        "GET" "/api/v1/wallets?status=ACTIVE&page=1" (none : Option Unit)
        (some ({} : wallet.Wallet))).sent.map (fun req => req.URL.RawQuery)
      = some "status=ACTIVE&page=1"
    ∧ (fixture.client.RequestWithQuery (fixture.server (.obj [("code", .int 200000)]))
        "/api/v1/wallets?status=ACTIVE&page=1" (some [])
        (some ({} : wallet.Wallet))).sent.map (fun req => req.URL.RawQuery)
      = some "page=1&status=ACTIVE" := by
  constructor <;> decide

/-- C15 amended: for nil params, empty params and params whose values are all empty,
`Request("GET", path, nil, result)` and `RequestWithQuery(path, params, result)` either both
return before a request is sent, with the same error and result, or both send a GET request
without a body, with the same headers but for the `Content-Type` of `Request`, to the same
location; the query of the URL is the same for nil params, and for non-nil params that of
`RequestWithQuery` is the encoding of the query values of the URL, so that the URLs are the
same exactly when that encoding is the raw query of the URL (as it is for a URL without a
query).  When the HTTP client answers both requests alike, both calls return the same error
and the same result. -/
theorem C15_get_without_body_and_query_call {α : Type} [Unmarshaler α] (c : common.Client)
    (E : Env) (path : String) (params : Option GoMap) (result : Option α)
    (hparams : ∀ p, params = some p → ∀ kv ∈ p, kv.2 = "") :
    (((c.Request E "GET" path (none : Option Unit) result).sent = none
        ↔ (c.RequestWithQuery E path params result).sent = none)
      ∧ ((c.Request E "GET" path (none : Option Unit) result).sent = none →
          c.Request E "GET" path (none : Option Unit) result
            = c.RequestWithQuery E path params result))
    ∧ (∀ ra rb, (c.Request E "GET" path (none : Option Unit) result).sent = some ra →
        (c.RequestWithQuery E path params result).sent = some rb →
        ra.Method = "GET" ∧ rb.Method = "GET" ∧ ra.Body = none ∧ rb.Body = none
          ∧ ra.Header = ("Content-Type", "application/json") :: rb.Header
          ∧ ra.URL.Loc = rb.URL.Loc
          ∧ (params = none → ra.URL = rb.URL)
          ∧ (params ≠ none → rb.URL.RawQuery = (ra.URL.Query E).Encode)
          ∧ ((ra.URL.Query E).Encode = ra.URL.RawQuery → ra.URL = rb.URL)
          ∧ (E.Do ra = E.Do rb →
              (c.Request E "GET" path (none : Option Unit) result).err
                  = (c.RequestWithQuery E path params result).err
                ∧ (c.Request E "GET" path (none : Option Unit) result).result
                  = (c.RequestWithQuery E path params result).result)) := by
  have hnone : ∀ u : URL, common.queryURL E u none = u := fun _ => rfl
  have hsome : ∀ (u : URL) p, params = some p →
      common.queryURL E u (some p) = { u with RawQuery := (u.Query E).Encode } := by
    intro u p hp
    simp only [common.queryURL]
    rw [addParams_all_empty _ p (hparams p hp)]
  cases hu : E.parseRequestURL "GET" (c.BaseURL ++ path) with
  | error e =>
    have h1 : c.Request E "GET" path (none : Option Unit) result
        = ⟨result, some (Errorf_w "failed to create request: " e), none⟩ := by
      unfold common.Client.Request
      simp [common.bodyReader, NewRequest, hu]
    have h2 : c.RequestWithQuery E path params result
        = ⟨result, some (Errorf_w "failed to create request: " e), none⟩ := by
      unfold common.Client.RequestWithQuery
      simp [NewRequest, hu]
    rw [h1, h2]
    simp
  | ok u =>
    cases ht : E.GetToken with
    | error e =>
      have h1 : c.Request E "GET" path (none : Option Unit) result
          = ⟨result, some (Errorf_w "failed to get JWT token: " e), none⟩ := by
        unfold common.Client.Request
        simp [common.bodyReader, NewRequest, hu, ht]
      have h2 : c.RequestWithQuery E path params result
          = ⟨result, some (Errorf_w "failed to get JWT token: " e), none⟩ := by
        unfold common.Client.RequestWithQuery
        simp [NewRequest, hu, ht]
      rw [h1, h2]
      simp
    | ok token =>
      have h1 : c.Request E "GET" path (none : Option Unit) result
          = common.Client.exchange E
              { Method := "GET", URL := u, Header := common.requestHeader token, Body := none }
              result := by
        unfold common.Client.Request
        simp [common.bodyReader, NewRequest, hu, ht, common.requestHeader]
      have h2 : c.RequestWithQuery E path params result
          = common.Client.exchange E
              { Method := "GET", URL := common.queryURL E u params,
                Header := common.queryHeader token, Body := none } result := by
        unfold common.Client.RequestWithQuery
        cases params <;> simp [NewRequest, hu, ht, common.queryHeader, common.queryURL]
      rw [h1, h2]
      simp only [common.exchange_sent, reduceCtorEq, iff_self, false_implies, and_self,
        Option.some.injEq, true_and]
      intro ra rb hra hrb
      subst hra hrb
      refine ⟨rfl, rfl, rfl, rfl, ?_, ?_, ?_, ?_, ?_, ?_⟩
      · simp [requestHeader_eq, queryHeader_eq]
      · cases hp : params with
        | none => rw [hnone u]
        | some p => rw [hsome u p hp]
      · intro hp
        rw [hp, hnone u]
      · intro hp
        cases hp2 : params with
        | none => exact absurd hp2 hp
        | some p => rw [hsome u p hp2]
      · intro henc
        cases hp : params with
        | none => rw [hnone u]
        | some p =>
          rw [hsome u p hp]
          show u = { u with RawQuery := (u.Query E).Encode }
          rw [henc]
      · intro hdo
        exact exchange_congr E _ _ result hdo

/-- C15 (amended) at a concrete input: a path without a query and a mapping whose only value is
empty; both calls request the same URL and return the same decoded wallet. -/
theorem C15_get_without_body_and_query_call_witness :
    (fixture.client.Request
        (fixture.server (.obj [("code", .int 200000), ("data", .obj [("wallet_id", .str "w-1")])]))
        "GET" "/api/v1/wallets/w-1" (none : Option Unit) (some ({} : wallet.Wallet))).err
      = (fixture.client.RequestWithQuery
        (fixture.server (.obj [("code", .int 200000), ("data", .obj [("wallet_id", .str "w-1")])]))
        "/api/v1/wallets/w-1" (some [("status", "")]) (some ({} : wallet.Wallet))).err
    ∧ (fixture.client.Request
        (fixture.server (.obj [("code", .int 200000), ("data", .obj [("wallet_id", .str "w-1")])]))
        "GET" "/api/v1/wallets/w-1" (none : Option Unit) (some ({} : wallet.Wallet))).result
      = (fixture.client.RequestWithQuery
        (fixture.server (.obj [("code", .int 200000), ("data", .obj [("wallet_id", .str "w-1")])]))
        "/api/v1/wallets/w-1" (some [("status", "")]) (some ({} : wallet.Wallet))).result :=
  ((C15_get_without_body_and_query_call fixture.client
      (fixture.server (.obj [("code", .int 200000), ("data", .obj [("wallet_id", .str "w-1")])]))
      "/api/v1/wallets/w-1" (some [("status", "")]) (some ({} : wallet.Wallet))
      (by decide)).2
    { Method := "GET",
      URL := { Loc := "https://mpcgwapi-sandbox.reefiy.dev/api/v1/wallets/w-1", RawQuery := "" },
      Header := [("Content-Type", "application/json"), ("Authorization", "Bearer tok-1")],
      Body := none }
    { Method := "GET",
      URL := { Loc := "https://mpcgwapi-sandbox.reefiy.dev/api/v1/wallets/w-1", RawQuery := "" },
      Header := [("Authorization", "Bearer tok-1")],
      Body := none } rfl rfl).2.2.2.2.2.2.2.2.2 rfl

/-! ### The token cache -/

/-- A token that `GetToken` has returned is cached: the next `GetToken` returns it again and
leaves the state, the count of exchange calls included, as it is. -/
theorem GetToken_cached (tm : auth.TokenManager) (R : auth.Remote) (s : auth.State)
    (t : String) (h : (tm.GetToken R s).1 = .ok t) :
    tm.GetToken R (tm.GetToken R s).2 = (.ok t, (tm.GetToken R s).2) := by
  unfold auth.TokenManager.GetToken at h ⊢
  cases hs : s.token with
  | some token =>
    simp only [hs] at h ⊢
    cases h
    simp [hs]
  | none =>
    simp only [hs] at h ⊢
    cases hx : R.exchange tm.apiKey tm.apiSecret s.exchanges with
    | ok token =>
      simp only [hx] at h ⊢
      cases h
      rfl
    | error e => simp [hx] at h

/-- With no cached token `GetToken` makes exactly one exchange call and answers what it
answers. -/
theorem GetToken_unauthenticated (tm : auth.TokenManager) (R : auth.Remote) (s : auth.State)
    (h : s.token = none) :
    (tm.GetToken R s).1 = R.exchange tm.apiKey tm.apiSecret s.exchanges
      ∧ (tm.GetToken R s).2.exchanges = s.exchanges + 1 := by
  unfold auth.TokenManager.GetToken
  rw [h]
  cases hx : R.exchange tm.apiKey tm.apiSecret s.exchanges <;> exact ⟨rfl, rfl⟩

/-- A call of `Request` that reaches `GetToken` with a token manager that answers the token `t`
sends a request that carries `Authorization: Bearer t`. -/
theorem RequestFrom_sent {β α : Type} [Marshaler β] [Unmarshaler α] (c : common.Client)
    (E : Env) (R : auth.Remote) (s : auth.State) (method path : String) (body : Option β)
    (result : Option α) (t : String)
    (hreach : c.reachesGetToken E method path body = true)
    (htoken : (c.TokenManager.GetToken R s).1 = .ok t) :
    (c.RequestFrom E R s method path body result).2 = (c.TokenManager.GetToken R s).2
      ∧ (c.RequestFrom E R s method path body result).1.sent.map
          (fun req => req.Header.Get "Authorization") = some (some ("Bearer " ++ t)) := by
  unfold common.Client.RequestFrom
  refine ⟨by simp [hreach], ?_⟩
  unfold common.Client.reachesGetToken at hreach
  unfold common.Client.Request
  cases hb : common.bodyReader body with
  | error e => simp [hb] at hreach
  | ok reader =>
    cases hu : E.parseRequestURL method (c.BaseURL ++ path) with
    | error e => simp [hb, NewRequest, hu] at hreach
    | ok u =>
      simp [NewRequest, hu, htoken, common.exchange_sent, Header.Get, Header.Set, List.lookup]

/-- C13 (against the token manager modelled from the spec): on the client that `NewClient`
returns, starting with no cached token and with a credential exchange that answers the token
`t`, two `GetToken` calls in succession return `t` both and make one exchange call between
them; two consecutive `Request` calls that get as far as `GetToken` make one exchange call
between them and both carry `Bearer t`; after `Client.Logout` the cache is empty, no further
exchange call has been made, and the next `GetToken` makes a new exchange call and answers
what that call answers. -/
theorem C13_token_cached_until_logout {β α : Type} [Marshaler β] [Unmarshaler α]
    (apiKey apiSecret : String) (cfg : configuration.Config) (mc : mpcsdk.Client)
    (R : auth.Remote) (s : auth.State) (t : String)
    (hnew : mpcsdk.NewClient apiKey apiSecret (some cfg) = (some mc, none))
    (hfresh : s.token = none)
    (hexchange : R.exchange apiKey apiSecret s.exchanges = .ok t) :
    mc.apiClient.TokenManager = mc.tokenManager
    ∧ ((mc.tokenManager.GetToken R s).1 = .ok t
      ∧ (mc.tokenManager.GetToken R (mc.tokenManager.GetToken R s).2).1 = .ok t
      ∧ (mc.tokenManager.GetToken R (mc.tokenManager.GetToken R s).2).2.exchanges
          = s.exchanges + 1)
    ∧ (∀ (E : Env) (m1 p1 m2 p2 : String) (b1 b2 : Option β) (r1 r2 : Option α),
        mc.apiClient.reachesGetToken E m1 p1 b1 = true →
        mc.apiClient.reachesGetToken E m2 p2 b2 = true →
        (mc.apiClient.RequestFrom E R
            (mc.apiClient.RequestFrom E R s m1 p1 b1 r1).2 m2 p2 b2 r2).2.exchanges
          = s.exchanges + 1
        ∧ (mc.apiClient.RequestFrom E R s m1 p1 b1 r1).1.sent.map
            (fun req => req.Header.Get "Authorization") = some (some ("Bearer " ++ t))
        ∧ (mc.apiClient.RequestFrom E R
            (mc.apiClient.RequestFrom E R s m1 p1 b1 r1).2 m2 p2 b2 r2).1.sent.map
            (fun req => req.Header.Get "Authorization") = some (some ("Bearer " ++ t)))
    ∧ ((mc.Logout R (mc.tokenManager.GetToken R (mc.tokenManager.GetToken R s).2).2).1
          = R.invalidate t
      ∧ (mc.Logout R (mc.tokenManager.GetToken R (mc.tokenManager.GetToken R s).2).2).2.token
          = none
      ∧ (mc.Logout R (mc.tokenManager.GetToken R
            (mc.tokenManager.GetToken R s).2).2).2.exchanges = s.exchanges + 1
      ∧ (mc.tokenManager.GetToken R (mc.Logout R (mc.tokenManager.GetToken R
            (mc.tokenManager.GetToken R s).2).2).2).1
          = R.exchange apiKey apiSecret (s.exchanges + 1)
      ∧ (mc.tokenManager.GetToken R (mc.Logout R (mc.tokenManager.GetToken R
            (mc.tokenManager.GetToken R s).2).2).2).2.exchanges = s.exchanges + 2) := by
  have hmc : mc = { config := some cfg,
                    tokenManager := auth.NewTokenManager apiKey apiSecret cfg.BaseURL,
                    apiClient := common.NewClient cfg.BaseURL
                      (auth.NewTokenManager apiKey apiSecret cfg.BaseURL),
                    Wallet := some (wallet.NewService (common.NewClient cfg.BaseURL
                      (auth.NewTokenManager apiKey apiSecret cfg.BaseURL))),
                    Account := some (account.NewService (common.NewClient cfg.BaseURL
                      (auth.NewTokenManager apiKey apiSecret cfg.BaseURL))),
                    Asset := some (asset.NewService (common.NewClient cfg.BaseURL
                      (auth.NewTokenManager apiKey apiSecret cfg.BaseURL))),
                    Transaction := some (transaction.NewService (common.NewClient cfg.BaseURL
                      (auth.NewTokenManager apiKey apiSecret cfg.BaseURL))) } := by
    unfold mpcsdk.NewClient at hnew
    split at hnew
    · cases hnew
    · split at hnew
      · cases hnew
      · simp only [Prod.mk.injEq, Option.some.injEq, and_true] at hnew
        exact hnew.symm
  have htm : mc.tokenManager = auth.NewTokenManager apiKey apiSecret cfg.BaseURL := by
    rw [hmc]
  have hshared : mc.apiClient.TokenManager = mc.tokenManager := by rw [hmc]; rfl
  have hx : R.exchange mc.tokenManager.apiKey mc.tokenManager.apiSecret s.exchanges = .ok t := by
    rw [htm]; exact hexchange
  have hg1 := GetToken_unauthenticated mc.tokenManager R s hfresh
  rw [hx] at hg1
  have hg2 := GetToken_cached mc.tokenManager R s t hg1.1
  have hs1 : (mc.tokenManager.GetToken R s).2 = { token := some t, exchanges := s.exchanges + 1 } := by
    unfold auth.TokenManager.GetToken
    rw [hfresh]
    simp only [hx]
  refine ⟨hshared, ⟨hg1.1, by rw [hg2], by rw [hg2]; exact hg1.2⟩, ?_, ?_⟩
  · intro E m1 p1 m2 p2 b1 b2 r1 r2 hr1 hr2
    have ht1 : (mc.apiClient.TokenManager.GetToken R s).1 = .ok t := by rw [hshared]; exact hg1.1
    have h1 := RequestFrom_sent mc.apiClient E R s m1 p1 b1 r1 t hr1 ht1
    have ht2 : (mc.apiClient.TokenManager.GetToken R
        (mc.apiClient.RequestFrom E R s m1 p1 b1 r1).2).1 = .ok t := by
      rw [h1.1, hshared, hg2]
    have h2 := RequestFrom_sent mc.apiClient E R _ m2 p2 b2 r2 t hr2 ht2
    refine ⟨?_, h1.2, h2.2⟩
    rw [h2.1, h1.1, hshared, hg2]
    exact hg1.2
  · rw [hg2]
    simp only [mpcsdk.Client.Logout, auth.TokenManager.Logout, hs1]
    refine ⟨trivial, trivial, trivial, ?_, ?_⟩
    · have := GetToken_unauthenticated mc.tokenManager R
        { token := none, exchanges := s.exchanges + 1 } rfl
      rw [this.1, htm]
      rfl
    · have := GetToken_unauthenticated mc.tokenManager R
        { token := none, exchanges := s.exchanges + 1 } rfl
      exact this.2

/-- C13 at a concrete input: a new client against a remote that hands out `tok-1`, `tok-2`, ...:
two `Wallet.Get` requests in a row carry `tok-1` after one exchange call, and after `Logout`
the next `GetToken` makes the second exchange call and gets `tok-2`. -/
theorem C13_token_cached_until_logout_witness :
    ((fixture.client.RequestFrom (fixture.server (.obj [("code", .int 200000)])) fixture.remote
        (fixture.client.RequestFrom (fixture.server (.obj [("code", .int 200000)]))
          fixture.remote {} "GET" "/api/v1/wallets/w-1" (none : Option Unit)
          (some ({} : wallet.Wallet))).2
        "GET" "/api/v1/wallets/w-2" (none : Option Unit) (some ({} : wallet.Wallet))).2.exchanges
      = 1
    ∧ (fixture.client.RequestFrom (fixture.server (.obj [("code", .int 200000)])) fixture.remote
        (fixture.client.RequestFrom (fixture.server (.obj [("code", .int 200000)]))
          fixture.remote {} "GET" "/api/v1/wallets/w-1" (none : Option Unit)
          (some ({} : wallet.Wallet))).2
        "GET" "/api/v1/wallets/w-2" (none : Option Unit) (some ({} : wallet.Wallet))).1.sent.map
          (fun req => req.Header.Get "Authorization") = some (some "Bearer tok-1"))
    ∧ (fixture.client.TokenManager.GetToken fixture.remote
        (auth.TokenManager.Logout fixture.client.TokenManager fixture.remote
          (fixture.client.TokenManager.GetToken fixture.remote
            (fixture.client.TokenManager.GetToken fixture.remote {}).2).2).2)
      = (.ok "tok-2", { token := some "tok-2", exchanges := 2 }) := by
  have h := C13_token_cached_until_logout (β := Unit) (α := wallet.Wallet) "key" "secret"
    configuration.Sandbox
    { config := some configuration.Sandbox,
      tokenManager := auth.NewTokenManager "key" "secret" configuration.Sandbox.BaseURL,
      apiClient := fixture.client,
      Wallet := some (wallet.NewService fixture.client),
      Account := some (account.NewService fixture.client),
      Asset := some (asset.NewService fixture.client),
      Transaction := some (transaction.NewService fixture.client) }
    fixture.remote {} "tok-1" rfl rfl rfl
  have h3 := h.2.2.1 (fixture.server (.obj [("code", .int 200000)]))
    "GET" "/api/v1/wallets/w-1" "GET" "/api/v1/wallets/w-2" none none
    (some ({} : wallet.Wallet)) (some ({} : wallet.Wallet)) rfl rfl
  exact ⟨⟨h3.1, h3.2.2⟩, rfl⟩

/-! ### The encoded query string -/

set_option maxRecDepth 100000 in
/-- Every byte is escaped into characters of the escaped alphabet. -/
theorem escapeByte_chars : ∀ b : Fin 256, (escapeByte b.val).data.all isQueryChar = true := by
  decide

theorem foldl_append_data (l : List String) (acc : String) :
    (l.foldl (fun r s => r ++ s) acc).data = acc.data ++ l.flatMap (fun s => s.data) := by
  induction l generalizing acc with
  | nil => simp
  | cons a rest ih =>
    rw [List.foldl_cons, ih, String.data_append, List.flatMap_cons, List.append_assoc]

/-- Every character of an escaped string is of the escaped alphabet. -/
theorem QueryEscape_chars (s : String) (c : Char) (h : c ∈ (QueryEscape s).data) :
    isQueryChar c = true := by
  unfold QueryEscape String.join at h
  rw [foldl_append_data] at h
  simp only [List.nil_append, List.mem_flatMap, List.mem_map] at h
  obtain ⟨e, ⟨b, _, rfl⟩, hc⟩ := h
  have hb := escapeByte_chars ⟨b.toNat, b.toNat_lt⟩
  exact List.all_eq_true.1 hb c hc

/-- The keys after the loop, counted: a key of the values before keeps its count, a new key
with a non-empty value is entered once. -/
theorem count_keys_addParams (params : GoMap) (q : Values) (k : String) :
    List.count k ((common.addParams q params).map Prod.fst)
      = List.count k (q.map Prod.fst)
        + (if k ∈ q.map Prod.fst then 0
           else if params.any (fun kv => kv.1 == k && kv.2 != "") then 1 else 0) := by
  unfold common.addParams
  induction params generalizing q with
  | nil => simp
  | cons e rest ih =>
    obtain ⟨a, b⟩ := e
    rw [List.foldl_cons, ih, List.any_cons]
    generalize (rest.any fun kv => kv.1 == k && kv.2 != "") = r
    by_cases hv : b = ""
    · subst hv
      simp
    · have hstep : (if (a, b).2 ≠ "" then Values.Add q (a, b).1 (a, b).2 else q)
          = Values.Add q a b := by
        simp [hv]
      rw [hstep, Values_keys_Add]
      by_cases he : a ∈ q.map Prod.fst
      · rw [if_pos he]
        by_cases hk : k ∈ q.map Prod.fst
        · simp [hk]
        · have hne : ¬ a = k := fun h => hk (h ▸ he)
          simp [hk, hne]
      · rw [if_neg he]
        by_cases hek : a = k
        · subst hek
          simp [he, hv, List.count_append]
        · have hke : ¬ k = a := fun h => hek h.symm
          by_cases hk : k ∈ q.map Prod.fst
          · simp [hk, List.count_append, hke]
          · simp [hk, List.count_append, hke, hek]

theorem any_perm {β : Type} (f : β → Bool) (l1 l2 : List β) (h : l1.Perm l2) :
    l1.any f = l2.any f := by
  rw [Bool.eq_iff_iff]
  simp only [List.any_eq_true]
  constructor
  · rintro ⟨x, hx, hf⟩
    exact ⟨x, h.mem_iff.1 hx, hf⟩
  · rintro ⟨x, hx, hf⟩
    exact ⟨x, h.mem_iff.2 hx, hf⟩

/-- The keys after the loop do not depend, up to their order, on the order in which the
entries of the mapping are visited. -/
theorem keys_addParams_perm (p1 p2 : GoMap) (q : Values) (h : p1.Perm p2) :
    ((common.addParams q p1).map Prod.fst).Perm ((common.addParams q p2).map Prod.fst) := by
  rw [List.perm_iff_count]
  intro k
  rw [count_keys_addParams, count_keys_addParams, any_perm _ p1 p2 h]

/-- The entries of one key are the same in whatever order a map is visited. -/
theorem filter_key_perm (p1 p2 : GoMap) (hwf : p1.WF) (h : p1.Perm p2) (k : String) :
    p1.filter (fun kv => decide (kv.1 = k)) = p2.filter (fun kv => decide (kv.1 = k)) := by
  have hwf2 : p2.WF := (h.map Prod.fst).nodup_iff.1 hwf
  by_cases hex : ∃ v, (k, v) ∈ p1
  · obtain ⟨v, hv⟩ := hex
    rw [GoMap_filter_key p1 k v hwf hv, GoMap_filter_key p2 k v hwf2 (h.mem_iff.1 hv)]
  · have h1 : p1.filter (fun kv => decide (kv.1 = k)) = [] := by
      rw [List.filter_eq_nil_iff]
      intro x hx hxk
      simp only [decide_eq_true_eq] at hxk
      exact hex ⟨x.2, by rw [← hxk]; exact hx⟩
    have h2 : p2.filter (fun kv => decide (kv.1 = k)) = [] := by
      rw [List.filter_eq_nil_iff]
      intro x hx hxk
      simp only [decide_eq_true_eq] at hxk
      exact hex ⟨x.2, by rw [← hxk]; exact h.mem_iff.2 hx⟩
    rw [h1, h2]

/-- The values of every key after the loop do not depend on the order in which the entries of
the mapping are visited. -/
theorem values_addParams_perm (p1 p2 : GoMap) (q : Values) (hwf : p1.WF) (h : p1.Perm p2)
    (k : String) :
    (common.addParams q p1).values k = (common.addParams q p2).values k := by
  rw [values_addParams, values_addParams]
  have hsplit : ∀ p : GoMap, p.filter (fun kv => decide (kv.1 = k ∧ kv.2 ≠ ""))
      = (p.filter (fun kv => decide (kv.1 = k))).filter (fun kv => decide (kv.2 ≠ "")) := by
    intro p
    rw [List.filter_filter]
    congr 1
    funext kv
    simp [Bool.and_comm]
  rw [hsplit p1, hsplit p2, filter_key_perm p1 p2 hwf h k]

/-- The pairs that `Encode` writes are determined by the keys up to their order and by the
values of every key. -/
theorem pairs_congr (q1 q2 : Values) (hkeys : (q1.map Prod.fst).Perm (q2.map Prod.fst))
    (hvalues : ∀ k, q1.values k = q2.values k) : q1.pairs = q2.pairs := by
  unfold Values.pairs
  have hsort : (q1.map Prod.fst).insertionSort keyLE = (q2.map Prod.fst).insertionSort keyLE :=
    List.eq_of_perm_of_sorted
      (((List.perm_insertionSort keyLE _).trans hkeys).trans
        (List.perm_insertionSort keyLE _).symm)
      (List.sorted_insertionSort keyLE _) (List.sorted_insertionSort keyLE _)
  rw [hsort]
  congr 1
  funext k
  rw [hvalues k]

/-- The pairs that `Encode` writes are in ascending order of their keys. -/
theorem pairs_sorted (q : Values) : List.Pairwise (fun a b => keyLE a.1 b.1) q.pairs := by
  unfold Values.pairs
  rw [List.pairwise_flatMap]
  constructor
  · intro k _
    rw [List.pairwise_map]
    exact List.pairwise_of_forall (fun _ _ => (IsTotal.total k k).elim id id)
  · refine List.Pairwise.imp ?_ (List.sorted_insertionSort keyLE _)
    intro a b hab x hx y hy
    obtain ⟨_, _, rfl⟩ := List.mem_map.1 hx
    obtain ⟨_, _, rfl⟩ := List.mem_map.1 hy
    exact hab

/-- C14: the query string that `RequestWithQuery` builds does not depend on the order in which
the entries of the map are visited: for two visiting orders `p1` and `p2` of one map, and
whatever query values the loop starts from, the encoded string is the same, and so is the
whole outcome of the call.  The string that is sent is the `&`-joined list of
`QueryEscape(key)=QueryEscape(value)` over the pairs in ascending order of their keys, and an
escaped key or value consists of letters, digits, `-`, `_`, `.`, `~`, `+` and `%` only. -/
theorem C14_query_string_is_canonical {α : Type} [Unmarshaler α] (c : common.Client)
    (E : Env) (path : String) (p1 p2 : GoMap) (result : Option α)
    (hwf : p1.WF) (hperm : p1.Perm p2) :
    (∀ q : Values, (common.addParams q p1).Encode = (common.addParams q p2).Encode)
    ∧ c.RequestWithQuery E path (some p1) result = c.RequestWithQuery E path (some p2) result
    ∧ (∀ req, (c.RequestWithQuery E path (some p1) result).sent = some req →
        ∃ u, E.parseRequestURL "GET" (c.BaseURL ++ path) = .ok u
          ∧ req.URL.RawQuery
              = "&".intercalate ((common.addParams (u.Query E) p1).pairs.map
                  (fun kv => QueryEscape kv.1 ++ "=" ++ QueryEscape kv.2))
          ∧ List.Pairwise (fun a b => keyLE a.1 b.1) (common.addParams (u.Query E) p1).pairs)
    ∧ (∀ (s : String) (ch : Char), ch ∈ (QueryEscape s).data → isQueryChar ch = true) := by
  have henc : ∀ q : Values,
      (common.addParams q p1).Encode = (common.addParams q p2).Encode := by
    intro q
    unfold Values.Encode
    rw [pairs_congr _ _ (keys_addParams_perm p1 p2 q hperm)
      (values_addParams_perm p1 p2 q hwf hperm)]
  refine ⟨henc, ?_, ?_, QueryEscape_chars⟩
  · simp only [common.Client.RequestWithQuery, henc]
  · intro req hsent
    obtain ⟨u, _, hu, _, hreq, _⟩ :=
      common.RequestWithQuery_sent c E path (some p1) result req hsent
    exact ⟨u, hu, by rw [hreq]; rfl, pairs_sorted _⟩

/-- C14 at a concrete input: one map with three entries visited in two orders; the value of
`q` holds a space and an ampersand. -/
theorem C14_query_string_is_canonical_witness :
    (fixture.client.RequestWithQuery (fixture.server (.obj [("code", .int 200000)]))
        "/api/v1/wallets" (some [("status", "ACTIVE"), ("q", "a b&c"), ("page", "2")])
        (some ([] : List (Option wallet.Wallet)))).sent.map (fun req => req.URL.RawQuery)
      = some "page=2&q=a+b%26c&status=ACTIVE"
    ∧ (fixture.client.RequestWithQuery (fixture.server (.obj [("code", .int 200000)]))
        "/api/v1/wallets" (some [("page", "2"), ("status", "ACTIVE"), ("q", "a b&c")])
        (some ([] : List (Option wallet.Wallet)))).sent.map (fun req => req.URL.RawQuery)
      = some "page=2&q=a+b%26c&status=ACTIVE" := by
  have h := C14_query_string_is_canonical fixture.client
    (fixture.server (.obj [("code", .int 200000)])) "/api/v1/wallets"
    [("status", "ACTIVE"), ("q", "a b&c"), ("page", "2")]
    [("page", "2"), ("status", "ACTIVE"), ("q", "a b&c")]
    (some ([] : List (Option wallet.Wallet))) (by decide) (by decide)
  have h1 : (fixture.client.RequestWithQuery (fixture.server (.obj [("code", .int 200000)]))
        "/api/v1/wallets" (some [("status", "ACTIVE"), ("q", "a b&c"), ("page", "2")])
        (some ([] : List (Option wallet.Wallet)))).sent.map (fun req => req.URL.RawQuery)
      = some "page=2&q=a+b%26c&status=ACTIVE" := by decide
  exact ⟨h1, by rw [← h.2.1]; exact h1⟩

end MpcSdk
